import Mathlib

/-!
# curlite

A shallow embedding of `curlite.hpp` / `curlite.cpp`, a C++ binding over the
"easy" interface of libcurl, and theorems about it.

* C++ objects (`Easy`, `Easy::Pimpl`, `List`, `Form`) live in a `World`, a store
  indexed by address; the null pointer is address `0`.
* A member function is a `Prog`: a function from the world to an outcome and
  the world afterwards.  An outcome is a normal return, a raised
  `curlite::Exception`, or undefined behaviour (a null or dangling
  dereference).
* The native library is not part of the repository.  Every call into it is
  appended to the world's `trace`, and what it answers is read from an
  oracle `Native`, which may depend on the calls made before.
* User handlers (`std::function` values) act on a user state `σ`.
-/

namespace curlite

/-! ## Native types and constants (`<curl/curl.h>`) -/

/-- A machine address; `0` is `nullptr`. -/
abbrev Ptr := Nat

/-- The enum `CURLcode`. -/
abbrev CURLcode := Nat

/-- The enum `CURLoption`, as the integer it promotes to. -/
abbrev CURLoption := Int

def CURLE_OK : CURLcode := 0
def CURLE_ABORTED_BY_CALLBACK : CURLcode := 42
def CURLE_BAD_FUNCTION_ARGUMENT : CURLcode := 43

def CURLOPTTYPE_LONG : Int := 0
def CURLOPTTYPE_OBJECTPOINT : Int := 10000
def CURLOPTTYPE_FUNCTIONPOINT : Int := 20000
def CURLOPTTYPE_OFF_T : Int := 30000

def CURLOPT_WRITEDATA : CURLoption := CURLOPTTYPE_OBJECTPOINT + 1
def CURLOPT_URL : CURLoption := CURLOPTTYPE_OBJECTPOINT + 2
def CURLOPT_READDATA : CURLoption := CURLOPTTYPE_OBJECTPOINT + 9
def CURLOPT_WRITEFUNCTION : CURLoption := CURLOPTTYPE_FUNCTIONPOINT + 11
def CURLOPT_READFUNCTION : CURLoption := CURLOPTTYPE_FUNCTIONPOINT + 12
def CURLOPT_USERAGENT : CURLoption := CURLOPTTYPE_OBJECTPOINT + 18
def CURLOPT_HTTPHEADER : CURLoption := CURLOPTTYPE_OBJECTPOINT + 23
def CURLOPT_HEADERDATA : CURLoption := CURLOPTTYPE_OBJECTPOINT + 29
def CURLOPT_VERBOSE : CURLoption := CURLOPTTYPE_LONG + 41
def CURLOPT_NOPROGRESS : CURLoption := CURLOPTTYPE_LONG + 43
def CURLOPT_UPLOAD : CURLoption := CURLOPTTYPE_LONG + 46
def CURLOPT_FOLLOWLOCATION : CURLoption := CURLOPTTYPE_LONG + 52
def CURLOPT_PROGRESSFUNCTION : CURLoption := CURLOPTTYPE_FUNCTIONPOINT + 56
def CURLOPT_PROGRESSDATA : CURLoption := CURLOPTTYPE_OBJECTPOINT + 57
def CURLOPT_XFERINFODATA : CURLoption := CURLOPT_PROGRESSDATA
def CURLOPT_HEADERFUNCTION : CURLoption := CURLOPTTYPE_FUNCTIONPOINT + 79
def CURLOPT_DEBUGFUNCTION : CURLoption := CURLOPTTYPE_FUNCTIONPOINT + 94
def CURLOPT_DEBUGDATA : CURLoption := CURLOPTTYPE_OBJECTPOINT + 95
def CURLOPT_SSL_CTX_FUNCTION : CURLoption := CURLOPTTYPE_FUNCTIONPOINT + 108
def CURLOPT_SSL_CTX_DATA : CURLoption := CURLOPTTYPE_OBJECTPOINT + 109
def CURLOPT_INFILESIZE_LARGE : CURLoption := CURLOPTTYPE_OFF_T + 115
def CURLOPT_IOCTLFUNCTION : CURLoption := CURLOPTTYPE_FUNCTIONPOINT + 130
def CURLOPT_IOCTLDATA : CURLoption := CURLOPTTYPE_OBJECTPOINT + 131
def CURLOPT_SOCKOPTFUNCTION : CURLoption := CURLOPTTYPE_FUNCTIONPOINT + 148
def CURLOPT_SOCKOPTDATA : CURLoption := CURLOPTTYPE_OBJECTPOINT + 149
def CURLOPT_OPENSOCKETFUNCTION : CURLoption := CURLOPTTYPE_FUNCTIONPOINT + 163
def CURLOPT_OPENSOCKETDATA : CURLoption := CURLOPTTYPE_OBJECTPOINT + 164
def CURLOPT_SEEKFUNCTION : CURLoption := CURLOPTTYPE_FUNCTIONPOINT + 167
def CURLOPT_SEEKDATA : CURLoption := CURLOPTTYPE_OBJECTPOINT + 168
def CURLOPT_USERNAME : CURLoption := CURLOPTTYPE_OBJECTPOINT + 173
def CURLOPT_PASSWORD : CURLoption := CURLOPTTYPE_OBJECTPOINT + 174
def CURLOPT_CHUNK_BGN_FUNCTION : CURLoption := CURLOPTTYPE_FUNCTIONPOINT + 198
def CURLOPT_CHUNK_END_FUNCTION : CURLoption := CURLOPTTYPE_FUNCTIONPOINT + 199
def CURLOPT_FNMATCH_FUNCTION : CURLoption := CURLOPTTYPE_FUNCTIONPOINT + 200
def CURLOPT_CHUNK_DATA : CURLoption := CURLOPTTYPE_OBJECTPOINT + 201
def CURLOPT_FNMATCH_DATA : CURLoption := CURLOPTTYPE_OBJECTPOINT + 202
def CURLOPT_CLOSESOCKETFUNCTION : CURLoption := CURLOPTTYPE_FUNCTIONPOINT + 208
def CURLOPT_CLOSESOCKETDATA : CURLoption := CURLOPTTYPE_OBJECTPOINT + 209
def CURLOPT_XFERINFOFUNCTION : CURLoption := CURLOPTTYPE_FUNCTIONPOINT + 219

/-- The value `0x10000000` a read callback returns to abort the transfer. -/
def CURL_READFUNC_ABORT : Nat := 0x10000000
/-- The enumerator of `curlioerr` after `CURLIOE_OK`. -/
def CURLIOE_UNKNOWNCMD : Int := 1
/-- The value `(curl_socket_t) -1`. -/
def CURL_SOCKET_BAD : Int := -1
def CURL_FNMATCHFUNC_FAIL : Int := 2
def CURL_CHUNK_BGN_FUNC_FAIL : Int := 1
def CURL_CHUNK_END_FUNC_FAIL : Int := 1

/-- What the build platform fixes: whether `curl_off_t` is the very type `long`
(`std::is_same<long, curl_off_t>::value`) and the width of `size_t`. -/
structure Platform where
  long_is_curl_off_t : Bool
  size_t_bits : Nat
  deriving DecidableEq, Repr

/-- The static C++ types a value handed to `Easy::set` can have.  The `_callback`
constructors are the function-pointer typedefs of `<curl/curl.h>`;
`curl_read_callback` is the same function-pointer type as `curl_write_callback`,
which is why the header specialises `OptionTypeCode` for only one of them. -/
inductive CType where
  | void
  | bool
  | int
  | long
  | long_long
  | double
  | nullptr_t
  | void_ptr
  | char_ptr
  | const_char_ptr
  | curl_slist_ptr
  | curl_httppost_ptr
  | FILE_ptr
  | curl_progress_callback
  | curl_xferinfo_callback
  | curl_write_callback
  | curl_chunk_bgn_callback
  | curl_chunk_end_callback
  | curl_fnmatch_callback
  | curl_seek_callback
  | curl_sockopt_callback
  | curl_opensocket_callback
  | curl_closesocket_callback
  | curl_ioctl_callback
  | curl_debug_callback
  | curl_conv_callback
  | curl_ssl_ctx_callback
  | curl_formget_callback
  | curl_certinfo_ptr
  | curl_tlssessioninfo_ptr
  deriving DecidableEq, Repr

/-- The typedef `curl_read_callback`: `size_t (*)(char *, size_t, size_t, void *)`. -/
def CType.curl_read_callback : CType := CType.curl_write_callback

/-- The typedef `curl_off_t`: `long` where the platform says so, else a distinct
64-bit integer type. -/
def curl_off_t (p : Platform) : CType :=
  if p.long_is_curl_off_t then CType.long else CType.long_long

/-- The object-pointer types for which `OptionTypeCode` is specialised. -/
def CType.isObjectPtr : CType → Bool
  | .void_ptr | .char_ptr | .const_char_ptr | .curl_slist_ptr
  | .curl_httppost_ptr | .FILE_ptr => true
  | _ => false

/-- The function-pointer types for which `OptionTypeCode` is specialised. -/
def CType.isFunctionPtr : CType → Bool
  | .curl_progress_callback | .curl_xferinfo_callback | .curl_write_callback
  | .curl_chunk_bgn_callback | .curl_chunk_end_callback | .curl_fnmatch_callback
  | .curl_seek_callback | .curl_sockopt_callback | .curl_opensocket_callback
  | .curl_closesocket_callback | .curl_ioctl_callback | .curl_debug_callback
  | .curl_conv_callback | .curl_ssl_ctx_callback | .curl_formget_callback => true
  | _ => false

/-- The static trampolines of `Easy::Pimpl`, as the addresses `&Pimpl::read` ... -/
inductive Trampoline where
  | read | write | header | seek | fnMatch | ioctl | progress | xferInfo
  | chunkBegin | chunkEnd | openSocket | closeSocket | sockOpt | sslContext | debug
  deriving DecidableEq, Repr

/-- What a value handed to the native setter, or stored by the native getter, holds;
a `double` is held as its 64 bits, which the binding never looks into. -/
inductive Payload where
  | int (n : Int)
  | null
  | addr (a : Ptr)
  | fn (t : Trampoline)
  | cstr (s : String)
  | double (bits : Nat)
  deriving DecidableEq, Repr

/-- A C++ value: its static type and what it holds. -/
structure Value where
  ctype : CType
  payload : Payload
  deriving DecidableEq, Repr

/-- The template `std::vector`. -/
abbrev Vec (α : Type) : Type := List α

/-- A byte, the `char` of a `std::string`. -/
abbrev Byte : Type := Fin 256

/-- The enum `CURLINFO`. -/
abbrev CURLINFO := Nat

/-- A call into the native library, with its arguments.  A character buffer is given
by the bytes it holds. -/
inductive NativeCall where
  | curl_easy_init
  | curl_easy_cleanup (curl : Ptr)
  | curl_easy_setopt (curl : Ptr) (key : CURLoption) (value : Value)
  | curl_easy_perform (curl : Ptr)
  | curl_easy_pause (curl : Ptr) (bitmask : Int)
  | curl_easy_reset (curl : Ptr)
  | curl_slist_free_all (list : Ptr)
  | curl_formfree (form : Ptr)
  | curl_slist_append (list : Ptr) (s : String)
  | curl_easy_getinfo (curl : Ptr) (key : CURLINFO)
  | curl_easy_escape (curl : Ptr) (string : Vec Byte) (length : Int)
  | curl_easy_unescape (curl : Ptr) (string : Vec Byte) (length : Int)
  | curl_free (buffer : Vec Byte)
  | curl_easy_send (curl : Ptr) (buffer : Ptr) (buflen : Nat)
  | curl_easy_recv (curl : Ptr) (buffer : Ptr) (buflen : Nat)
  deriving DecidableEq, Repr

/-- The native calls made so far, oldest first. -/
abbrev NativeTrace := List NativeCall

/-- What the native library answers; an answer may depend on the calls made before. -/
structure Native where
  curl_easy_init : NativeTrace → Ptr
  curl_easy_setopt : NativeTrace → Ptr → CURLoption → Value → CURLcode
  curl_easy_perform : NativeTrace → Ptr → CURLcode
  curl_easy_pause : NativeTrace → Ptr → Int → CURLcode
  curl_easy_strerror : CURLcode → String
  /-- The new head of the chain, null on failure. -/
  curl_slist_append : NativeTrace → Ptr → String → Ptr
  /-- The status, and what the call stored through its third argument. -/
  curl_easy_getinfo : NativeTrace → Ptr → CURLINFO → CURLcode × Payload
  /-- The bytes of the zero-terminated string returned, `none` for a null pointer. -/
  curl_easy_escape : NativeTrace → Ptr → Vec Byte → Int → Option (Vec Byte)
  /-- The bytes of the buffer returned and the length stored through the last
  argument, `none` for a null pointer. -/
  curl_easy_unescape : NativeTrace → Ptr → Vec Byte → Int → Option (Vec Byte × Int)
  /-- The status, and the byte count that the variable behind the last argument holds
  after the call. -/
  curl_easy_send : NativeTrace → Ptr → Ptr → Nat → CURLcode × Nat
  /-- The status, and the byte count that the variable behind the last argument holds
  after the call. -/
  curl_easy_recv : NativeTrace → Ptr → Ptr → Nat → CURLcode × Nat

/-! ## The data model (`curlite.hpp`, `curlite.cpp`) -/

/-- The class `curlite::Exception` (a `std::runtime_error`): its message. -/
structure Exception where
  what : String
  deriving DecidableEq, Repr

/-- The handler type `std::function<size_t (char *, size_t, size_t, void *)>`:
`Handler<curl_write_callback>::type`, and `Handler<curl_read_callback>::type` alike. -/
abbrev WriteHandler (σ : Type) := Ptr → Nat → Nat → Ptr → σ → Nat × σ
abbrev ReadHandler (σ : Type) := Ptr → Nat → Nat → Ptr → σ → Nat × σ
/-- A handler `curlioerr (CURL *handle, int cmd, void *clientp)`. -/
abbrev IoctlHandler (σ : Type) := Ptr → Int → Ptr → σ → Int × σ
/-- A handler `int (void *instream, curl_off_t offset, int origin)`. -/
abbrev SeekHandler (σ : Type) := Ptr → Int → Int → σ → Int × σ
/-- A handler `int (void *ptr, const char *pattern, const char *string)`. -/
abbrev FnMatchHandler (σ : Type) := Ptr → Ptr → Ptr → σ → Int × σ
/-- A handler `int (void *clientp, double, double, double, double)`. -/
abbrev ProgressHandler (σ : Type) := Ptr → Float → Float → Float → Float → σ → Int × σ
/-- A handler `int (void *clientp, curl_off_t, curl_off_t, curl_off_t, curl_off_t)`. -/
abbrev XferInfoHandler (σ : Type) := Ptr → Int → Int → Int → Int → σ → Int × σ
/-- A handler `long (const void *transfer_info, void *ptr, int remains)`. -/
abbrev ChunkBeginHandler (σ : Type) := Ptr → Ptr → Int → σ → Int × σ
/-- A handler `long (void *ptr)`. -/
abbrev ChunkEndHandler (σ : Type) := Ptr → σ → Int × σ
/-- A handler `int (void *clientp, curl_socket_t curlfd, curlsocktype purpose)`. -/
abbrev SockOptHandler (σ : Type) := Ptr → Int → Int → σ → Int × σ
/-- A handler `curl_socket_t (void *clientp, curlsocktype purpose, curl_sockaddr *address)`. -/
abbrev OpenSocketHandler (σ : Type) := Ptr → Int → Ptr → σ → Int × σ
/-- A handler `int (void *clientp, curl_socket_t item)`. -/
abbrev CloseSocketHandler (σ : Type) := Ptr → Int → σ → Int × σ
/-- A handler `CURLcode (CURL *curl, void *ssl_ctx, void *userptr)`. -/
abbrev SslContextHandler (σ : Type) := Ptr → Ptr → Ptr → σ → CURLcode × σ
/-- A handler `int (CURL *handle, curl_infotype type, char *data, size_t size, void *userptr)`. -/
abbrev DebugHandler (σ : Type) := Ptr → Int → Ptr → Nat → Ptr → σ → Int × σ

/-- The type `Easy::SimplifiedDataHandler`: `std::function<bool (char *, size_t)>`. -/
abbrev SimplifiedDataHandler (σ : Type) := Ptr → Nat → σ → Bool × σ
/-- The type `Easy::SimplifiedProgressHandler`. -/
abbrev SimplifiedProgressHandler (σ : Type) := Int → Int → Int → Int → σ → Bool × σ

/-- The template `Event<HandlerType>`: a `std::function` (empty is `none`) and the
user-data pointer handed back to it.  The default is what `Event()` builds. -/
structure Event (HandlerType : Type) where
  handler : Option HandlerType := none
  data : Ptr := 0

/-- The struct `Easy::Pimpl`, the private state of a handle. -/
structure Easy.Pimpl (σ : Type) where
  curl : Ptr
  err : CURLcode
  userData : Ptr
  throwExceptions : Bool
  onRead : Event (ReadHandler σ)
  onWrite : Event (WriteHandler σ)
  onHeader : Event (WriteHandler σ)
  onIoctl : Event (IoctlHandler σ)
  onSeek : Event (SeekHandler σ)
  onFnMatch : Event (FnMatchHandler σ)
  onProgress : Event (ProgressHandler σ)
  onXferInfo : Event (XferInfoHandler σ)
  onChunkBegin : Event (ChunkBeginHandler σ)
  onChunkEnd : Event (ChunkEndHandler σ)
  onSockOpt : Event (SockOptHandler σ)
  onOpenSocket : Event (OpenSocketHandler σ)
  onCloseSocket : Event (CloseSocketHandler σ)
  onSslContext : Event (SslContextHandler σ)
  onDebug : Event (DebugHandler σ)

/-- The constructor `Easy::Pimpl::Pimpl()`. -/
def Easy.Pimpl.ctor {σ : Type} : Easy.Pimpl σ :=
  { curl := 0, err := CURLE_OK, userData := 0, throwExceptions := true,
    onRead := {}, onWrite := {}, onHeader := {}, onIoctl := {}, onSeek := {},
    onFnMatch := {}, onProgress := {}, onXferInfo := {}, onChunkBegin := {},
    onChunkEnd := {}, onSockOpt := {}, onOpenSocket := {}, onCloseSocket := {},
    onSslContext := {}, onDebug := {} }

/-- The class `Easy`: its one member `std::unique_ptr<Pimpl> _impl`, as the
address of the private state (`0` when the pointer is empty). -/
structure Easy where
  _impl : Ptr
  deriving DecidableEq, Repr

/-- The class `Form`: the first and the last node of a `curl_httppost` chain. -/
structure Form where
  _first : Ptr
  _last : Ptr
  deriving DecidableEq, Repr

/-- The class `List`: the head of a `curl_slist` chain. -/
structure List where
  _list : Ptr
  deriving DecidableEq, Repr

/-- The program state: the living objects by address, and the native calls made. -/
structure World (σ : Type) where
  pimpls : Ptr → Option (Easy.Pimpl σ)
  easies : Ptr → Option Easy
  lists : Ptr → Option List
  forms : Ptr → Option Form
  trace : NativeTrace

/-- How a call ends: it returns a value, a `curlite::Exception` propagates out of it,
or its behaviour is undefined (it dereferenced a null or dangling pointer). -/
inductive Outcome (α : Type) where
  | ok (a : α)
  | raised (e : Exception)
  | undefined
  deriving DecidableEq, Repr

/-- A piece of C++ code with a result of type `α`. -/
def Prog (σ : Type) (α : Type) : Type := World σ → Outcome α × World σ

/-- Return `a` and leave the world as it is. -/
def Prog.pure {σ α : Type} (a : α) : Prog σ α := fun w => (Outcome.ok a, w)

/-- Sequencing: an exception or undefined behaviour in `m` skips `f`; the world
`m` left behind is kept. -/
def Prog.bind {σ α β : Type} (m : Prog σ α) (f : α → Prog σ β) : Prog σ β := fun w =>
  match m w with
  | (Outcome.ok a, w1) => f a w1
  | (Outcome.raised e, w1) => (Outcome.raised e, w1)
  | (Outcome.undefined, w1) => (Outcome.undefined, w1)

instance {σ : Type} : Monad (Prog σ) where
  pure := Prog.pure
  bind := Prog.bind

/-- The statement `throw e`. -/
def Prog.raise {σ α : Type} (e : Exception) : Prog σ α := fun w => (Outcome.raised e, w)

/-- Undefined behaviour. -/
def Prog.undef {σ α : Type} : Prog σ α := fun w => (Outcome.undefined, w)

/-- Read the world. -/
def Prog.world {σ : Type} : Prog σ (World σ) := fun w => (Outcome.ok w, w)

/-- Replace the world. -/
def Prog.put {σ : Type} (w : World σ) : Prog σ Unit := fun _ => (Outcome.ok (), w)

/-- The world after one more native call. -/
def World.called {σ : Type} (w : World σ) (c : NativeCall) : World σ :=
  { w with trace := w.trace ++ [c] }

/-- Make the native call `c`, whose answer is `answer` applied to the calls made before it. -/
def Prog.native {σ α : Type} (c : NativeCall) (answer : NativeTrace → α) : Prog σ α := fun w =>
  (Outcome.ok (answer w.trace), w.called c)

/-- Stack unwinding: when an exception leaves `body`, `cleanup` runs, the destructors of
what was constructed, and the exception goes on. -/
def Prog.unwind {σ α : Type} (body : Prog σ α) (cleanup : Prog σ Unit) : Prog σ α := fun w =>
  match body w with
  | (Outcome.raised e, w1) =>
    match cleanup w1 with
    | (Outcome.ok _, w2) => (Outcome.raised e, w2)
    | (_, w2) => (Outcome.undefined, w2)
  | r => r

/-- A block with a local object: `dtor`, its destructor, runs when `body` returns and
when an exception leaves it. -/
def Prog.scoped {σ α : Type} (body : Prog σ α) (dtor : Prog σ Unit) : Prog σ α := do
  let x ← Prog.unwind body dtor
  dtor
  pure x

/-- The world with the private state at address `a` replaced. -/
def World.setPimpl {σ : Type} (w : World σ) (a : Ptr) (v : Option (Easy.Pimpl σ)) : World σ :=
  { w with pimpls := fun x => if x = a then v else w.pimpls x }

/-- The world with the `Easy` object at address `a` replaced. -/
def World.setEasy {σ : Type} (w : World σ) (a : Ptr) (v : Option Easy) : World σ :=
  { w with easies := fun x => if x = a then v else w.easies x }

/-- The world with the `List` object at address `a` replaced. -/
def World.setList {σ : Type} (w : World σ) (a : Ptr) (v : Option List) : World σ :=
  { w with lists := fun x => if x = a then v else w.lists x }

/-- The world with the `Form` object at address `a` replaced. -/
def World.setForm {σ : Type} (w : World σ) (a : Ptr) (v : Option Form) : World σ :=
  { w with forms := fun x => if x = a then v else w.forms x }

/-- The member `_impl` of the `Easy` object at `this`; undefined when no object lives there. -/
def Easy.impl {σ : Type} (this : Ptr) : Prog σ Ptr := fun w =>
  match w.easies this with
  | some e => (Outcome.ok e._impl, w)
  | none => (Outcome.undefined, w)

/-- The dereference `*p` of a `Pimpl` pointer: undefined for the null pointer
and for an address where no private state lives. -/
def Easy.Pimpl.load {σ : Type} (p : Ptr) : Prog σ (Easy.Pimpl σ) := fun w =>
  if p = 0 then (Outcome.undefined, w)
  else match w.pimpls p with
    | some impl => (Outcome.ok impl, w)
    | none => (Outcome.undefined, w)

/-- An assignment through a `Pimpl` pointer: `load`, then write back `f` of what was read. -/
def Easy.Pimpl.modify {σ : Type} (p : Ptr) (f : Easy.Pimpl σ → Easy.Pimpl σ) : Prog σ Unit := do
  let impl ← Easy.Pimpl.load p
  let w ← Prog.world
  Prog.put (w.setPimpl p (some (f impl)))

/-! ## The trampolines: the static callbacks of `Easy::Pimpl` -/

/-- The static member `size_t Easy::Pimpl::read`. -/
def Easy.Pimpl.read {σ : Type} (data : Ptr) (size n : Nat) (userPtr : Ptr) (u : σ) :
    Prog σ (Nat × σ) :=
  if userPtr ≠ 0 then do
    let impl ← Easy.Pimpl.load userPtr
    match impl.onRead.handler with
    | some handler => pure (handler data size n impl.onRead.data u)
    | none => pure (CURL_READFUNC_ABORT, u)
  else pure (CURL_READFUNC_ABORT, u)

/-- The static member `size_t Easy::Pimpl::write`. -/
def Easy.Pimpl.write {σ : Type} (data : Ptr) (size n : Nat) (userPtr : Ptr) (u : σ) :
    Prog σ (Nat × σ) :=
  if userPtr ≠ 0 then do
    let impl ← Easy.Pimpl.load userPtr
    match impl.onWrite.handler with
    | some handler => pure (handler data size n impl.onWrite.data u)
    | none => pure (0, u)
  else pure (0, u)

/-- The static member `size_t Easy::Pimpl::header`. -/
def Easy.Pimpl.header {σ : Type} (data : Ptr) (size n : Nat) (userPtr : Ptr) (u : σ) :
    Prog σ (Nat × σ) :=
  if userPtr ≠ 0 then do
    let impl ← Easy.Pimpl.load userPtr
    match impl.onHeader.handler with
    | some handler => pure (handler data size n impl.onHeader.data u)
    | none => pure (0, u)
  else pure (0, u)

/-- The static member `int Easy::Pimpl::fnMatch`. -/
def Easy.Pimpl.fnMatch {σ : Type} (userPtr pattern string : Ptr) (u : σ) :
    Prog σ (Int × σ) :=
  if userPtr ≠ 0 then do
    let impl ← Easy.Pimpl.load userPtr
    match impl.onFnMatch.handler with
    | some handler => pure (handler impl.onFnMatch.data pattern string u)
    | none => pure (CURL_FNMATCHFUNC_FAIL, u)
  else pure (CURL_FNMATCHFUNC_FAIL, u)

/-- The static member `int Easy::Pimpl::seek`. -/
def Easy.Pimpl.seek {σ : Type} (userPtr : Ptr) (offset origin : Int) (u : σ) :
    Prog σ (Int × σ) :=
  if userPtr ≠ 0 then do
    let impl ← Easy.Pimpl.load userPtr
    match impl.onSeek.handler with
    | some handler => pure (handler impl.onSeek.data offset origin u)
    | none => pure (1, u)
  else pure (1, u)

/-- The static member `curlioerr Easy::Pimpl::ioctl`. -/
def Easy.Pimpl.ioctl {σ : Type} (handle : Ptr) (cmd : Int) (userPtr : Ptr) (u : σ) :
    Prog σ (Int × σ) :=
  if userPtr ≠ 0 then do
    let impl ← Easy.Pimpl.load userPtr
    match impl.onIoctl.handler with
    | some handler => pure (handler handle cmd impl.onIoctl.data u)
    | none => pure (CURLIOE_UNKNOWNCMD, u)
  else pure (CURLIOE_UNKNOWNCMD, u)

/-- The static member `int Easy::Pimpl::progress`. -/
def Easy.Pimpl.progress {σ : Type} (userPtr : Ptr) (dTotal dCurrent uTotal uCurrent : Float) (u : σ) :
    Prog σ (Int × σ) :=
  if userPtr ≠ 0 then do
    let impl ← Easy.Pimpl.load userPtr
    match impl.onProgress.handler with
    | some handler => pure (handler impl.onProgress.data dTotal dCurrent uTotal uCurrent u)
    | none => pure (1, u)
  else pure (1, u)

/-- The static member `int Easy::Pimpl::xferInfo`. -/
def Easy.Pimpl.xferInfo {σ : Type} (userPtr : Ptr) (dTotal dCurrent uTotal uCurrent : Int) (u : σ) :
    Prog σ (Int × σ) :=
  if userPtr ≠ 0 then do
    let impl ← Easy.Pimpl.load userPtr
    match impl.onXferInfo.handler with
    | some handler => pure (handler impl.onXferInfo.data dTotal dCurrent uTotal uCurrent u)
    | none => pure (1, u)
  else pure (1, u)

/-- The static member `long Easy::Pimpl::chunkBegin`. -/
def Easy.Pimpl.chunkBegin {σ : Type} (transferInfo userPtr : Ptr) (remains : Int) (u : σ) :
    Prog σ (Int × σ) :=
  if userPtr ≠ 0 then do
    let impl ← Easy.Pimpl.load userPtr
    match impl.onChunkBegin.handler with
    | some handler => pure (handler transferInfo impl.onChunkBegin.data remains u)
    | none => pure (CURL_CHUNK_BGN_FUNC_FAIL, u)
  else pure (CURL_CHUNK_BGN_FUNC_FAIL, u)

/-- The static member `long Easy::Pimpl::chunkEnd`. -/
def Easy.Pimpl.chunkEnd {σ : Type} (userPtr : Ptr) (u : σ) :
    Prog σ (Int × σ) :=
  if userPtr ≠ 0 then do
    let impl ← Easy.Pimpl.load userPtr
    match impl.onChunkEnd.handler with
    | some handler => pure (handler impl.onChunkEnd.data u)
    | none => pure (CURL_CHUNK_END_FUNC_FAIL, u)
  else pure (CURL_CHUNK_END_FUNC_FAIL, u)

/-- The static member `curl_socket_t Easy::Pimpl::openSocket`. -/
def Easy.Pimpl.openSocket {σ : Type} (userPtr : Ptr) (purpose : Int) (address : Ptr) (u : σ) :
    Prog σ (Int × σ) :=
  if userPtr ≠ 0 then do
    let impl ← Easy.Pimpl.load userPtr
    match impl.onOpenSocket.handler with
    | some handler => pure (handler impl.onOpenSocket.data purpose address u)
    | none => pure (CURL_SOCKET_BAD, u)
  else pure (CURL_SOCKET_BAD, u)

/-- The static member `int Easy::Pimpl::closeSocket`. -/
def Easy.Pimpl.closeSocket {σ : Type} (userPtr : Ptr) (socket : Int) (u : σ) :
    Prog σ (Int × σ) :=
  if userPtr ≠ 0 then do
    let impl ← Easy.Pimpl.load userPtr
    match impl.onCloseSocket.handler with
    | some handler => pure (handler impl.onCloseSocket.data socket u)
    | none => pure (1, u)
  else pure (1, u)

/-- The static member `int Easy::Pimpl::sockOpt`. -/
def Easy.Pimpl.sockOpt {σ : Type} (userPtr : Ptr) (socket purpose : Int) (u : σ) :
    Prog σ (Int × σ) :=
  if userPtr ≠ 0 then do
    let impl ← Easy.Pimpl.load userPtr
    match impl.onSockOpt.handler with
    | some handler => pure (handler impl.onSockOpt.data socket purpose u)
    | none => pure (1, u)
  else pure (1, u)

/-- The static member `CURLcode Easy::Pimpl::sslContext`. -/
def Easy.Pimpl.sslContext {σ : Type} (curl sslCtx userPtr : Ptr) (u : σ) :
    Prog σ (CURLcode × σ) :=
  if userPtr ≠ 0 then do
    let impl ← Easy.Pimpl.load userPtr
    match impl.onSslContext.handler with
    | some handler => pure (handler curl sslCtx impl.onSslContext.data u)
    | none => pure (CURLE_ABORTED_BY_CALLBACK, u)
  else pure (CURLE_ABORTED_BY_CALLBACK, u)

/-- The static member `int Easy::Pimpl::debug`: the handler gets a null handle, and
what it returns is dropped. -/
def Easy.Pimpl.debug {σ : Type} (_handle : Ptr) (type : Int) (data : Ptr) (size : Nat)
    (userPtr : Ptr) (u : σ) : Prog σ (Int × σ) :=
  if userPtr ≠ 0 then do
    let impl ← Easy.Pimpl.load userPtr
    match impl.onDebug.handler with
    | some handler => pure (0, (handler 0 type data size impl.onDebug.data u).2)
    | none => pure (0, u)
  else pure (0, u)

/-! ## `Easy::set` and the error routine -/

/-- The constant `kCurlOptTypeInterval`. -/
def kCurlOptTypeInterval : Int := CURLOPTTYPE_OBJECTPOINT - CURLOPTTYPE_LONG

def OptionInvalidCode : Int := -1
def OptionNullPtrCode : Int := -2
def OptionLongCode : Int := CURLOPTTYPE_LONG
def OptionOffsetCode : Int := CURLOPTTYPE_OFF_T
def OptionObjectPtrCode : Int := CURLOPTTYPE_OBJECTPOINT
def OptionFunctionPtrCode : Int := CURLOPTTYPE_FUNCTIONPOINT

/-- The trait `OptionTypeCode<Type>::value`.  Its last specialisation is for
`std::conditional<std::is_same<long, curl_off_t>::value, void, curl_off_t>::type`:
for `void` where `curl_off_t` is `long`, for `curl_off_t` elsewhere. -/
def OptionTypeCode (p : Platform) : CType → Int
  | .long => OptionLongCode
  | .void_ptr => OptionObjectPtrCode
  | .char_ptr => OptionObjectPtrCode
  | .const_char_ptr => OptionObjectPtrCode
  | .curl_slist_ptr => OptionObjectPtrCode
  | .curl_httppost_ptr => OptionObjectPtrCode
  | .FILE_ptr => OptionObjectPtrCode
  | .curl_progress_callback => OptionFunctionPtrCode
  | .curl_xferinfo_callback => OptionFunctionPtrCode
  | .curl_write_callback => OptionFunctionPtrCode
  | .curl_chunk_bgn_callback => OptionFunctionPtrCode
  | .curl_chunk_end_callback => OptionFunctionPtrCode
  | .curl_fnmatch_callback => OptionFunctionPtrCode
  | .curl_seek_callback => OptionFunctionPtrCode
  | .curl_sockopt_callback => OptionFunctionPtrCode
  | .curl_opensocket_callback => OptionFunctionPtrCode
  | .curl_closesocket_callback => OptionFunctionPtrCode
  | .curl_ioctl_callback => OptionFunctionPtrCode
  | .curl_debug_callback => OptionFunctionPtrCode
  | .curl_conv_callback => OptionFunctionPtrCode
  | .curl_ssl_ctx_callback => OptionFunctionPtrCode
  | .curl_formget_callback => OptionFunctionPtrCode
  | .nullptr_t => OptionNullPtrCode
  | .void => if p.long_is_curl_off_t then OptionOffsetCode else OptionInvalidCode
  | .long_long => if p.long_is_curl_off_t then OptionInvalidCode else OptionOffsetCode
  | .bool => OptionInvalidCode
  | .int => OptionInvalidCode
  | .double => OptionInvalidCode
  | .curl_certinfo_ptr => OptionInvalidCode
  | .curl_tlssessioninfo_ptr => OptionInvalidCode

/-- The `static_assert` of `Easy::set<ValueType>`: the instantiation compiles
exactly for the value types with a type code. -/
def Easy.set_static_assert (p : Platform) (ValueType : CType) : Bool :=
  OptionTypeCode p ValueType != OptionInvalidCode

/-- The member `Easy::get`: `_impl->curl`. -/
def Easy.get {σ : Type} (this : Ptr) : Prog σ Ptr := do
  let impl ← Easy.Pimpl.load (← Easy.impl this)
  pure impl.curl

/-- The member `Easy::handleError`. -/
def Easy.handleError {σ : Type} (N : Native) (this : Ptr) (code : CURLcode) : Prog σ Bool := do
  let q ← Easy.impl this
  Easy.Pimpl.modify q (fun impl => { impl with err := code })
  let impl ← Easy.Pimpl.load q
  if impl.err != CURLE_OK && impl.throwExceptions then
    Prog.raise ⟨N.curl_easy_strerror impl.err⟩
  else
    pure (impl.err == CURLE_OK)

/-- The member template `Easy::set<ValueType>( CURLoption key, ValueType value )`, past
its `static_assert`; `value.ctype` is `ValueType`. -/
def Easy.set {σ : Type} (p : Platform) (N : Native) (this : Ptr) (key : CURLoption)
    (value : Value) : Prog σ Bool := do
  let keyTypeCode := Int.tdiv key kCurlOptTypeInterval * kCurlOptTypeInterval
  let isValueAllowedNullPtr :=
    (value.ctype == CType.nullptr_t) && (keyTypeCode != CURLOPTTYPE_LONG)
  let err ←
    if (OptionTypeCode p value.ctype != keyTypeCode) && !isValueAllowedNullPtr then
      pure CURLE_BAD_FUNCTION_ARGUMENT
    else do
      let curl ← Easy.get this
      Prog.native (NativeCall.curl_easy_setopt curl key value)
        (fun tr => N.curl_easy_setopt tr curl key value)
  Easy.handleError N this err

/-- The overload `Easy::set( CURLoption key, int value )`. -/
def Easy.set_int {σ : Type} (p : Platform) (N : Native) (this : Ptr) (key : CURLoption)
    (value : Int) : Prog σ Bool :=
  Easy.set p N this key ⟨CType.long, Payload.int value⟩

/-- The overload `Easy::set( CURLoption key, bool value )`. -/
def Easy.set_bool {σ : Type} (p : Platform) (N : Native) (this : Ptr) (key : CURLoption)
    (value : Bool) : Prog σ Bool :=
  Easy.set p N this key ⟨CType.long, Payload.int (if value then 1 else 0)⟩

/-- The overload `Easy::set( CURLoption key, std::string const &value )`. -/
def Easy.set_string {σ : Type} (p : Platform) (N : Native) (this : Ptr) (key : CURLoption)
    (value : String) : Prog σ Bool :=
  Easy.set p N this key ⟨CType.const_char_ptr, Payload.cstr value⟩

/-- The member `Easy::perform`. -/
def Easy.perform {σ : Type} (N : Native) (this : Ptr) : Prog σ Bool := do
  let impl ← Easy.Pimpl.load (← Easy.impl this)
  let err ← Prog.native (NativeCall.curl_easy_perform impl.curl)
    (fun tr => N.curl_easy_perform tr impl.curl)
  Easy.handleError N this err

/-- The member `Easy::send`.  The local `sent` starts as `0` and is handed to
`curl_easy_send` by address; the second component of the native answer is what it holds
after the call. -/
def Easy.send {σ : Type} (N : Native) (this : Ptr) (buffer : Ptr) (bufferSize : Nat) :
    Prog σ Nat := do
  let impl ← Easy.Pimpl.load (← Easy.impl this)
  let r ← Prog.native (NativeCall.curl_easy_send impl.curl buffer bufferSize)
    (fun tr => N.curl_easy_send tr impl.curl buffer bufferSize)
  let success ← Easy.handleError N this r.1
  pure (if success then r.2 else 0)

/-- The member `Easy::recv`. -/
def Easy.recv {σ : Type} (N : Native) (this : Ptr) (buffer : Ptr) (bufferSize : Nat) :
    Prog σ Nat := do
  let impl ← Easy.Pimpl.load (← Easy.impl this)
  let r ← Prog.native (NativeCall.curl_easy_recv impl.curl buffer bufferSize)
    (fun tr => N.curl_easy_recv tr impl.curl buffer bufferSize)
  let success ← Easy.handleError N this r.1
  pure (if success then r.2 else 0)

/-- The member `Easy::pause`. -/
def Easy.pause {σ : Type} (N : Native) (this : Ptr) (bitmask : Int) : Prog σ Bool := do
  let impl ← Easy.Pimpl.load (← Easy.impl this)
  let err ← Prog.native (NativeCall.curl_easy_pause impl.curl bitmask)
    (fun tr => N.curl_easy_pause tr impl.curl bitmask)
  Easy.handleError N this err

/-! ## Registering handlers -/

/-- The member `Easy::onRead`; an empty `std::function` is `none`. -/
def Easy.onRead {σ : Type} (p : Platform) (N : Native) (this : Ptr)
    (f : Option (ReadHandler σ)) (data : Ptr) : Prog σ Unit := do
  let q ← Easy.impl this
  Easy.Pimpl.modify q (fun impl => { impl with onRead := { impl.onRead with handler := f } })
  Easy.Pimpl.modify q (fun impl => { impl with onRead := { impl.onRead with data := data } })
  let _ ← Easy.set p N this CURLOPT_READFUNCTION
    ⟨CType.curl_read_callback, if f.isSome then Payload.fn Trampoline.read else Payload.null⟩
  let _ ← Easy.set p N this CURLOPT_READDATA
    ⟨CType.void_ptr, if f.isSome then Payload.addr q else Payload.null⟩
  pure ()

/-- The member `Easy::onWrite`; an empty `std::function` is `none`. -/
def Easy.onWrite {σ : Type} (p : Platform) (N : Native) (this : Ptr)
    (f : Option (WriteHandler σ)) (data : Ptr) : Prog σ Unit := do
  let q ← Easy.impl this
  Easy.Pimpl.modify q (fun impl => { impl with onWrite := { impl.onWrite with handler := f } })
  Easy.Pimpl.modify q (fun impl => { impl with onWrite := { impl.onWrite with data := data } })
  let _ ← Easy.set p N this CURLOPT_WRITEFUNCTION
    ⟨CType.curl_write_callback, if f.isSome then Payload.fn Trampoline.write else Payload.null⟩
  let _ ← Easy.set p N this CURLOPT_WRITEDATA
    ⟨CType.void_ptr, if f.isSome then Payload.addr q else Payload.null⟩
  pure ()

/-- The member `Easy::onHeader`; an empty `std::function` is `none`. -/
def Easy.onHeader {σ : Type} (p : Platform) (N : Native) (this : Ptr)
    (f : Option (WriteHandler σ)) (data : Ptr) : Prog σ Unit := do
  let q ← Easy.impl this
  Easy.Pimpl.modify q (fun impl => { impl with onHeader := { impl.onHeader with handler := f } })
  Easy.Pimpl.modify q (fun impl => { impl with onHeader := { impl.onHeader with data := data } })
  let _ ← Easy.set p N this CURLOPT_HEADERFUNCTION
    ⟨CType.curl_write_callback, if f.isSome then Payload.fn Trampoline.header else Payload.null⟩
  let _ ← Easy.set p N this CURLOPT_HEADERDATA
    ⟨CType.void_ptr, if f.isSome then Payload.addr q else Payload.null⟩
  pure ()

/-- The member `Easy::onProgress`; an empty `std::function` is `none`. -/
def Easy.onProgress {σ : Type} (p : Platform) (N : Native) (this : Ptr)
    (f : Option (ProgressHandler σ)) (data : Ptr) : Prog σ Unit := do
  let q ← Easy.impl this
  Easy.Pimpl.modify q (fun impl => { impl with onProgress := { impl.onProgress with handler := f } })
  Easy.Pimpl.modify q (fun impl => { impl with onProgress := { impl.onProgress with data := data } })
  let _ ← Easy.set p N this CURLOPT_PROGRESSFUNCTION
    ⟨CType.curl_progress_callback, if f.isSome then Payload.fn Trampoline.progress else Payload.null⟩
  let _ ← Easy.set p N this CURLOPT_PROGRESSDATA
    ⟨CType.void_ptr, if f.isSome then Payload.addr q else Payload.null⟩
  let _ ← Easy.set_bool p N this CURLOPT_NOPROGRESS (if f.isSome then false else true)
  pure ()

/-- The member `Easy::onDebug`; an empty `std::function` is `none`. -/
def Easy.onDebug {σ : Type} (p : Platform) (N : Native) (this : Ptr)
    (f : Option (DebugHandler σ)) (data : Ptr) : Prog σ Unit := do
  let q ← Easy.impl this
  Easy.Pimpl.modify q (fun impl => { impl with onDebug := { impl.onDebug with handler := f } })
  Easy.Pimpl.modify q (fun impl => { impl with onDebug := { impl.onDebug with data := data } })
  let _ ← Easy.set p N this CURLOPT_DEBUGFUNCTION
    ⟨CType.curl_debug_callback, if f.isSome then Payload.fn Trampoline.debug else Payload.null⟩
  let _ ← Easy.set p N this CURLOPT_DEBUGDATA
    ⟨CType.void_ptr, if f.isSome then Payload.addr q else Payload.null⟩
  let _ ← Easy.set_bool p N this CURLOPT_VERBOSE (if f.isSome then true else false)
  pure ()

/-- The member `Easy::onIoctl`; an empty `std::function` is `none`. -/
def Easy.onIoctl {σ : Type} (p : Platform) (N : Native) (this : Ptr)
    (f : Option (IoctlHandler σ)) (data : Ptr) : Prog σ Unit := do
  let q ← Easy.impl this
  Easy.Pimpl.modify q (fun impl => { impl with onIoctl := { impl.onIoctl with handler := f } })
  Easy.Pimpl.modify q (fun impl => { impl with onIoctl := { impl.onIoctl with data := data } })
  let _ ← Easy.set p N this CURLOPT_IOCTLFUNCTION
    ⟨CType.curl_ioctl_callback, if f.isSome then Payload.fn Trampoline.ioctl else Payload.null⟩
  let _ ← Easy.set p N this CURLOPT_IOCTLDATA
    ⟨CType.void_ptr, if f.isSome then Payload.addr q else Payload.null⟩
  pure ()

/-- The member `Easy::onSeek`; an empty `std::function` is `none`. -/
def Easy.onSeek {σ : Type} (p : Platform) (N : Native) (this : Ptr)
    (f : Option (SeekHandler σ)) (data : Ptr) : Prog σ Unit := do
  let q ← Easy.impl this
  Easy.Pimpl.modify q (fun impl => { impl with onSeek := { impl.onSeek with handler := f } })
  Easy.Pimpl.modify q (fun impl => { impl with onSeek := { impl.onSeek with data := data } })
  let _ ← Easy.set p N this CURLOPT_SEEKFUNCTION
    ⟨CType.curl_seek_callback, if f.isSome then Payload.fn Trampoline.seek else Payload.null⟩
  let _ ← Easy.set p N this CURLOPT_SEEKDATA
    ⟨CType.void_ptr, if f.isSome then Payload.addr q else Payload.null⟩
  pure ()

/-- The member `Easy::onFnMatch`; an empty `std::function` is `none`. -/
def Easy.onFnMatch {σ : Type} (p : Platform) (N : Native) (this : Ptr)
    (f : Option (FnMatchHandler σ)) (data : Ptr) : Prog σ Unit := do
  let q ← Easy.impl this
  Easy.Pimpl.modify q (fun impl => { impl with onFnMatch := { impl.onFnMatch with handler := f } })
  Easy.Pimpl.modify q (fun impl => { impl with onFnMatch := { impl.onFnMatch with data := data } })
  let _ ← Easy.set p N this CURLOPT_FNMATCH_FUNCTION
    ⟨CType.curl_fnmatch_callback, if f.isSome then Payload.fn Trampoline.fnMatch else Payload.null⟩
  let _ ← Easy.set p N this CURLOPT_FNMATCH_DATA
    ⟨CType.void_ptr, if f.isSome then Payload.addr q else Payload.null⟩
  pure ()

/-- The member `Easy::onXferInfo`; an empty `std::function` is `none`. -/
def Easy.onXferInfo {σ : Type} (p : Platform) (N : Native) (this : Ptr)
    (f : Option (XferInfoHandler σ)) (data : Ptr) : Prog σ Unit := do
  let q ← Easy.impl this
  Easy.Pimpl.modify q (fun impl => { impl with onXferInfo := { impl.onXferInfo with handler := f } })
  Easy.Pimpl.modify q (fun impl => { impl with onXferInfo := { impl.onXferInfo with data := data } })
  let _ ← Easy.set p N this CURLOPT_XFERINFOFUNCTION
    ⟨CType.curl_xferinfo_callback, if f.isSome then Payload.fn Trampoline.xferInfo else Payload.null⟩
  let _ ← Easy.set p N this CURLOPT_XFERINFODATA
    ⟨CType.void_ptr, if f.isSome then Payload.addr q else Payload.null⟩
  let _ ← Easy.set_bool p N this CURLOPT_NOPROGRESS (if f.isSome then false else true)
  pure ()

/-- The member `Easy::onOpenSocket`; an empty `std::function` is `none`. -/
def Easy.onOpenSocket {σ : Type} (p : Platform) (N : Native) (this : Ptr)
    (f : Option (OpenSocketHandler σ)) (data : Ptr) : Prog σ Unit := do
  let q ← Easy.impl this
  Easy.Pimpl.modify q (fun impl => { impl with onOpenSocket := { impl.onOpenSocket with handler := f } })
  Easy.Pimpl.modify q (fun impl => { impl with onOpenSocket := { impl.onOpenSocket with data := data } })
  let _ ← Easy.set p N this CURLOPT_OPENSOCKETFUNCTION
    ⟨CType.curl_opensocket_callback, if f.isSome then Payload.fn Trampoline.openSocket else Payload.null⟩
  let _ ← Easy.set p N this CURLOPT_OPENSOCKETDATA
    ⟨CType.void_ptr, if f.isSome then Payload.addr q else Payload.null⟩
  pure ()

/-- The member `Easy::onCloseSocket`; an empty `std::function` is `none`. -/
def Easy.onCloseSocket {σ : Type} (p : Platform) (N : Native) (this : Ptr)
    (f : Option (CloseSocketHandler σ)) (data : Ptr) : Prog σ Unit := do
  let q ← Easy.impl this
  Easy.Pimpl.modify q (fun impl => { impl with onCloseSocket := { impl.onCloseSocket with handler := f } })
  Easy.Pimpl.modify q (fun impl => { impl with onCloseSocket := { impl.onCloseSocket with data := data } })
  let _ ← Easy.set p N this CURLOPT_CLOSESOCKETFUNCTION
    ⟨CType.curl_closesocket_callback, if f.isSome then Payload.fn Trampoline.closeSocket else Payload.null⟩
  let _ ← Easy.set p N this CURLOPT_CLOSESOCKETDATA
    ⟨CType.void_ptr, if f.isSome then Payload.addr q else Payload.null⟩
  pure ()

/-- The member `Easy::onSockOpt`; an empty `std::function` is `none`. -/
def Easy.onSockOpt {σ : Type} (p : Platform) (N : Native) (this : Ptr)
    (f : Option (SockOptHandler σ)) (data : Ptr) : Prog σ Unit := do
  let q ← Easy.impl this
  Easy.Pimpl.modify q (fun impl => { impl with onSockOpt := { impl.onSockOpt with handler := f } })
  Easy.Pimpl.modify q (fun impl => { impl with onSockOpt := { impl.onSockOpt with data := data } })
  let _ ← Easy.set p N this CURLOPT_SOCKOPTFUNCTION
    ⟨CType.curl_sockopt_callback, if f.isSome then Payload.fn Trampoline.sockOpt else Payload.null⟩
  let _ ← Easy.set p N this CURLOPT_SOCKOPTDATA
    ⟨CType.void_ptr, if f.isSome then Payload.addr q else Payload.null⟩
  pure ()

/-- The member `Easy::onChunkBegin`; an empty `std::function` is `none`. -/
def Easy.onChunkBegin {σ : Type} (p : Platform) (N : Native) (this : Ptr)
    (f : Option (ChunkBeginHandler σ)) (data : Ptr) : Prog σ Unit := do
  let q ← Easy.impl this
  Easy.Pimpl.modify q (fun impl => { impl with onChunkBegin := { impl.onChunkBegin with handler := f } })
  Easy.Pimpl.modify q (fun impl => { impl with onChunkBegin := { impl.onChunkBegin with data := data } })
  let _ ← Easy.set p N this CURLOPT_CHUNK_BGN_FUNCTION
    ⟨CType.curl_chunk_bgn_callback, if f.isSome then Payload.fn Trampoline.chunkBegin else Payload.null⟩
  let _ ← Easy.set p N this CURLOPT_CHUNK_DATA
    ⟨CType.void_ptr, if f.isSome then Payload.addr q else Payload.null⟩
  pure ()

/-- The member `Easy::onChunkEnd`; an empty `std::function` is `none`. -/
def Easy.onChunkEnd {σ : Type} (p : Platform) (N : Native) (this : Ptr)
    (f : Option (ChunkEndHandler σ)) (data : Ptr) : Prog σ Unit := do
  let q ← Easy.impl this
  Easy.Pimpl.modify q (fun impl => { impl with onChunkEnd := { impl.onChunkEnd with handler := f } })
  Easy.Pimpl.modify q (fun impl => { impl with onChunkEnd := { impl.onChunkEnd with data := data } })
  let _ ← Easy.set p N this CURLOPT_CHUNK_END_FUNCTION
    ⟨CType.curl_chunk_end_callback, if f.isSome then Payload.fn Trampoline.chunkEnd else Payload.null⟩
  let _ ← Easy.set p N this CURLOPT_CHUNK_DATA
    ⟨CType.void_ptr, if f.isSome then Payload.addr q else Payload.null⟩
  pure ()

/-- The member `Easy::onSslContext`; an empty `std::function` is `none`. -/
def Easy.onSslContext {σ : Type} (p : Platform) (N : Native) (this : Ptr)
    (f : Option (SslContextHandler σ)) (data : Ptr) : Prog σ Unit := do
  let q ← Easy.impl this
  Easy.Pimpl.modify q (fun impl => { impl with onSslContext := { impl.onSslContext with handler := f } })
  Easy.Pimpl.modify q (fun impl => { impl with onSslContext := { impl.onSslContext with data := data } })
  let _ ← Easy.set p N this CURLOPT_SSL_CTX_FUNCTION
    ⟨CType.curl_ssl_ctx_callback, if f.isSome then Payload.fn Trampoline.sslContext else Payload.null⟩
  let _ ← Easy.set p N this CURLOPT_SSL_CTX_DATA
    ⟨CType.void_ptr, if f.isSome then Payload.addr q else Payload.null⟩
  pure ()

/-! ## Ownership: release, move, destruction -/

/-- Assignment to the member `_impl` of the `Easy` object at `this`. -/
def Easy.set_impl {σ : Type} (this : Ptr) (q : Ptr) : Prog σ Unit := fun w =>
  match w.easies this with
  | some _ => (Outcome.ok (), w.setEasy this (some ⟨q⟩))
  | none => (Outcome.undefined, w)

/-- The member `Easy::release`. -/
def Easy.release {σ : Type} (this : Ptr) : Prog σ Ptr := do
  let q ← Easy.impl this
  if q ≠ 0 then do
    let impl ← Easy.Pimpl.load q
    Easy.Pimpl.modify q (fun i => { i with curl := 0 })
    pure impl.curl
  else
    pure 0

/-- The move assignment `Easy::operator=( Easy &&other )`. -/
def Easy.move_assign {σ : Type} (this other : Ptr) : Prog σ Unit := do
  if this ≠ other then do
    let ptr ← Easy.release this
    if ptr ≠ 0 then
      Prog.native (NativeCall.curl_easy_cleanup ptr) (fun _ => ())
    let mine ← Easy.impl this
    let theirs ← Easy.impl other
    Easy.set_impl this theirs
    Easy.set_impl other mine
  else
    pure ()

/-- The move constructor `Easy::Easy( Easy &&other )`: the new object at `this` starts
with an empty `_impl`, then `*this = std::move( other )`. -/
def Easy.move_ctor {σ : Type} (this other : Ptr) : Prog σ Unit := do
  let w ← Prog.world
  Prog.put (w.setEasy this (some ⟨0⟩))
  Easy.move_assign this other

/-- The destructor `Easy::~Easy`, and after its body the destruction of the member
`_impl`, which deletes the private state it still owns. -/
def Easy.dtor {σ : Type} (this : Ptr) : Prog σ Unit := do
  let ptr ← Easy.release this
  if ptr ≠ 0 then
    Prog.native (NativeCall.curl_easy_cleanup ptr) (fun _ => ())
  let q ← Easy.impl this
  let w ← Prog.world
  Prog.put ((if q ≠ 0 then w.setPimpl q none else w).setEasy this none)

/-- The constructor `Easy::Easy()` of the object at `this`; `a` is the address that
`new Pimpl()` returns.  An exception that leaves the constructor destroys the member
`_impl`, which deletes the private state, and no object comes to life: `~Easy` does
not run. -/
def Easy.ctor {σ : Type} (p : Platform) (N : Native) (this a : Ptr) : Prog σ Unit := do
  let w ← Prog.world
  Prog.put ((w.setPimpl a (some Easy.Pimpl.ctor)).setEasy this (some ⟨a⟩))
  Prog.unwind (do
      let q ← Easy.impl this
      let curl ← Prog.native NativeCall.curl_easy_init (fun tr => N.curl_easy_init tr)
      Easy.Pimpl.modify q (fun impl => { impl with curl := curl })
      let impl ← Easy.Pimpl.load q
      if impl.curl = 0 then
        Prog.raise ⟨"can't init curl_easy interface"⟩
      else do
        let _ ← Easy.set p N this CURLOPT_USERAGENT
          ⟨CType.const_char_ptr, Payload.cstr "curlite::Easy"⟩
        pure ())
    (do
      let w ← Prog.world
      Prog.put ((w.setPimpl a none).setEasy this none))

/-- The member `Easy::reset`. -/
def Easy.reset {σ : Type} (p : Platform) (N : Native) (this : Ptr) : Prog σ Unit := do
  let q ← Easy.impl this
  let impl ← Easy.Pimpl.load q
  Prog.native (NativeCall.curl_easy_reset impl.curl) (fun _ => ())
  Easy.Pimpl.modify q (fun impl => { impl with err := CURLE_OK })
  Easy.onRead p N this none 0
  Easy.onWrite p N this none 0
  Easy.onHeader p N this none 0
  Easy.onProgress p N this none 0
  Easy.onDebug p N this none 0

/-! ### `List` and `Form` -/

/-- The `List` object at `this`; undefined when no object lives there. -/
def List.load {σ : Type} (this : Ptr) : Prog σ List := fun w =>
  match w.lists this with
  | some l => (Outcome.ok l, w)
  | none => (Outcome.undefined, w)

/-- Assignment to the `List` object at `this`. -/
def List.store {σ : Type} (this : Ptr) (v : List) : Prog σ Unit := fun w =>
  match w.lists this with
  | some _ => (Outcome.ok (), w.setList this (some v))
  | none => (Outcome.undefined, w)

/-- The constructor `List::List( curl_slist *list = nullptr )` of the object at `this`. -/
def List.ctor {σ : Type} (this list : Ptr) : Prog σ Unit := do
  let w ← Prog.world
  Prog.put (w.setList this (some ⟨list⟩))

/-- The member `List::append( char const *s )`. -/
def List.append {σ : Type} (N : Native) (this : Ptr) (s : String) : Prog σ Unit := do
  let l ← List.load this
  let r ← Prog.native (NativeCall.curl_slist_append l._list s)
    (fun tr => N.curl_slist_append tr l._list s)
  List.store this ⟨r⟩

/-- The member `List::append( std::vector<std::string> const &values )`. -/
def List.append_values {σ : Type} (N : Native) (this : Ptr) : Vec String → Prog σ Unit
  | [] => pure ()
  | v :: rest => do
    List.append N this v
    List.append_values N this rest

/-- The constructor `List::List( std::vector<std::string> const &values )`. -/
def List.ctor_values {σ : Type} (N : Native) (this : Ptr) (values : Vec String) :
    Prog σ Unit := do
  let w ← Prog.world
  Prog.put (w.setList this (some ⟨0⟩))
  List.append_values N this values

/-- The member `List::operator <<`, an alias of `append`. -/
def List.operator_shl {σ : Type} (N : Native) (this : Ptr) (s : String) : Prog σ Unit :=
  List.append N this s

/-- The member `List::get`. -/
def List.get {σ : Type} (this : Ptr) : Prog σ Ptr := do
  let l ← List.load this
  pure l._list

/-- The member `List::release`. -/
def List.release {σ : Type} (this : Ptr) : Prog σ Ptr := do
  let l ← List.load this
  List.store this ⟨0⟩
  pure l._list

/-- The destructor `List::~List`. -/
def List.dtor {σ : Type} (this : Ptr) : Prog σ Unit := do
  let ptr ← List.release this
  if ptr ≠ 0 then
    Prog.native (NativeCall.curl_slist_free_all ptr) (fun _ => ())
  let w ← Prog.world
  Prog.put (w.setList this none)

/-- The move assignment `List::operator=( List &&other )`. -/
def List.move_assign {σ : Type} (this other : Ptr) : Prog σ Unit := do
  if this ≠ other then do
    let ptr ← List.release this
    if ptr ≠ 0 then
      Prog.native (NativeCall.curl_slist_free_all ptr) (fun _ => ())
    let mine ← List.load this
    let theirs ← List.load other
    List.store this ⟨theirs._list⟩
    List.store other ⟨mine._list⟩
  else
    pure ()

/-- The move constructor `List::List( List &&other )`: `_list( nullptr )`, then
`*this = std::move( other )`. -/
def List.move_ctor {σ : Type} (this other : Ptr) : Prog σ Unit := do
  let w ← Prog.world
  Prog.put (w.setList this (some ⟨0⟩))
  List.move_assign this other

/-- The `Form` object at `this`; undefined when no object lives there. -/
def Form.load {σ : Type} (this : Ptr) : Prog σ Form := fun w =>
  match w.forms this with
  | some f => (Outcome.ok f, w)
  | none => (Outcome.undefined, w)

/-- Assignment to the `Form` object at `this`. -/
def Form.store {σ : Type} (this : Ptr) (v : Form) : Prog σ Unit := fun w =>
  match w.forms this with
  | some _ => (Outcome.ok (), w.setForm this (some v))
  | none => (Outcome.undefined, w)

/-- The member `Form::get`. -/
def Form.get {σ : Type} (this : Ptr) : Prog σ Ptr := do
  let f ← Form.load this
  pure f._first

/-- The member `Form::release`: the pair of the first and the last pointer. -/
def Form.release {σ : Type} (this : Ptr) : Prog σ (Ptr × Ptr) := do
  let f ← Form.load this
  Form.store this ⟨0, f._last⟩
  Form.store this ⟨0, 0⟩
  pure (f._first, f._last)

/-- The two `std::swap` calls that `Form` moves with: `_first` with `other._first`, then
`_last` with `other._last`. -/
def Form.swap {σ : Type} (this other : Ptr) : Prog σ Unit := do
  let mine ← Form.load this
  let theirs ← Form.load other
  Form.store this ⟨theirs._first, mine._last⟩
  Form.store other ⟨mine._first, theirs._last⟩
  let mine ← Form.load this
  let theirs ← Form.load other
  Form.store this ⟨mine._first, theirs._last⟩
  Form.store other ⟨theirs._first, mine._last⟩

/-- The move constructor `Form::Form( Form &&other )`: `_first( nullptr )`,
`_last( nullptr )`, then the two swaps. -/
def Form.move_ctor {σ : Type} (this other : Ptr) : Prog σ Unit := do
  let w ← Prog.world
  Prog.put (w.setForm this (some ⟨0, 0⟩))
  Form.swap this other

/-- The destructor `Form::~Form`. -/
def Form.dtor {σ : Type} (this : Ptr) : Prog σ Unit := do
  let r ← Form.release this
  if r.1 ≠ 0 then
    Prog.native (NativeCall.curl_formfree r.1) (fun _ => ())
  let w ← Prog.world
  Prog.put (w.setForm this none)

/-- The move assignment `Form::operator=( Form &&other )`. -/
def Form.move_assign {σ : Type} (this other : Ptr) : Prog σ Unit := do
  if this ≠ other then do
    let r ← Form.release this
    if r.1 ≠ 0 then
      Prog.native (NativeCall.curl_formfree r.1) (fun _ => ())
    Form.swap this other
  else
    pure ()

/-! ## The simplified handlers -/

/-- The product `size * n` of two `size_t` values: modulo `2 ^ size_t_bits`. -/
def size_t_mul (p : Platform) (size n : Nat) : Nat :=
  (size * n) % 2 ^ p.size_t_bits

/-- The member `Easy::onRead_`.  The wrapper captures the non-empty `f`; with an empty
`f` the empty `ReadHandler()` is registered. -/
def Easy.onRead_ {σ : Type} (p : Platform) (N : Native) (this : Ptr)
    (f : Option (SimplifiedDataHandler σ)) : Prog σ Unit :=
  match f with
  | some f =>
    Easy.onRead p N this (some (fun data size n _ u =>
      let r := f data (size_t_mul p size n) u
      (if r.1 then size_t_mul p size n else CURL_READFUNC_ABORT, r.2))) 0
  | none => Easy.onRead p N this none 0

/-- The member `Easy::onWrite_`. -/
def Easy.onWrite_ {σ : Type} (p : Platform) (N : Native) (this : Ptr)
    (f : Option (SimplifiedDataHandler σ)) : Prog σ Unit :=
  match f with
  | some f =>
    Easy.onWrite p N this (some (fun data size n _ u =>
      let r := f data (size_t_mul p size n) u
      (if r.1 then size_t_mul p size n else 0, r.2))) 0
  | none => Easy.onWrite p N this none 0

/-- The member `Easy::onHeader_`. -/
def Easy.onHeader_ {σ : Type} (p : Platform) (N : Native) (this : Ptr)
    (f : Option (SimplifiedDataHandler σ)) : Prog σ Unit :=
  match f with
  | some f =>
    Easy.onHeader p N this (some (fun data size n _ u =>
      let r := f data (size_t_mul p size n) u
      (if r.1 then size_t_mul p size n else 0, r.2))) 0
  | none => Easy.onHeader p N this none 0

/-- The member `Easy::onProgress_`: the wrapper returns `!f( ... )` as an `int`, and it
is registered with `onXferInfo`. -/
def Easy.onProgress_ {σ : Type} (p : Platform) (N : Native) (this : Ptr)
    (f : Option (SimplifiedProgressHandler σ)) : Prog σ Unit :=
  match f with
  | some f =>
    Easy.onXferInfo p N this (some (fun _ dTotal dCurrent uTotal uCurrent u =>
      let r := f dTotal dCurrent uTotal uCurrent u
      (if !r.1 then 1 else 0, r.2))) 0
  | none => Easy.onXferInfo p N this none 0

/-! ## Accessors -/

/-- The member `Easy::error`: the last error, `_impl->err`. -/
def Easy.error {σ : Type} (this : Ptr) : Prog σ CURLcode := do
  let impl ← Easy.Pimpl.load (← Easy.impl this)
  pure impl.err

/-- The member `Easy::exceptionMode`. -/
def Easy.exceptionMode {σ : Type} (this : Ptr) : Prog σ Bool := do
  let impl ← Easy.Pimpl.load (← Easy.impl this)
  pure impl.throwExceptions

/-- The member `Easy::setExceptionMode`. -/
def Easy.setExceptionMode {σ : Type} (this : Ptr) (throwExceptions : Bool) : Prog σ Unit := do
  Easy.Pimpl.modify (← Easy.impl this) (fun impl => { impl with throwExceptions := throwExceptions })

/-! ## URL percent-coding, as `curl_easy_escape` and `curl_easy_unescape` do it -/

/-- The test `Curl_isunreserved`: a digit, a letter, or one of `-`, `.`, `_`, `~`. -/
def Curl_isunreserved (b : Byte) : Bool :=
  (48 ≤ b.val && b.val ≤ 57) || (97 ≤ b.val && b.val ≤ 122) || (65 ≤ b.val && b.val ≤ 90) ||
    b.val == 45 || b.val == 46 || b.val == 95 || b.val == 126

/-- The upper-case hexadecimal digit of a value below sixteen. -/
def hex_digit (n : Nat) : Byte :=
  if n < 10 then Fin.ofNat (48 + n) else Fin.ofNat (55 + n)

/-- The value of a hexadecimal digit of either case. -/
def hex_value (b : Byte) : Option Nat :=
  if 48 ≤ b.val ∧ b.val ≤ 57 then some (b.val - 48)
  else if 65 ≤ b.val ∧ b.val ≤ 70 then some (b.val - 55)
  else if 97 ≤ b.val ∧ b.val ≤ 102 then some (b.val - 87)
  else none

/-- Percent-encoding: an unreserved byte stands for itself, any other byte becomes `%`
and its two hexadecimal digits. -/
def percent_encode : Vec Byte → Vec Byte
  | [] => []
  | b :: rest =>
    if Curl_isunreserved b then b :: percent_encode rest
    else 37 :: hex_digit (b.val / 16) :: hex_digit (b.val % 16) :: percent_encode rest

/-- The value of the two hexadecimal digits that a string starts with, if it does. -/
def hex_pair : Vec Byte → Option Nat
  | h :: l :: _ =>
    match hex_value h, hex_value l with
    | some x, some y => some (16 * x + y)
    | _, _ => none
  | _ => none

/-- Percent-decoding after skipping the next `k` bytes: `%` and two hexadecimal digits
become one byte, any other byte stands for itself. -/
def decode_from : Nat → Vec Byte → Vec Byte
  | _, [] => []
  | k + 1, _ :: rest => decode_from k rest
  | 0, b :: rest =>
    if b = 37 then
      match hex_pair rest with
      | some v => Fin.ofNat v :: decode_from 2 rest
      | none => b :: decode_from 0 rest
    else b :: decode_from 0 rest

/-- Percent-decoding. -/
def percent_decode (s : Vec Byte) : Vec Byte := decode_from 0 s

/-- The zero-terminated string that a buffer starts with: its bytes before the first zero. -/
def c_string (buffer : Vec Byte) : Vec Byte :=
  buffer.takeWhile (fun b => b != 0)

/-- The conversion of a `size_t` to the 32-bit `int`: modulo `2 ^ 32`, in two's complement. -/
def int_of_size_t (n : Nat) : Int :=
  if n % 2 ^ 32 < 2 ^ 31 then ((n % 2 ^ 32 : Nat) : Int) else ((n % 2 ^ 32 : Nat) : Int) - 2 ^ 32

/-- The part of the buffer `string` that `curl_easy_escape` and `curl_easy_unescape` work
on when called with `length`: `length` bytes, and for a `length` of zero the
zero-terminated string the buffer starts with; nothing for a negative `length`. -/
def native_input (string : Vec Byte) (length : Int) : Option (Vec Byte) :=
  if length < 0 then none
  else if length = 0 then some (c_string string)
  else some (string.take length.toNat)

/-- The function `curl_easy_escape`, taken to be percent-encoding that succeeds. -/
def url_escape (string : Vec Byte) (length : Int) : Option (Vec Byte) :=
  (native_input string length).map percent_encode

/-- The function `curl_easy_unescape`, taken to be percent-decoding that succeeds; the
length it stores is the decoded length as an `int`. -/
def url_unescape (string : Vec Byte) (length : Int) : Option (Vec Byte × Int) :=
  (native_input string length).map
    (fun s => (percent_decode s, int_of_size_t (percent_decode s).length))

/-! ## `getInfo` -/

def CURLINFO_STRING : Nat := 0x100000
def CURLINFO_LONG : Nat := 0x200000
def CURLINFO_DOUBLE : Nat := 0x300000
def CURLINFO_SLIST : Nat := 0x400000
def CURLINFO_TYPEMASK : Nat := 0xf00000
def CURLINFO_EFFECTIVE_URL : CURLINFO := CURLINFO_STRING + 1
def CURLINFO_RESPONSE_CODE : CURLINFO := CURLINFO_LONG + 2
def CURLINFO_TOTAL_TIME : CURLINFO := CURLINFO_DOUBLE + 3
def CURLINFO_CONTENT_TYPE : CURLINFO := CURLINFO_STRING + 18

/-- The trait `InfoTypeCode<Type>::value`. -/
def InfoTypeCode : CType → Int
  | .char_ptr => CURLINFO_STRING
  | .long => CURLINFO_LONG
  | .double => CURLINFO_DOUBLE
  | .curl_slist_ptr => CURLINFO_SLIST
  | .curl_certinfo_ptr => CURLINFO_SLIST
  | .curl_tlssessioninfo_ptr => CURLINFO_SLIST
  | _ => -1

/-- The `static_assert` of `Easy::getInfo<ValueType>`. -/
def Easy.getInfo_static_assert (ValueType : CType) : Bool :=
  InfoTypeCode ValueType != -1

/-- The member template `Easy::getInfo<ValueType>( CURLINFO key, ValueType const
&defaultValue )`, past its `static_assert`.  The local `value` holds nothing until the
native getter stores into it; reading it before is undefined. -/
def Easy.getInfo {σ : Type} (N : Native) (this : Ptr) (ValueType : CType) (key : CURLINFO)
    (defaultValue : Payload) : Prog σ Payload := do
  let r ←
    if InfoTypeCode ValueType != ((key &&& CURLINFO_TYPEMASK : Nat) : Int) then
      pure (CURLE_BAD_FUNCTION_ARGUMENT, (none : Option Payload))
    else do
      let curl ← Easy.get this
      let got ← Prog.native (NativeCall.curl_easy_getinfo curl key)
        (fun tr => N.curl_easy_getinfo tr curl key)
      pure (got.1, some got.2)
  let success ← Easy.handleError N this r.1
  if success then
    match r.2 with
    | some value => pure value
    | none => Prog.undef
  else
    pure defaultValue

/-- The specialisation `Easy::getInfo<std::string>`: the `char *` variant with a null
default, and the caller's default for a null string. -/
def Easy.getInfo_string {σ : Type} (N : Native) (this : Ptr) (key : CURLINFO)
    (defaultValue : String) : Prog σ String := do
  let value ← Easy.getInfo N this CType.char_ptr key Payload.null
  match value with
  | Payload.cstr s => pure s
  | Payload.null => pure defaultValue
  | _ => Prog.undef

/-! ## Streams, `upload`, `escape` -/

/-- A `std::ostream` that lives in the user state: its member `write( data, count )`
and its conversion to `bool`, which is `!fail()`. -/
structure std_ostream (σ : Type) where
  write : Ptr → Int → σ → σ
  to_bool : σ → Bool

/-- A `std::istream` that lives in the user state: its members `read( data, count )` and
`gcount()`, the number of bytes the last read stored. -/
structure std_istream (σ : Type) where
  read : Ptr → Int → σ → σ
  gcount : σ → Nat

/-- The conversion of a `size_t` to `std::streamsize`, the signed type of the same width. -/
def streamsize_of (p : Platform) (n : Nat) : Int :=
  if n % 2 ^ p.size_t_bits < 2 ^ (p.size_t_bits - 1) then ((n % 2 ^ p.size_t_bits : Nat) : Int)
  else ((n % 2 ^ p.size_t_bits : Nat) : Int) - 2 ^ p.size_t_bits

/-- The member `Easy::operator << ( std::istream &stream )`.  The count that `gcount()`
returns is not negative, so its conversion to `size_t` keeps it. -/
def Easy.operator_shl {σ : Type} (p : Platform) (N : Native) (stream : std_istream σ)
    (this : Ptr) : Prog σ Bool := do
  Easy.onRead p N this (some (fun data size n _ u =>
    let u1 := stream.read data (streamsize_of p (size_t_mul p size n)) u
    (stream.gcount u1, u1))) 0
  Easy.perform N this

/-- The member `Easy::operator >> ( std::ostream &stream )`. -/
def Easy.operator_shr {σ : Type} (p : Platform) (N : Native) (stream : std_ostream σ)
    (this : Ptr) : Prog σ Bool := do
  Easy.onWrite p N this (some (fun data size n _ u =>
    let u1 := stream.write data (streamsize_of p (size_t_mul p size n)) u
    (if stream.to_bool u1 then size_t_mul p size n else 0, u1))) 0
  Easy.perform N this

/-- The function `operator << ( std::ostream &stream, Easy &curlite )`. -/
def operator_shl_ostream {σ : Type} (p : Platform) (N : Native) (stream : std_ostream σ)
    (curlite : Ptr) : Prog σ Unit := do
  let _ ← Easy.operator_shr p N stream curlite
  pure ()

/-- The function `operator >> ( std::istream &stream, Easy &curlite )`. -/
def operator_shr_istream {σ : Type} (p : Platform) (N : Native) (stream : std_istream σ)
    (curlite : Ptr) : Prog σ Unit := do
  let _ ← Easy.operator_shl p N stream curlite
  pure ()

/-- A pointer as a payload. -/
def Payload.ptr (a : Ptr) : Payload :=
  if a = 0 then Payload.null else Payload.addr a

/-- The function `upload`.  The local `c` lives at the address `c` with its private
state at `a`, the local `headers` at `headers`, and the `Easy` returned is built at
`result`; the locals are destroyed when the function is left, `headers` first. -/
def upload {σ : Type} (p : Platform) (N : Native) (istr : std_istream σ)
    (url username password : String) (size : Int) (throwExceptions : Bool)
    (c a headers result : Ptr) : Prog σ Unit := do
  Easy.ctor p N c a
  Prog.scoped (do
      Easy.setExceptionMode c throwExceptions
      let _ ← Easy.set_string p N c CURLOPT_URL url
      let _ ← Easy.set_string p N c CURLOPT_USERNAME username
      let _ ← Easy.set_string p N c CURLOPT_PASSWORD password
      let _ ← Easy.set p N c CURLOPT_INFILESIZE_LARGE ⟨curl_off_t p, Payload.int size⟩
      let _ ← Easy.set_bool p N c CURLOPT_UPLOAD true
      List.ctor headers 0
      Prog.scoped (do
          if size = -1 then do
            List.operator_shl N headers "Transfer-Encoding: chunked"
            List.operator_shl N headers "Expect:"
            let list ← List.get headers
            let _ ← Easy.set p N c CURLOPT_HTTPHEADER ⟨CType.curl_slist_ptr, Payload.ptr list⟩
            pure ()
          operator_shr_istream p N istr c
          let _ ← Easy.set p N c CURLOPT_HTTPHEADER ⟨CType.nullptr_t, Payload.null⟩
          Easy.move_ctor result c)
        (List.dtor headers))
    (Easy.dtor c)

/-- The member `Easy::escape`.  The string is handed over as its buffer, which ends in
a zero byte, and its size as an `int`; the result is the zero-terminated string in the
buffer returned, and the empty string for a null pointer. -/
def Easy.escape {σ : Type} (N : Native) (this : Ptr) (url : Vec Byte) : Prog σ (Vec Byte) := do
  let impl ← Easy.Pimpl.load (← Easy.impl this)
  let str ← Prog.native
    (NativeCall.curl_easy_escape impl.curl (url ++ [0]) (int_of_size_t url.length))
    (fun tr => N.curl_easy_escape tr impl.curl (url ++ [0]) (int_of_size_t url.length))
  match str with
  | some buffer => do
    Prog.native (NativeCall.curl_free buffer) (fun _ => ())
    pure (c_string buffer)
  | none => pure []

/-- The member `Easy::unescape`.  The result is the first `outLength` bytes of the
buffer returned; a range outside the buffer is undefined. -/
def Easy.unescape {σ : Type} (N : Native) (this : Ptr) (url : Vec Byte) :
    Prog σ (Vec Byte) := do
  let impl ← Easy.Pimpl.load (← Easy.impl this)
  let str ← Prog.native
    (NativeCall.curl_easy_unescape impl.curl (url ++ [0]) (int_of_size_t url.length))
    (fun tr => N.curl_easy_unescape tr impl.curl (url ++ [0]) (int_of_size_t url.length))
  match str with
  | some (buffer, outLength) =>
    if 0 ≤ outLength ∧ outLength ≤ buffer.length then do
      Prog.native (NativeCall.curl_free buffer) (fun _ => ())
      pure (buffer.take outLength.toNat)
    else
      Prog.undef
  | none => pure []

/-! ## What the native library holds, read off the calls made -/

/-- The part of the native library's state that the statements below speak of: for
every session the value each option was last set to, and the strings of every chain
by the address of its head. -/
structure NativeState where
  option : Ptr → CURLoption → Option Value
  chain : Ptr → Option (Vec String)

/-- Before any call: no option set, no chain. -/
def NativeState.start : NativeState :=
  { option := fun _ _ => none, chain := fun _ => none }

/-- The state after one more call `c`, made after the calls `pre`.  A `curl_easy_setopt`
that succeeds stores its value; `curl_easy_init`, `curl_easy_reset` and
`curl_easy_cleanup` leave the session with no option set; a `curl_slist_append` that
succeeds leaves, at the head it returns, the strings of the chain it was given followed
by the new one; `curl_slist_free_all` frees the chain. -/
def NativeState.step (N : Native) (pre : NativeTrace) (s : NativeState) :
    NativeCall → NativeState
  | .curl_easy_setopt curl key value =>
    if N.curl_easy_setopt pre curl key value = CURLE_OK then
      { s with option := fun c k => if c = curl ∧ k = key then some value else s.option c k }
    else s
  | .curl_easy_init =>
    { s with option := fun c k => if c = N.curl_easy_init pre then none else s.option c k }
  | .curl_easy_reset curl =>
    { s with option := fun c k => if c = curl then none else s.option c k }
  | .curl_easy_cleanup curl =>
    { s with option := fun c k => if c = curl then none else s.option c k }
  | .curl_slist_append list str =>
    if N.curl_slist_append pre list str = 0 then s
    else
      { s with
        chain := fun l =>
          if l = N.curl_slist_append pre list str then
            some ((if list = 0 then [] else (s.chain list).getD []) ++ [str])
          else if l = list then none
          else s.chain l }
  | .curl_slist_free_all list =>
    { s with chain := fun l => if l = list then none else s.chain l }
  | _ => s

/-- The state after the calls `rest`, made one after the other from the state `s` that
the calls `pre` led to. -/
def Native.replay (N : Native) : NativeTrace → NativeState → NativeTrace → NativeState
  | _, s, [] => s
  | pre, s, c :: rest => Native.replay N (pre ++ [c]) (NativeState.step N pre s c) rest

/-- The state of the native library after the calls `trace`. -/
def Native.state (N : Native) (trace : NativeTrace) : NativeState :=
  Native.replay N [] NativeState.start trace

/-! ## Vocabulary of the statements, and sample worlds -/

/-- The world `w` with the private state at `a` replaced by `impl` and the native calls
`calls` made. -/
def World.after {σ : Type} (w : World σ) (a : Ptr) (impl : Easy.Pimpl σ) (calls : NativeTrace) :
    World σ :=
  { w with
    pimpls := fun x => if x = a then some impl else w.pimpls x,
    trace := w.trace ++ calls }

/-- A native library whose every status is `c` and whose `curl_easy_init` returns `h`.
It starts a string chain at the address `500` and keeps the head of a chain it appends
to, it stores the `long` `200` for every info key, and it escapes and unescapes by
percent-coding. -/
def Native.always (c : CURLcode) (h : Ptr) : Native :=
  { curl_easy_init := fun _ => h,
    curl_easy_setopt := fun _ _ _ _ => c,
    curl_easy_perform := fun _ _ => c,
    curl_easy_pause := fun _ _ _ => c,
    curl_easy_strerror := fun e => if e = 0 then "No error" else "error " ++ toString e,
    curl_slist_append := fun _ list _ => if list = 0 then 500 else list,
    curl_easy_getinfo := fun _ _ _ => (c, Payload.int 200),
    curl_easy_escape := fun _ _ string length => url_escape string length,
    curl_easy_unescape := fun _ _ string length => url_unescape string length,
    curl_easy_send := fun _ _ _ buflen => (c, buflen),
    curl_easy_recv := fun _ _ _ buflen => (c, buflen) }

/-- A world with one handle: the `Easy` object at address `1`, whose private state
`impl` lives at address `100`; no native call has been made. -/
def World.single {σ : Type} (impl : Easy.Pimpl σ) : World σ :=
  { pimpls := fun a => if a = 100 then some impl else none,
    easies := fun a => if a = 1 then some ⟨100⟩ else none,
    lists := fun _ => none,
    forms := fun _ => none,
    trace := [] }

/-- A private state as `Pimpl()` builds it, with native session `curl` and exception
mode `mode`. -/
def Easy.Pimpl.fresh {σ : Type} (curl : Ptr) (mode : Bool) : Easy.Pimpl σ :=
  { (Easy.Pimpl.ctor : Easy.Pimpl σ) with curl := curl, throwExceptions := mode }

/-- The handle at `this` holds the private state `impl`, which lives at the non-null
address `a`. -/
def Holds {σ : Type} (w : World σ) (this a : Ptr) (impl : Easy.Pimpl σ) : Prop :=
  w.easies this = some ⟨a⟩ ∧ a ≠ 0 ∧ w.pimpls a = some impl

/-- The category check of `Easy::set` lets the pair through: the condition of
its `if` is false. -/
def Easy.set_check (p : Platform) (key : CURLoption) (ValueType : CType) : Bool :=
  !((OptionTypeCode p ValueType != Int.tdiv key kCurlOptTypeInterval * kCurlOptTypeInterval) &&
    !((ValueType == CType.nullptr_t) &&
      (Int.tdiv key kCurlOptTypeInterval * kCurlOptTypeInterval != CURLOPTTYPE_LONG)))

/-- What the error routine promises of an operation that ended with native status `c`
on a handle whose exception mode is `mode`, `r` being how the operation ended: it
raises exactly when `c` is not `CURLE_OK` and the mode is on, the exception then
carries `curl_easy_strerror( c )`, and otherwise it returns `c == CURLE_OK`. -/
def Funnelled (N : Native) (mode : Bool) (c : CURLcode) (r : Outcome Bool) : Prop :=
  ((∃ e, r = Outcome.raised e) ↔ (c ≠ CURLE_OK ∧ mode = true)) ∧
  (∀ e, r = Outcome.raised e → e.what = N.curl_easy_strerror c) ∧
  (¬ (c ≠ CURLE_OK ∧ mode = true) → r = Outcome.ok (decide (c = CURLE_OK))) ∧
  (r = Outcome.ok true ↔ c = CURLE_OK) ∧
  (mode = false → ∀ e, r ≠ Outcome.raised e)

/-- The status that `Easy::set` hands to the error routine. -/
def Easy.set_status {σ : Type} (p : Platform) (N : Native) (w : World σ) (curl : Ptr)
    (key : CURLoption) (value : Value) : CURLcode :=
  if Easy.set_check p key value.ctype then N.curl_easy_setopt w.trace curl key value
  else CURLE_BAD_FUNCTION_ARGUMENT

/-- The pointer handed to a trampoline is null, or designates a private state whose
slot picked by `empty` holds no handler. -/
def Easy.Pimpl.NoHandler {σ : Type} (w : World σ) (userPtr : Ptr)
    (empty : Easy.Pimpl σ → Prop) : Prop :=
  userPtr = 0 ∨ ∃ impl, w.pimpls userPtr = some impl ∧ empty impl

/-- A private state whose read slot holds the handler `f` with user data `9`. -/
def Easy.Pimpl.reading {σ : Type} (f : ReadHandler σ) : Easy.Pimpl σ :=
  { (Easy.Pimpl.ctor : Easy.Pimpl σ) with curl := 7, onRead := { handler := some f, data := 9 } }

/-- The two native calls of a registration on the session `curl` of the private state at
`a`: the function option gets the trampoline `t` and the data option the address `a`
when a handler is given, and both get a null pointer when it is not. -/
def registration (curl a : Ptr) (fnKey dataKey : CURLoption) (cb : CType) (t : Trampoline)
    (given : Bool) : NativeTrace :=
  [NativeCall.curl_easy_setopt curl fnKey ⟨cb, if given then Payload.fn t else Payload.null⟩,
   NativeCall.curl_easy_setopt curl dataKey
     ⟨CType.void_ptr, if given then Payload.addr a else Payload.null⟩]

/-- The native call that sets the `long` option `key` to `1` or `0`. -/
def flagged (curl : Ptr) (key : CURLoption) (v : Bool) : NativeTrace :=
  [NativeCall.curl_easy_setopt curl key ⟨CType.long, Payload.int (if v then 1 else 0)⟩]

/-- What a registration that ended as `r` has done to the world `w`, where the handle
holds `impl` at `a`: it returned, the slot `slot` of the private state now holds `f`
and `data`, the native session is the same, exactly `calls` were made of the native
library, and no handle changed its private state. -/
def Registered {σ H : Type} (w : World σ) (a : Ptr) (impl : Easy.Pimpl σ)
    (r : Outcome Unit × World σ) (slot : Easy.Pimpl σ → Event H) (f : Option H) (data : Ptr)
    (calls : NativeTrace) : Prop :=
  r.1 = Outcome.ok () ∧
  (∃ impl2, r.2.pimpls a = some impl2 ∧ (slot impl2).handler = f ∧
    (slot impl2).data = data ∧ impl2.curl = impl.curl) ∧
  r.2.trace = w.trace ++ calls ∧
  r.2.easies = w.easies

/-- The option keys that the fifteen registrations set, each with the static type of the
value it is set with. -/
def Easy.registration_options : Vec (CURLoption × CType) :=
  [(CURLOPT_READFUNCTION, CType.curl_read_callback),
   (CURLOPT_READDATA, CType.void_ptr),
   (CURLOPT_WRITEFUNCTION, CType.curl_write_callback),
   (CURLOPT_WRITEDATA, CType.void_ptr),
   (CURLOPT_HEADERFUNCTION, CType.curl_write_callback),
   (CURLOPT_HEADERDATA, CType.void_ptr),
   (CURLOPT_PROGRESSFUNCTION, CType.curl_progress_callback),
   (CURLOPT_PROGRESSDATA, CType.void_ptr),
   (CURLOPT_NOPROGRESS, CType.long),
   (CURLOPT_DEBUGFUNCTION, CType.curl_debug_callback),
   (CURLOPT_DEBUGDATA, CType.void_ptr),
   (CURLOPT_VERBOSE, CType.long),
   (CURLOPT_IOCTLFUNCTION, CType.curl_ioctl_callback),
   (CURLOPT_IOCTLDATA, CType.void_ptr),
   (CURLOPT_SEEKFUNCTION, CType.curl_seek_callback),
   (CURLOPT_SEEKDATA, CType.void_ptr),
   (CURLOPT_FNMATCH_FUNCTION, CType.curl_fnmatch_callback),
   (CURLOPT_FNMATCH_DATA, CType.void_ptr),
   (CURLOPT_XFERINFOFUNCTION, CType.curl_xferinfo_callback),
   (CURLOPT_XFERINFODATA, CType.void_ptr),
   (CURLOPT_OPENSOCKETFUNCTION, CType.curl_opensocket_callback),
   (CURLOPT_OPENSOCKETDATA, CType.void_ptr),
   (CURLOPT_CLOSESOCKETFUNCTION, CType.curl_closesocket_callback),
   (CURLOPT_CLOSESOCKETDATA, CType.void_ptr),
   (CURLOPT_SOCKOPTFUNCTION, CType.curl_sockopt_callback),
   (CURLOPT_SOCKOPTDATA, CType.void_ptr),
   (CURLOPT_CHUNK_BGN_FUNCTION, CType.curl_chunk_bgn_callback),
   (CURLOPT_CHUNK_DATA, CType.void_ptr),
   (CURLOPT_CHUNK_END_FUNCTION, CType.curl_chunk_end_callback),
   (CURLOPT_SSL_CTX_FUNCTION, CType.curl_ssl_ctx_callback),
   (CURLOPT_SSL_CTX_DATA, CType.void_ptr)]

/-- The slot `slot` of the handle that holds its private state at `a` in the world `w`
has a handler, and `good` holds of it. -/
def Installed {σ H : Type} (w : World σ) (a : Ptr) (slot : Easy.Pimpl σ → Event H)
    (good : H → Prop) : Prop :=
  ∃ impl handler, w.pimpls a = some impl ∧ (slot impl).handler = some handler ∧ good handler

/-- The handle at `this` holds at `a` the private state `impl`, up to the last error. -/
def Keeps {σ : Type} (w : World σ) (this a : Ptr) (impl : Easy.Pimpl σ) : Prop :=
  ∃ e, Holds w this a { impl with err := e }

/-- The native cleanup of the session `curl`: one call, or none for a null pointer. -/
def cleanup_of (curl : Ptr) : NativeTrace :=
  if curl ≠ 0 then [NativeCall.curl_easy_cleanup curl] else []

/-- A world with two handles: the `Easy` objects at addresses `1` and `2`, whose private
states `x` and `y` live at `100` and `200`. -/
def World.pair {σ : Type} (x y : Easy.Pimpl σ) : World σ :=
  { pimpls := fun a => if a = 100 then some x else if a = 200 then some y else none,
    easies := fun a => if a = 1 then some ⟨100⟩ else if a = 2 then some ⟨200⟩ else none,
    lists := fun _ => none,
    forms := fun _ => none,
    trace := [] }

/-- The native call that frees the string chain `list`: none for a null pointer. -/
def slist_free_of (list : Ptr) : NativeTrace :=
  if list ≠ 0 then [NativeCall.curl_slist_free_all list] else []

/-- The native call that frees the form chain `first`: none for a null pointer. -/
def formfree_of (first : Ptr) : NativeTrace :=
  if first ≠ 0 then [NativeCall.curl_formfree first] else []

/-- A world with the `List` objects `x` and `y` and the `Form` objects `f` and `g`, each
pair at the addresses `1` and `2`. -/
def World.chains (x y : List) (f g : Form) : World Unit :=
  { pimpls := fun _ => none,
    easies := fun _ => none,
    lists := fun a => if a = 1 then some x else if a = 2 then some y else none,
    forms := fun a => if a = 1 then some f else if a = 2 then some g else none,
    trace := [] }

/-- A native library whose calls succeed and whose `curl_easy_getinfo` stores a null
pointer, as it does for `CURLINFO_CONTENT_TYPE` when the server sent no content type. -/
def Native.no_content_type : Native :=
  { Native.always CURLE_OK 7 with curl_easy_getinfo := fun _ _ _ => (CURLE_OK, Payload.null) }

/-- The world before anything is built: no object, no native call. -/
def World.empty {σ : Type} : World σ :=
  { pimpls := fun _ => none,
    easies := fun _ => none,
    lists := fun _ => none,
    forms := fun _ => none,
    trace := [] }

/-- A native library that hands out the session `7`, whose transfers fail with the
status `7` (`CURLE_COULDNT_CONNECT`) and whose other calls succeed. -/
def Native.failing_transfer : Native :=
  { Native.always CURLE_OK 7 with curl_easy_perform := fun _ _ => 7 }

/-- An input stream with nothing to read. -/
def std_istream.at_end : std_istream Unit :=
  { read := fun _ _ u => u, gcount := fun _ => 0 }

/-- The native calls with which `upload` sets up the session `curl` before it turns to
the headers: `curl_easy_init` and the user agent of the constructor, then the URL, the
user name, the password, the size (a call made only where the type of `size` passes the
check of `set`) and the upload flag. -/
def upload_setup (p : Platform) (curl : Ptr) (url username password : String) (size : Int) :
    NativeTrace :=
  [NativeCall.curl_easy_init,
   NativeCall.curl_easy_setopt curl CURLOPT_USERAGENT
     ⟨CType.const_char_ptr, Payload.cstr "curlite::Easy"⟩,
   NativeCall.curl_easy_setopt curl CURLOPT_URL ⟨CType.const_char_ptr, Payload.cstr url⟩,
   NativeCall.curl_easy_setopt curl CURLOPT_USERNAME
     ⟨CType.const_char_ptr, Payload.cstr username⟩,
   NativeCall.curl_easy_setopt curl CURLOPT_PASSWORD
     ⟨CType.const_char_ptr, Payload.cstr password⟩] ++
  (if p.long_is_curl_off_t then []
   else [NativeCall.curl_easy_setopt curl CURLOPT_INFILESIZE_LARGE
     ⟨curl_off_t p, Payload.int size⟩]) ++
  [NativeCall.curl_easy_setopt curl CURLOPT_UPLOAD ⟨CType.long, Payload.int 1⟩]

/-- A string of `2 ^ 31` letters `a`. -/
def long_string : Vec Byte := List.replicate (2 ^ 31) 97

/-! ## Runs of operations on handles -/

/-- A native session: the address that one `curl_easy_init` call handed out, and the
number of `curl_easy_cleanup` calls that this address was handed to since.  An address
that `curl_easy_init` hands out again is that of another session. -/
structure Session where
  curl : Ptr
  cleaned : Nat
  deriving DecidableEq, Repr

/-- One `curl_easy_cleanup` call with the address `curl`, the sessions being listed
latest first: the call counts for the session that was last handed out at this address,
and for none when no session was handed out there. -/
def Session.cleanup (curl : Ptr) : Vec Session → Vec Session
  | [] => []
  | s :: rest =>
    if s.curl = curl then { s with cleaned := s.cleaned + 1 } :: rest
    else s :: Session.cleanup curl rest

/-- The sessions after one more call `c`, made after the calls `pre`: a `curl_easy_init`
that does not fail hands out a new session, a `curl_easy_cleanup` counts for the session
at its address. -/
def Session.step (N : Native) (pre : NativeTrace) (ss : Vec Session) : NativeCall → Vec Session
  | .curl_easy_init =>
    if N.curl_easy_init pre = 0 then ss else ⟨N.curl_easy_init pre, 0⟩ :: ss
  | .curl_easy_cleanup curl => Session.cleanup curl ss
  | _ => ss

/-- The sessions after the calls `rest`, made one after the other from the sessions `ss`
that the calls `pre` led to. -/
def Native.sessions_after (N : Native) : NativeTrace → Vec Session → NativeTrace → Vec Session
  | _, ss, [] => ss
  | pre, ss, c :: rest => Native.sessions_after N (pre ++ [c]) (Session.step N pre ss c) rest

/-- Every session that the native library has handed out in the calls `trace`, latest
first, each with the number of times it was handed to `curl_easy_cleanup`. -/
def Native.sessions (N : Native) (trace : NativeTrace) : Vec Session :=
  Native.sessions_after N [] [] trace

/-- A program under way: its world, and the sessions that `release()` has handed to the
caller. -/
structure Course (σ : Type) where
  world : World σ
  released : Vec Ptr

/-- The program before its first operation. -/
def Course.start {σ : Type} : Course σ :=
  { world := World.empty, released := [] }

/-- The sessions handed to `curl_easy_cleanup`, in the order of the calls. -/
def cleanups : NativeTrace → Vec Ptr
  | [] => []
  | NativeCall.curl_easy_cleanup curl :: rest => curl :: cleanups rest
  | _ :: rest => cleanups rest

/-- The handle at `this` owns the session `curl`: it has a private state, whose `curl`
member is `curl`. -/
def Owns {σ : Type} (w : World σ) (this curl : Ptr) : Prop :=
  ∃ a impl, Holds w this a impl ∧ impl.curl = curl

/-- What holds of the handles, the private states and the sessions after every run of
successful operations. -/
structure Sound {σ : Type} (easies : Ptr → Option Easy) (pimpls : Ptr → Option (Easy.Pimpl σ))
    (sessions : Vec Session) (released : Vec Ptr) : Prop where
  /-- A non-null `_impl` designates a private state. -/
  attached : ∀ h e, easies h = some e → e._impl ≠ 0 → ∃ i, pimpls e._impl = some i
  /-- No two handles share a private state. -/
  apart : ∀ h1 h2 e1 e2, easies h1 = some e1 → easies h2 = some e2 → e1._impl ≠ 0 →
    e1._impl = e2._impl → h1 = h2
  /-- No two private states share a session. -/
  single : ∀ a1 a2 i1 i2, pimpls a1 = some i1 → pimpls a2 = some i2 → i1.curl ≠ 0 →
    i1.curl = i2.curl → a1 = a2
  /-- Every private state is at a non-null address and belongs to a handle. -/
  owned : ∀ a i, pimpls a = some i → a ≠ 0 ∧ ∃ h, easies h = some ⟨a⟩
  /-- A session held is live and was not handed to the caller. -/
  held : ∀ a i, pimpls a = some i → i.curl ≠ 0 → ⟨i.curl, 0⟩ ∈ sessions ∧ i.curl ∉ released
  /-- No session is cleaned up twice. -/
  once : ∀ s ∈ sessions, s.cleaned ≤ 1
  /-- A session handed out earlier at the address of a later one was cleaned up. -/
  order : sessions.Pairwise (fun later earlier => later.curl = earlier.curl → earlier.cleaned ≠ 0)
  /-- A live session is held by a private state or was handed to the caller. -/
  kept : ∀ s ∈ sessions, s.cleaned = 0 →
    (∃ a i, pimpls a = some i ∧ i.curl = s.curl) ∨ s.curl ∈ released
  /-- The null pointer is no session. -/
  nonnull : ∀ s ∈ sessions, s.curl ≠ 0
  /-- A session handed to the caller is live. -/
  handed : ∀ c ∈ released, ⟨c, 0⟩ ∈ sessions

/-- A native library whose `curl_slist_append` starts a chain at the address `500` and
fails on every chain that is not empty; its other calls succeed. -/
def Native.failing_append : Native :=
  { Native.always CURLE_OK 7 with curl_slist_append := fun _ list _ => if list = 0 then 500 else 0 }

/-- A private state whose debug slot holds the handler `f` with user data `9`. -/
def Easy.Pimpl.debugging {σ : Type} (f : DebugHandler σ) : Easy.Pimpl σ :=
  { (Easy.Pimpl.ctor : Easy.Pimpl σ) with curl := 7, onDebug := { handler := some f, data := 9 } }

/-! ## Theorems -/

section lemmas
variable {σ : Type}

@[simp] theorem Prog.pure_run {α : Type} (a : α) (w : World σ) :
    (Pure.pure a : Prog σ α) w = (Outcome.ok a, w) := rfl

@[simp] theorem Prog.bind_run {α β : Type} (m : Prog σ α) (f : α → Prog σ β) (w : World σ) :
    (m >>= f) w = Prog.bind m f w := rfl

theorem Easy.handleError_run (N : Native) (w : World σ) (this a : Ptr) (impl : Easy.Pimpl σ)
    (h : Holds w this a impl) (code : CURLcode) :
    Easy.handleError N this code w =
      (if code != CURLE_OK && impl.throwExceptions
        then Outcome.raised ⟨N.curl_easy_strerror code⟩
        else Outcome.ok (code == CURLE_OK),
       w.setPimpl a (some { impl with err := code })) := by
  obtain ⟨h1, h2, h3⟩ := h
  simp only [Easy.handleError, Prog.bind_run, Prog.bind, Easy.impl, h1, Easy.Pimpl.modify,
    Easy.Pimpl.load, h2, if_false, h3, Prog.world, Prog.put, World.setPimpl, if_true]
  split <;> simp_all [Prog.raise]

theorem Holds.called {w : World σ} {this a : Ptr} {impl : Easy.Pimpl σ}
    (h : Holds w this a impl) (c : NativeCall) : Holds (w.called c) this a impl := h

theorem Easy.get_run (w : World σ) (this a : Ptr) (impl : Easy.Pimpl σ)
    (h : Holds w this a impl) : Easy.get this w = (Outcome.ok impl.curl, w) := by
  obtain ⟨h1, h2, h3⟩ := h
  simp [Easy.get, Prog.bind, Easy.impl, h1, Easy.Pimpl.load, h2, h3]

theorem Easy.set_run (p : Platform) (N : Native) (w : World σ) (this a : Ptr)
    (impl : Easy.Pimpl σ) (h : Holds w this a impl) (key : CURLoption) (value : Value) :
    Easy.set p N this key value w =
      if Easy.set_check p key value.ctype then
        Easy.handleError N this (N.curl_easy_setopt w.trace impl.curl key value)
          (w.called (NativeCall.curl_easy_setopt impl.curl key value))
      else Easy.handleError N this CURLE_BAD_FUNCTION_ARGUMENT w := by
  unfold Easy.set Easy.set_check
  generalize Int.tdiv key kCurlOptTypeInterval * kCurlOptTypeInterval = k
  by_cases h1 : OptionTypeCode p value.ctype = k <;>
  by_cases h2 : value.ctype = CType.nullptr_t <;>
  by_cases h3 : k = CURLOPTTYPE_LONG <;>
  simp [h1, h2, h3, Prog.bind, Easy.get_run w this a impl h, Prog.native, World.called] <;>
  split <;>
  simp [Prog.bind, Easy.get_run w this a impl h, Prog.native, World.called]

theorem Holds.setPimpl {w : World σ} {this a : Ptr} {impl : Easy.Pimpl σ}
    (h : Holds w this a impl) (impl2 : Easy.Pimpl σ) :
    Holds (w.setPimpl a (some impl2)) this a impl2 :=
  ⟨h.1, h.2.1, by simp [World.setPimpl]⟩

theorem Easy.error_run (w : World σ) (this a : Ptr) (impl : Easy.Pimpl σ)
    (h : Holds w this a impl) : Easy.error this w = (Outcome.ok impl.err, w) := by
  obtain ⟨h1, h2, h3⟩ := h
  simp [Easy.error, Prog.bind, Easy.impl, h1, Easy.Pimpl.load, h2, h3]

theorem Holds.single (impl : Easy.Pimpl σ) : Holds (World.single impl) 1 100 impl :=
  ⟨rfl, by decide, rfl⟩

theorem Easy.set_check_eq (p : Platform) (key : CURLoption) (T : CType)
    (hT : T ≠ CType.nullptr_t) :
    Easy.set_check p key T = decide (OptionTypeCode p T = Int.tdiv key 10000 * 10000) := by
  have hk : kCurlOptTypeInterval = 10000 := by decide
  simp only [Easy.set_check, hk]
  by_cases h : OptionTypeCode p T = Int.tdiv key 10000 * 10000 <;> simp [h, hT]

theorem Funnelled.intro (N : Native) (mode : Bool) (c : CURLcode) :
    Funnelled N mode c
      (if c != CURLE_OK && mode then Outcome.raised ⟨N.curl_easy_strerror c⟩
       else Outcome.ok (c == CURLE_OK)) := by
  unfold Funnelled
  by_cases hc : c = CURLE_OK <;> cases mode <;> simp [hc]

theorem Easy.perform_run (N : Native) (w : World σ) (this a : Ptr) (impl : Easy.Pimpl σ)
    (h : Holds w this a impl) :
    Easy.perform N this w =
      Easy.handleError N this (N.curl_easy_perform w.trace impl.curl)
        (w.called (NativeCall.curl_easy_perform impl.curl)) := by
  obtain ⟨h1, h2, h3⟩ := h
  simp [Easy.perform, Prog.bind, Easy.impl, h1, Easy.Pimpl.load, h2, h3, Prog.native,
    World.called]

theorem Easy.pause_run (N : Native) (w : World σ) (this a : Ptr) (impl : Easy.Pimpl σ)
    (h : Holds w this a impl) (bitmask : Int) :
    Easy.pause N this bitmask w =
      Easy.handleError N this (N.curl_easy_pause w.trace impl.curl bitmask)
        (w.called (NativeCall.curl_easy_pause impl.curl bitmask)) := by
  obtain ⟨h1, h2, h3⟩ := h
  simp [Easy.pause, Prog.bind, Easy.impl, h1, Easy.Pimpl.load, h2, h3, Prog.native,
    World.called]

theorem Easy.set_run_status (p : Platform) (N : Native) (w : World σ) (this a : Ptr)
    (impl : Easy.Pimpl σ) (h : Holds w this a impl) (key : CURLoption) (value : Value) :
    (Easy.set p N this key value w).1 =
      (if Easy.set_status p N w impl.curl key value != CURLE_OK && impl.throwExceptions
        then Outcome.raised ⟨N.curl_easy_strerror (Easy.set_status p N w impl.curl key value)⟩
        else Outcome.ok (Easy.set_status p N w impl.curl key value == CURLE_OK)) := by
  rw [Easy.set_run p N w this a impl h]
  unfold Easy.set_status
  split
  · rw [Easy.handleError_run N _ this a impl (h.called _)]
  · rw [Easy.handleError_run N _ this a impl h]

/-- A null pointer passes the category check of `Easy::set` exactly when the category of
the key is not `CURLOPTTYPE_LONG`. -/
theorem Easy.set_check_nullptr (p : Platform) (key : CURLoption) :
    Easy.set_check p key CType.nullptr_t
      = decide (Int.tdiv key 10000 * 10000 ≠ CURLOPTTYPE_LONG) := by
  have hk : kCurlOptTypeInterval = 10000 := by decide
  simp only [Easy.set_check, hk]
  have e : OptionTypeCode p CType.nullptr_t = -2 := rfl
  have l : CURLOPTTYPE_LONG = 0 := rfl
  rw [e, l]
  by_cases h : Int.tdiv key 10000 * 10000 = 0 <;> simp [h]

theorem Easy.impl_run {w : World σ} {this a : Ptr} {impl : Easy.Pimpl σ}
    (h : Holds w this a impl) : Easy.impl this w = (Outcome.ok a, w) := by
  simp [Easy.impl, h.1]

theorem Easy.Pimpl.modify_run {w : World σ} {this a : Ptr} {impl : Easy.Pimpl σ}
    (h : Holds w this a impl) (f : Easy.Pimpl σ → Easy.Pimpl σ) :
    Easy.Pimpl.modify a f w = (Outcome.ok (), w.setPimpl a (some (f impl))) := by
  simp [Easy.Pimpl.modify, Prog.bind, Easy.Pimpl.load, h.2.1, h.2.2, Prog.world, Prog.put]

theorem Easy.set_ok {p : Platform} {N : Native} {w : World σ} {this a : Ptr}
    {impl : Easy.Pimpl σ} (hN : ∀ tr c k v, N.curl_easy_setopt tr c k v = CURLE_OK)
    (h : Holds w this a impl) (key : CURLoption) (value : Value)
    (hc : Easy.set_check p key value.ctype = true) :
    Easy.set p N this key value w =
      (Outcome.ok true, (w.called (NativeCall.curl_easy_setopt impl.curl key value)).setPimpl a
        (some { impl with err := CURLE_OK })) := by
  rw [Easy.set_run p N w this a impl h, hc, if_pos rfl,
    Easy.handleError_run N _ this a impl (h.called _), hN]
  rfl

theorem World.setPimpl_setPimpl (w : World σ) (a : Ptr) (x y : Option (Easy.Pimpl σ)) :
    (w.setPimpl a x).setPimpl a y = w.setPimpl a y := by
  unfold World.setPimpl
  congr 1
  funext z
  by_cases hz : z = a <;> simp [hz]

theorem Easy.set_check_bits (flag : Bool) (bits : Nat) (key : CURLoption) (T : CType) :
    Easy.set_check ⟨flag, bits⟩ key T = Easy.set_check ⟨flag, 0⟩ key T := by
  cases T <;> rfl

theorem Prog.native_run {α : Type} (c : NativeCall) (answer : NativeTrace → α) (w : World σ) :
    Prog.native c answer w = (Outcome.ok (answer w.trace), w.called c) := rfl

theorem Prog.bind_ok {α β : Type} {m : Prog σ α} {f : α → Prog σ β} {w w1 : World σ} {x : α}
    (h : m w = (Outcome.ok x, w1)) : Prog.bind m f w = f x w1 := by
  simp [Prog.bind, h]

theorem Prog.bind_keeps {α β : Type} {P : World σ → Prop} {m : Prog σ α} {f : α → Prog σ β}
    {w : World σ} (hm : P (m w).2) (hf : ∀ x w1, P w1 → P (f x w1).2) :
    P (Prog.bind m f w).2 := by
  unfold Prog.bind
  rcases hmw : m w with ⟨r, w1⟩
  rw [hmw] at hm
  cases r with
  | ok x => exact hf x w1 hm
  | raised e => exact hm
  | undefined => exact hm

theorem Prog.bind_eq {α β : Type} (m : Prog σ α) (f : α → Prog σ β) :
    (m >>= f) = Prog.bind m f := rfl

theorem Prog.pure_eq {α : Type} (x : α) : (Pure.pure x : Prog σ α) = Prog.pure x := rfl

theorem Holds.keeps {w : World σ} {this a : Ptr} {impl : Easy.Pimpl σ}
    (h : Holds w this a impl) : Keeps w this a impl := ⟨impl.err, h⟩

theorem Easy.set_keeps {p : Platform} {N : Native} {w : World σ} {this a : Ptr}
    {impl : Easy.Pimpl σ} (key : CURLoption) (value : Value) (h : Keeps w this a impl) :
    Keeps (Easy.set p N this key value w).2 this a impl := by
  obtain ⟨e, h⟩ := h
  rw [Easy.set_run p N w this a _ h]
  split
  · rw [Easy.handleError_run N _ this a _ (h.called _)]
    exact ⟨_, (h.called _).setPimpl _⟩
  · rw [Easy.handleError_run N _ this a _ h]
    exact ⟨_, h.setPimpl _⟩

theorem Easy.set_then_keeps {p : Platform} {N : Native} {w : World σ} {this a : Ptr}
    {impl : Easy.Pimpl σ} {β : Type} (key : CURLoption) (value : Value) (rest : Bool → Prog σ β)
    (hrest : ∀ b w1, Keeps w1 this a impl → Keeps (rest b w1).2 this a impl)
    (h : Keeps w this a impl) :
    Keeps (Prog.bind (Easy.set p N this key value) rest w).2 this a impl :=
  Prog.bind_keeps (P := fun w => Keeps w this a impl) (Easy.set_keeps key value h) hrest

theorem Easy.onRead_keeps (p : Platform) (N : Native) {w : World σ} {this a : Ptr}
    {impl : Easy.Pimpl σ} (h : Holds w this a impl) (f : Option (ReadHandler σ)) (data : Ptr) :
    Keeps (Easy.onRead p N this f data w).2 this a { impl with onRead := ⟨f, data⟩ } := by
  unfold Easy.onRead
  simp only [Prog.bind_eq, Prog.pure_eq, Easy.set_bool]
  rw [Prog.bind_ok (Easy.impl_run h), Prog.bind_ok (Easy.Pimpl.modify_run h _),
    Prog.bind_ok (Easy.Pimpl.modify_run (h.setPimpl _) _)]
  refine Easy.set_then_keeps _ _ _ (fun _ _ h1 => ?_) ((h.setPimpl _).setPimpl _).keeps
  refine Easy.set_then_keeps _ _ _ (fun _ _ h2 => ?_) h1
  exact h2

theorem Easy.onWrite_keeps (p : Platform) (N : Native) {w : World σ} {this a : Ptr}
    {impl : Easy.Pimpl σ} (h : Holds w this a impl) (f : Option (WriteHandler σ)) (data : Ptr) :
    Keeps (Easy.onWrite p N this f data w).2 this a { impl with onWrite := ⟨f, data⟩ } := by
  unfold Easy.onWrite
  simp only [Prog.bind_eq, Prog.pure_eq, Easy.set_bool]
  rw [Prog.bind_ok (Easy.impl_run h), Prog.bind_ok (Easy.Pimpl.modify_run h _),
    Prog.bind_ok (Easy.Pimpl.modify_run (h.setPimpl _) _)]
  refine Easy.set_then_keeps _ _ _ (fun _ _ h1 => ?_) ((h.setPimpl _).setPimpl _).keeps
  refine Easy.set_then_keeps _ _ _ (fun _ _ h2 => ?_) h1
  exact h2

theorem Easy.onHeader_keeps (p : Platform) (N : Native) {w : World σ} {this a : Ptr}
    {impl : Easy.Pimpl σ} (h : Holds w this a impl) (f : Option (WriteHandler σ)) (data : Ptr) :
    Keeps (Easy.onHeader p N this f data w).2 this a { impl with onHeader := ⟨f, data⟩ } := by
  unfold Easy.onHeader
  simp only [Prog.bind_eq, Prog.pure_eq, Easy.set_bool]
  rw [Prog.bind_ok (Easy.impl_run h), Prog.bind_ok (Easy.Pimpl.modify_run h _),
    Prog.bind_ok (Easy.Pimpl.modify_run (h.setPimpl _) _)]
  refine Easy.set_then_keeps _ _ _ (fun _ _ h1 => ?_) ((h.setPimpl _).setPimpl _).keeps
  refine Easy.set_then_keeps _ _ _ (fun _ _ h2 => ?_) h1
  exact h2

theorem Easy.onXferInfo_keeps (p : Platform) (N : Native) {w : World σ} {this a : Ptr}
    {impl : Easy.Pimpl σ} (h : Holds w this a impl) (f : Option (XferInfoHandler σ)) (data : Ptr) :
    Keeps (Easy.onXferInfo p N this f data w).2 this a { impl with onXferInfo := ⟨f, data⟩ } := by
  unfold Easy.onXferInfo
  simp only [Prog.bind_eq, Prog.pure_eq, Easy.set_bool]
  rw [Prog.bind_ok (Easy.impl_run h), Prog.bind_ok (Easy.Pimpl.modify_run h _),
    Prog.bind_ok (Easy.Pimpl.modify_run (h.setPimpl _) _)]
  refine Easy.set_then_keeps _ _ _ (fun _ _ h1 => ?_) ((h.setPimpl _).setPimpl _).keeps
  refine Easy.set_then_keeps _ _ _ (fun _ _ h2 => ?_) h1
  exact Easy.set_then_keeps _ _ _ (fun _ _ h3 => h3) h2

theorem Easy.release_empty {w : World σ} {this : Ptr} (h : w.easies this = some ⟨0⟩) :
    Easy.release this w = (Outcome.ok 0, w) := by
  simp [Easy.release, Prog.bind, Easy.impl, h]

theorem Easy.release_run {w : World σ} {this a : Ptr} {impl : Easy.Pimpl σ}
    (h : Holds w this a impl) :
    Easy.release this w
      = (Outcome.ok impl.curl, w.setPimpl a (some { impl with curl := 0 })) := by
  simp [Easy.release, Prog.bind, Easy.impl, h.1, h.2.1, Easy.Pimpl.load, h.2.2,
    Easy.Pimpl.modify, Prog.world, Prog.put]

theorem Easy.swap_run {w : World σ} {this other a b : Ptr} (hne : this ≠ other)
    (hthis : w.easies this = some ⟨a⟩) (hother : w.easies other = some ⟨b⟩) :
    Prog.bind (Easy.impl this) (fun mine => Prog.bind (Easy.impl other) (fun theirs =>
      Prog.bind (Easy.set_impl this theirs) (fun _ => Easy.set_impl other mine))) w
      = (Outcome.ok (), (w.setEasy this (some ⟨b⟩)).setEasy other (some ⟨a⟩)) := by
  simp [Prog.bind, Easy.impl, hthis, hother, Easy.set_impl, World.setEasy, Ne.symm hne]

theorem Easy.move_assign_run {w : World σ} {this other a b : Ptr} {impl : Easy.Pimpl σ}
    (hne : this ≠ other) (hother : w.easies other = some ⟨b⟩) (h : Holds w this a impl) :
    Easy.move_assign this other w
      = (Outcome.ok (),
          ({ w.setPimpl a (some { impl with curl := 0 }) with
              trace := w.trace ++ cleanup_of impl.curl }.setEasy this (some ⟨b⟩)).setEasy
            other (some ⟨a⟩)) := by
  simp only [Easy.move_assign, if_pos hne, Prog.bind_eq, Prog.pure_eq]
  rw [Prog.bind_ok (Easy.release_run h)]
  by_cases hc : impl.curl = 0
  · rw [if_neg (not_not.mpr hc), Prog.bind_ok (rfl : Prog.pure PUnit.unit _ = _),
      Easy.swap_run (w := w.setPimpl a _) hne h.1 hother]
    simp [cleanup_of, hc, World.setPimpl]
  · rw [if_pos hc, Prog.bind_ok (Prog.native_run _ _ _),
      Easy.swap_run (w := World.called (w.setPimpl a _) _) hne h.1 hother]
    simp [cleanup_of, hc, World.setPimpl, World.called]

theorem Easy.move_assign_empty {w : World σ} {this other b : Ptr}
    (hne : this ≠ other) (hother : w.easies other = some ⟨b⟩)
    (h : w.easies this = some ⟨0⟩) :
    Easy.move_assign this other w
      = (Outcome.ok (), (w.setEasy this (some ⟨b⟩)).setEasy other (some ⟨0⟩)) := by
  simp only [Easy.move_assign, if_pos hne, Prog.bind_eq, Prog.pure_eq]
  rw [Prog.bind_ok (Easy.release_empty h), if_neg (not_not.mpr rfl),
    Prog.bind_ok (rfl : Prog.pure PUnit.unit _ = _), Easy.swap_run hne h hother]

theorem Easy.move_ctor_run {w : World σ} {this other b : Ptr}
    (hne : this ≠ other) (hother : w.easies other = some ⟨b⟩) :
    Easy.move_ctor this other w
      = (Outcome.ok (), (w.setEasy this (some ⟨b⟩)).setEasy other (some ⟨0⟩)) := by
  have h0 : (w.setEasy this (some ⟨0⟩)).easies this = some ⟨0⟩ := by simp [World.setEasy]
  have h1 : (w.setEasy this (some ⟨0⟩)).easies other = some ⟨b⟩ := by
    simp [World.setEasy, Ne.symm hne, hother]
  simp only [Easy.move_ctor, Prog.bind_eq]
  rw [Prog.bind_ok (rfl : Prog.world w = _), Prog.bind_ok (rfl : Prog.put _ w = _),
    Easy.move_assign_empty hne h1 h0]
  congr 1
  simp only [World.setEasy]
  congr 1
  funext x
  by_cases hx : x = other <;> by_cases hy : x = this <;> simp [hx, hy]

theorem Easy.dtor_empty {w : World σ} {this : Ptr} (h : w.easies this = some ⟨0⟩) :
    Easy.dtor this w = (Outcome.ok (), w.setEasy this none) := by
  simp only [Easy.dtor, Prog.bind_eq]
  rw [Prog.bind_ok (Easy.release_empty h), if_neg (not_not.mpr rfl)]
  simp [Prog.bind, Easy.impl, h, Prog.world, Prog.put]

theorem Easy.dtor_run {w : World σ} {this a : Ptr} {impl : Easy.Pimpl σ}
    (h : Holds w this a impl) :
    Easy.dtor this w
      = (Outcome.ok (),
          ({ w with trace := w.trace ++ cleanup_of impl.curl }.setPimpl a none).setEasy
            this none) := by
  simp only [Easy.dtor, Prog.bind_eq]
  rw [Prog.bind_ok (Easy.release_run h)]
  by_cases hc : impl.curl = 0
  · rw [if_neg (not_not.mpr hc)]
    simp [Prog.bind, Easy.impl, World.setPimpl, h.1, h.2.1, Prog.world, Prog.put, cleanup_of, hc]
    congr 2
    funext x
    by_cases hx : x = a <;> simp [hx]
  · rw [if_pos hc, Prog.bind_ok (Prog.native_run _ _ _)]
    simp [Prog.bind, Easy.impl, World.setPimpl, World.called, h.1, h.2.1, Prog.world, Prog.put,
      cleanup_of, hc]
    congr 2
    funext x
    by_cases hx : x = a <;> simp [hx]

theorem List.move_assign_list {w : World σ} {this other a b : Ptr} (hne : this ≠ other)
    (hthis : w.lists this = some ⟨a⟩) (hother : w.lists other = some ⟨b⟩) :
    List.move_assign this other w
      = (Outcome.ok (),
          { w with
            lists := fun x =>
              if x = other then some ⟨0⟩ else if x = this then some ⟨b⟩ else w.lists x,
            trace := w.trace ++ slist_free_of a }) := by
  by_cases ha : a = 0
  · simp [List.move_assign, hne, Ne.symm hne, Prog.bind, List.release, List.load, List.store,
      World.setList, hthis, hother, ha, slist_free_of, Prog.pure]
    funext x
    by_cases hx : x = other <;> by_cases hy : x = this <;> simp [hx, hy]
  · simp [List.move_assign, hne, Ne.symm hne, Prog.bind, List.release, List.load, List.store,
      World.setList, hthis, hother, ha, slist_free_of, Prog.pure, Prog.native, World.called]
    funext x
    by_cases hx : x = other <;> by_cases hy : x = this <;> simp [hx, hy]

theorem List.move_ctor_list {w : World σ} {this other b : Ptr} (hne : this ≠ other)
    (hother : w.lists other = some ⟨b⟩) :
    List.move_ctor this other w
      = (Outcome.ok (),
          { w with
            lists := fun x =>
              if x = other then some ⟨0⟩ else if x = this then some ⟨b⟩ else w.lists x }) := by
  simp [List.move_ctor, Prog.world, Prog.put, List.move_assign, hne, Ne.symm hne, Prog.bind,
    List.release, List.load, List.store, World.setList, hother, Prog.pure]
  funext x
  by_cases hx : x = other <;> by_cases hy : x = this <;> simp [hx, hy]

theorem List.dtor_list {w : World σ} {this a : Ptr} (h : w.lists this = some ⟨a⟩) :
    List.dtor this w
      = (Outcome.ok (),
          { w with
            lists := fun x => if x = this then none else w.lists x,
            trace := w.trace ++ slist_free_of a }) := by
  by_cases ha : a = 0
  · simp [List.dtor, Prog.bind, List.release, List.load, List.store, World.setList, h, ha,
      slist_free_of, Prog.pure, Prog.world, Prog.put]
    funext x
    by_cases hx : x = this <;> simp [hx]
  · simp [List.dtor, Prog.bind, List.release, List.load, List.store, World.setList, h, ha,
      slist_free_of, Prog.pure, Prog.world, Prog.put, Prog.native, World.called]
    funext x
    by_cases hx : x = this <;> simp [hx]

theorem Form.swap_form {w : World σ} {this other : Ptr} {f g : Form} (hne : this ≠ other)
    (hthis : w.forms this = some f) (hother : w.forms other = some g) :
    Form.swap this other w
      = (Outcome.ok (),
          { w with
            forms := fun x =>
              if x = other then some f else if x = this then some g else w.forms x }) := by
  simp [Form.swap, Prog.bind, Form.load, Form.store, World.setForm, hthis, hother, hne,
    Ne.symm hne]
  funext x
  by_cases hx : x = other <;> by_cases hy : x = this <;> simp [hx, hy]

theorem Form.release_form {w : World σ} {this : Ptr} {f : Form} (hthis : w.forms this = some f) :
    Form.release this w = (Outcome.ok (f._first, f._last), w.setForm this (some ⟨0, 0⟩)) := by
  simp [Form.release, Prog.bind, Form.load, Form.store, World.setForm, hthis]
  funext x
  by_cases hx : x = this <;> simp [hx]

theorem Form.move_assign_form {w : World σ} {this other : Ptr} {f g : Form} (hne : this ≠ other)
    (hthis : w.forms this = some f) (hother : w.forms other = some g) :
    Form.move_assign this other w
      = (Outcome.ok (),
          { w with
            forms := fun x =>
              if x = other then some ⟨0, 0⟩ else if x = this then some g else w.forms x,
            trace := w.trace ++ formfree_of f._first }) := by
  simp only [Form.move_assign, if_pos hne, Prog.bind_eq, Prog.pure_eq]
  rw [Prog.bind_ok (Form.release_form hthis)]
  by_cases ha : f._first = 0
  · rw [if_neg (not_not.mpr ha), Prog.bind_ok (rfl : Prog.pure PUnit.unit _ = _),
      Form.swap_form (w := w.setForm this _) (f := ⟨0, 0⟩) (g := g) hne
        (by simp [World.setForm]) (by simp [World.setForm, Ne.symm hne, hother])]
    simp [World.setForm, formfree_of, ha]
    funext x
    by_cases hx : x = other <;> by_cases hy : x = this <;> simp [hx, hy]
  · rw [if_pos ha, Prog.bind_ok (Prog.native_run _ _ _),
      Form.swap_form (w := World.called (w.setForm this _) _) (f := ⟨0, 0⟩) (g := g) hne
        (by simp [World.setForm, World.called])
        (by simp [World.setForm, World.called, Ne.symm hne, hother])]
    simp [World.setForm, World.called, formfree_of, ha]
    funext x
    by_cases hx : x = other <;> by_cases hy : x = this <;> simp [hx, hy]

theorem Form.move_ctor_form {w : World σ} {this other : Ptr} {g : Form} (hne : this ≠ other)
    (hother : w.forms other = some g) :
    Form.move_ctor this other w
      = (Outcome.ok (),
          { w with
            forms := fun x =>
              if x = other then some ⟨0, 0⟩ else if x = this then some g else w.forms x }) := by
  simp only [Form.move_ctor, Prog.bind_eq]
  rw [Prog.bind_ok (rfl : Prog.world w = _), Prog.bind_ok (rfl : Prog.put _ w = _),
    Form.swap_form (w := w.setForm this _) (f := ⟨0, 0⟩) (g := g) hne
      (by simp [World.setForm]) (by simp [World.setForm, Ne.symm hne, hother])]
  simp [World.setForm]
  funext x
  by_cases hx : x = other <;> by_cases hy : x = this <;> simp [hx, hy]

theorem Form.dtor_form {w : World σ} {this : Ptr} {f : Form} (h : w.forms this = some f) :
    Form.dtor this w
      = (Outcome.ok (),
          { w with
            forms := fun x => if x = this then none else w.forms x,
            trace := w.trace ++ formfree_of f._first }) := by
  simp only [Form.dtor, Prog.bind_eq]
  rw [Prog.bind_ok (Form.release_form h)]
  by_cases ha : f._first = 0
  · simp [Prog.bind, World.setForm, ha, formfree_of, Prog.pure, Prog.world, Prog.put]
    funext x
    by_cases hx : x = this <;> simp [hx]
  · simp [Prog.bind, World.setForm, ha, formfree_of, Prog.pure, Prog.world, Prog.put, Prog.native,
      World.called]
    funext x
    by_cases hx : x = this <;> simp [hx]

theorem World.after_holds {w : World σ} {this a : Ptr} {i0 : Easy.Pimpl σ}
    (h : Holds w this a i0) (i : Easy.Pimpl σ) (cs : NativeTrace) :
    Holds (World.after w a i cs) this a i :=
  ⟨h.1, h.2.1, by simp [World.after]⟩

theorem World.after_after (w : World σ) (a : Ptr) (i i2 : Easy.Pimpl σ) (cs cs2 : NativeTrace) :
    World.after (World.after w a i cs) a i2 cs2 = World.after w a i2 (cs ++ cs2) := by
  unfold World.after
  simp only [List.append_assoc]
  congr 1
  funext x
  by_cases hx : x = a <;> simp [hx]

theorem World.after_self {w : World σ} {this a : Ptr} {impl : Easy.Pimpl σ}
    (h : Holds w this a impl) : World.after w a impl [] = w := by
  unfold World.after
  have : (fun x => if x = a then some impl else w.pimpls x) = w.pimpls := by
    funext x
    by_cases hx : x = a
    · simp [hx, h.2.2]
    · simp [hx]
  simp [this]

theorem World.called_after (w : World σ) (a : Ptr) (i : Easy.Pimpl σ) (cs : NativeTrace)
    (c : NativeCall) : (World.after w a i cs).called c = World.after w a i (cs ++ [c]) := by
  simp [World.after, World.called]

theorem World.setPimpl_after (w : World σ) (a : Ptr) (i i2 : Easy.Pimpl σ) (cs : NativeTrace) :
    (World.after w a i cs).setPimpl a (some i2) = World.after w a i2 cs := by
  unfold World.after World.setPimpl
  congr 1
  funext x
  by_cases hx : x = a <;> simp [hx]

theorem Easy.handleError_after (N : Native) {w : World σ} {this a : Ptr} {i0 : Easy.Pimpl σ}
    (h : Holds w this a i0) (i : Easy.Pimpl σ) (cs : NativeTrace) (code : CURLcode) :
    Easy.handleError N this code (World.after w a i cs) =
      (if code != CURLE_OK && i.throwExceptions
        then Outcome.raised ⟨N.curl_easy_strerror code⟩
        else Outcome.ok (code == CURLE_OK),
       World.after w a { i with err := code } cs) := by
  rw [Easy.handleError_run N _ this a i (World.after_holds h i cs), World.setPimpl_after]

/-- `Easy::set` on a handle whose check passes and whose call does not raise. -/
theorem Easy.set_after {p : Platform} {N : Native} {w : World σ} {this a : Ptr}
    {i0 : Easy.Pimpl σ} (h : Holds w this a i0) (i : Easy.Pimpl σ) (cs : NativeTrace)
    (key : CURLoption) (value : Value)
    (hc : Easy.set_check p key value.ctype = true)
    (hq : N.curl_easy_setopt (w.trace ++ cs) i.curl key value = CURLE_OK) :
    Easy.set p N this key value (World.after w a i cs) =
      (Outcome.ok true,
        World.after w a { i with err := CURLE_OK }
          (cs ++ [NativeCall.curl_easy_setopt i.curl key value])) := by
  rw [Easy.set_run p N _ this a i (World.after_holds h i cs), hc, if_pos rfl,
    World.called_after, Easy.handleError_after N h]
  have e : (World.after w a i cs).trace = w.trace ++ cs := rfl
  rw [e, hq]
  rfl

theorem Easy.set_bind {p : Platform} {N : Native} {w : World σ} {this a : Ptr}
    {i0 : Easy.Pimpl σ} {β : Type} (h : Holds w this a i0) (i : Easy.Pimpl σ) (cs : NativeTrace)
    (key : CURLoption) (value : Value) (f : Bool → Prog σ β)
    (hc : Easy.set_check p key value.ctype = true)
    (hq : N.curl_easy_setopt (w.trace ++ cs) i.curl key value = CURLE_OK) :
    Prog.bind (Easy.set p N this key value) f (World.after w a i cs) =
      f true (World.after w a { i with err := CURLE_OK }
          (cs ++ [NativeCall.curl_easy_setopt i.curl key value])) :=
  Prog.bind_ok (Easy.set_after h i cs key value hc hq)

theorem Easy.impl_bind {w : World σ} {this a : Ptr} {i0 : Easy.Pimpl σ} {β : Type}
    (h : Holds w this a i0) (i : Easy.Pimpl σ) (cs : NativeTrace) (f : Ptr → Prog σ β) :
    Prog.bind (Easy.impl this) f (World.after w a i cs) = f a (World.after w a i cs) :=
  Prog.bind_ok (Easy.impl_run (World.after_holds h i cs))

theorem Easy.modify_bind {w : World σ} {this a : Ptr} {i0 : Easy.Pimpl σ} {β : Type}
    (h : Holds w this a i0) (i : Easy.Pimpl σ) (cs : NativeTrace)
    (g : Easy.Pimpl σ → Easy.Pimpl σ) (f : Unit → Prog σ β) :
    Prog.bind (Easy.Pimpl.modify a g) f (World.after w a i cs)
      = f () (World.after w a (g i) cs) := by
  rw [Prog.bind_ok (Easy.Pimpl.modify_run (World.after_holds h i cs) g), World.setPimpl_after]

theorem Easy.load_bind {w : World σ} {this a : Ptr} {i0 : Easy.Pimpl σ} {β : Type}
    (h : Holds w this a i0) (i : Easy.Pimpl σ) (cs : NativeTrace)
    (f : Easy.Pimpl σ → Prog σ β) :
    Prog.bind (Easy.Pimpl.load a) f (World.after w a i cs) = f i (World.after w a i cs) := by
  have := World.after_holds h i cs
  simp [Prog.bind, Easy.Pimpl.load, this.2.1, this.2.2]

theorem Prog.native_bind {α β : Type} (w : World σ) (a : Ptr) (i : Easy.Pimpl σ)
    (cs : NativeTrace) (c : NativeCall) (answer : NativeTrace → α) (f : α → Prog σ β) :
    Prog.bind (Prog.native c answer) f (World.after w a i cs)
      = f (answer (w.trace ++ cs)) (World.after w a i (cs ++ [c])) := by
  rw [Prog.bind_ok (Prog.native_run _ _ _), World.called_after]
  rfl

theorem Prog.pure_bind {α β : Type} (x : α) (f : α → Prog σ β) (w : World σ) :
    Prog.bind (Prog.pure x) f w = f x w := rfl

theorem List.release_list {w : World σ} {this l : Ptr} (h : w.lists this = some ⟨l⟩) :
    List.release this w = (Outcome.ok l, w.setList this (some ⟨0⟩)) := by
  simp [List.release, Prog.bind, List.load, List.store, h]

theorem List.get_list {w : World σ} {this l : Ptr} (h : w.lists this = some ⟨l⟩) :
    List.get this w = (Outcome.ok l, w) := by
  simp [List.get, Prog.bind, List.load, h]

theorem Form.get_form {w : World σ} {this : Ptr} {f : Form} (h : w.forms this = some f) :
    Form.get this w = (Outcome.ok f._first, w) := by
  simp [Form.get, Prog.bind, Form.load, h]

theorem Prog.unwind_ok {α : Type} {body : Prog σ α} {cleanup : Prog σ Unit} {w w1 : World σ}
    {x : α} (h : body w = (Outcome.ok x, w1)) : Prog.unwind body cleanup w = (Outcome.ok x, w1) := by
  simp [Prog.unwind, h]

theorem Prog.unwind_raised {α : Type} {body : Prog σ α} {cleanup : Prog σ Unit}
    {w w1 w2 : World σ} {e : Exception} (h : body w = (Outcome.raised e, w1))
    (hc : cleanup w1 = (Outcome.ok (), w2)) :
    Prog.unwind body cleanup w = (Outcome.raised e, w2) := by
  simp [Prog.unwind, h, hc]

/-- The world in which the constructor body of `Easy::Easy()` starts. -/
theorem Easy.ctor_start (w : World σ) (this : Ptr) {a : Ptr} (ha : a ≠ 0) :
    Holds ((w.setPimpl a (some Easy.Pimpl.ctor)).setEasy this (some ⟨a⟩)) this a
      Easy.Pimpl.ctor :=
  ⟨by simp [World.setEasy], ha, by simp [World.setEasy, World.setPimpl]⟩

theorem Easy.ctor_raises (p : Platform) (N : Native) (w : World σ) {this a : Ptr} (ha : a ≠ 0)
    (h0 : N.curl_easy_init w.trace = 0) :
    Easy.ctor p N this a w
      = (Outcome.raised ⟨"can't init curl_easy interface"⟩,
          (w.called NativeCall.curl_easy_init).setEasy this none |>.setPimpl a none) := by
  have hs := Easy.ctor_start w this ha
  simp only [Easy.ctor, Prog.bind_eq, Prog.pure_eq]
  rw [Prog.bind_ok (rfl : Prog.world w = _), Prog.bind_ok (rfl : Prog.put _ w = _)]
  refine @Prog.unwind_raised σ _ _ _ _
    (World.after ((w.setPimpl a (some Easy.Pimpl.ctor)).setEasy this (some ⟨a⟩)) a
      { (Easy.Pimpl.ctor : Easy.Pimpl σ) with curl := 0 } [NativeCall.curl_easy_init])
    _ _ ?_ ?_
  · rw [← World.after_self hs, Easy.impl_bind hs, Prog.native_bind, Easy.modify_bind hs,
      Easy.load_bind hs]
    have e : ((w.setPimpl a (some Easy.Pimpl.ctor)).setEasy this (some ⟨a⟩)).trace ++ [] = w.trace := by
      simp [World.setEasy, World.setPimpl]
    simp only [e, h0, if_true, World.after_after, List.nil_append]
    rfl
  · simp only [Prog.bind, Prog.world, Prog.put, World.after, World.setPimpl, World.setEasy, World.called]
    congr 2
    · funext x
      by_cases hx : x = a <;> simp [hx]
    · funext x
      by_cases hx : x = this <;> simp [hx]

theorem World.after_congr (w w2 : World σ) (a : Ptr) (i : Easy.Pimpl σ) (cs : NativeTrace)
    (he : w.easies = w2.easies) (hl : w.lists = w2.lists) (hf : w.forms = w2.forms)
    (ht : w.trace = w2.trace) (hp : ∀ x, x ≠ a → w.pimpls x = w2.pimpls x) :
    World.after w a i cs = World.after w2 a i cs := by
  cases w
  cases w2
  simp only at he hl hf ht hp
  subst he hl hf ht
  unfold World.after
  simp only
  congr 1
  funext x
  by_cases hx : x = a
  · simp [hx]
  · simp [hx, hp x hx]

theorem Easy.ctor_ok (p : Platform) (N : Native) (w : World σ) {this a : Ptr} (ha : a ≠ 0)
    (h0 : N.curl_easy_init w.trace ≠ 0)
    (hs : N.curl_easy_setopt (w.trace ++ [NativeCall.curl_easy_init])
      (N.curl_easy_init w.trace) CURLOPT_USERAGENT
      ⟨CType.const_char_ptr, Payload.cstr "curlite::Easy"⟩ = CURLE_OK) :
    Easy.ctor p N this a w
      = (Outcome.ok (),
          World.after (w.setEasy this (some ⟨a⟩)) a (Easy.Pimpl.fresh (N.curl_easy_init w.trace) true)
            [NativeCall.curl_easy_init,
             NativeCall.curl_easy_setopt (N.curl_easy_init w.trace) CURLOPT_USERAGENT
              ⟨CType.const_char_ptr, Payload.cstr "curlite::Easy"⟩]) := by
  have hh := Easy.ctor_start w this ha
  simp only [Easy.ctor, Prog.bind_eq, Prog.pure_eq]
  rw [Prog.bind_ok (rfl : Prog.world w = _), Prog.bind_ok (rfl : Prog.put _ w = _)]
  refine Prog.unwind_ok ?_
  have e : ((w.setPimpl a (some Easy.Pimpl.ctor)).setEasy this (some ⟨a⟩)).trace = w.trace := rfl
  rw [← World.after_self hh, Easy.impl_bind hh, Prog.native_bind, Easy.modify_bind hh,
    Easy.load_bind hh]
  simp only [e, List.append_nil, List.nil_append, if_neg h0]
  rw [Easy.set_bind hh _ _ _ _ _ (by cases p; rfl) (by simpa [e] using hs)]
  simp only [World.after_after, List.nil_append, List.singleton_append]
  refine congrArg (fun x => (Outcome.ok (), x)) ?_
  exact World.after_congr _ _ _ _ _ rfl rfl rfl rfl
    (fun x hx => by simp [World.setEasy, World.setPimpl, hx])


theorem Native.replay_append (N : Native) (pre : NativeTrace) (s : NativeState)
    (xs : NativeTrace) (c : NativeCall) :
    Native.replay N pre s (xs ++ [c])
      = NativeState.step N (pre ++ xs) (Native.replay N pre s xs) c := by
  induction xs generalizing pre s with
  | nil => simp [Native.replay]
  | cons x rest ih => simp [Native.replay, ih]

theorem Native.state_append (N : Native) (tr : NativeTrace) (c : NativeCall) :
    Native.state N (tr ++ [c]) = NativeState.step N tr (Native.state N tr) c := by
  simpa using Native.replay_append N [] NativeState.start tr c

/-- A `curl_easy_setopt` that succeeds leaves its value as the one the option holds. -/
theorem Native.state_setopt (N : Native) (tr : NativeTrace) (curl : Ptr) (key : CURLoption)
    (value : Value) (h : N.curl_easy_setopt tr curl key value = CURLE_OK) :
    (Native.state N (tr ++ [NativeCall.curl_easy_setopt curl key value])).option curl key
      = some value := by
  rw [Native.state_append]
  simp [NativeState.step, h]

theorem Easy.onRead_after {p : Platform} {N : Native} {w : World σ} {this a : Ptr}
    {i0 : Easy.Pimpl σ} (hN : ∀ tr c k v, N.curl_easy_setopt tr c k v = CURLE_OK)
    (h : Holds w this a i0) (i : Easy.Pimpl σ) (cs : NativeTrace) (f : Option (ReadHandler σ))
    (data : Ptr) :
    Easy.onRead p N this f data (World.after w a i cs)
      = (Outcome.ok (),
          World.after w a { i with onRead := ⟨f, data⟩, err := CURLE_OK }
            (cs ++ (registration i.curl a CURLOPT_READFUNCTION CURLOPT_READDATA
              CType.curl_read_callback Trampoline.read f.isSome))) := by
  unfold Easy.onRead
  simp only [Prog.bind_eq, Prog.pure_eq, Easy.set_bool]
  rw [Easy.impl_bind h, Easy.modify_bind h, Easy.modify_bind h,
    Easy.set_bind h _ _ _ _ _ (by cases p; rfl) (hN _ _ _ _), Easy.set_bind h _ _ _ _ _ (by cases p; rfl) (hN _ _ _ _)]
  cases f <;> simp [registration, flagged, Prog.pure]

theorem Easy.onWrite_after {p : Platform} {N : Native} {w : World σ} {this a : Ptr}
    {i0 : Easy.Pimpl σ} (hN : ∀ tr c k v, N.curl_easy_setopt tr c k v = CURLE_OK)
    (h : Holds w this a i0) (i : Easy.Pimpl σ) (cs : NativeTrace) (f : Option (WriteHandler σ))
    (data : Ptr) :
    Easy.onWrite p N this f data (World.after w a i cs)
      = (Outcome.ok (),
          World.after w a { i with onWrite := ⟨f, data⟩, err := CURLE_OK }
            (cs ++ (registration i.curl a CURLOPT_WRITEFUNCTION CURLOPT_WRITEDATA
              CType.curl_write_callback Trampoline.write f.isSome))) := by
  unfold Easy.onWrite
  simp only [Prog.bind_eq, Prog.pure_eq, Easy.set_bool]
  rw [Easy.impl_bind h, Easy.modify_bind h, Easy.modify_bind h,
    Easy.set_bind h _ _ _ _ _ (by cases p; rfl) (hN _ _ _ _), Easy.set_bind h _ _ _ _ _ (by cases p; rfl) (hN _ _ _ _)]
  cases f <;> simp [registration, flagged, Prog.pure]

theorem Easy.onHeader_after {p : Platform} {N : Native} {w : World σ} {this a : Ptr}
    {i0 : Easy.Pimpl σ} (hN : ∀ tr c k v, N.curl_easy_setopt tr c k v = CURLE_OK)
    (h : Holds w this a i0) (i : Easy.Pimpl σ) (cs : NativeTrace) (f : Option (WriteHandler σ))
    (data : Ptr) :
    Easy.onHeader p N this f data (World.after w a i cs)
      = (Outcome.ok (),
          World.after w a { i with onHeader := ⟨f, data⟩, err := CURLE_OK }
            (cs ++ (registration i.curl a CURLOPT_HEADERFUNCTION CURLOPT_HEADERDATA
              CType.curl_write_callback Trampoline.header f.isSome))) := by
  unfold Easy.onHeader
  simp only [Prog.bind_eq, Prog.pure_eq, Easy.set_bool]
  rw [Easy.impl_bind h, Easy.modify_bind h, Easy.modify_bind h,
    Easy.set_bind h _ _ _ _ _ (by cases p; rfl) (hN _ _ _ _), Easy.set_bind h _ _ _ _ _ (by cases p; rfl) (hN _ _ _ _)]
  cases f <;> simp [registration, flagged, Prog.pure]

theorem Easy.onProgress_after {p : Platform} {N : Native} {w : World σ} {this a : Ptr}
    {i0 : Easy.Pimpl σ} (hN : ∀ tr c k v, N.curl_easy_setopt tr c k v = CURLE_OK)
    (h : Holds w this a i0) (i : Easy.Pimpl σ) (cs : NativeTrace) (f : Option (ProgressHandler σ))
    (data : Ptr) :
    Easy.onProgress p N this f data (World.after w a i cs)
      = (Outcome.ok (),
          World.after w a { i with onProgress := ⟨f, data⟩, err := CURLE_OK }
            (cs ++ (registration i.curl a CURLOPT_PROGRESSFUNCTION CURLOPT_PROGRESSDATA
              CType.curl_progress_callback Trampoline.progress f.isSome ++ flagged i.curl CURLOPT_NOPROGRESS (!f.isSome)))) := by
  unfold Easy.onProgress
  simp only [Prog.bind_eq, Prog.pure_eq, Easy.set_bool]
  rw [Easy.impl_bind h, Easy.modify_bind h, Easy.modify_bind h,
    Easy.set_bind h _ _ _ _ _ (by cases p; rfl) (hN _ _ _ _), Easy.set_bind h _ _ _ _ _ (by cases p; rfl) (hN _ _ _ _), Easy.set_bind h _ _ _ _ _ (by cases p; rfl) (hN _ _ _ _)]
  cases f <;> simp [registration, flagged, Prog.pure]

theorem Easy.onDebug_after {p : Platform} {N : Native} {w : World σ} {this a : Ptr}
    {i0 : Easy.Pimpl σ} (hN : ∀ tr c k v, N.curl_easy_setopt tr c k v = CURLE_OK)
    (h : Holds w this a i0) (i : Easy.Pimpl σ) (cs : NativeTrace) (f : Option (DebugHandler σ))
    (data : Ptr) :
    Easy.onDebug p N this f data (World.after w a i cs)
      = (Outcome.ok (),
          World.after w a { i with onDebug := ⟨f, data⟩, err := CURLE_OK }
            (cs ++ (registration i.curl a CURLOPT_DEBUGFUNCTION CURLOPT_DEBUGDATA
              CType.curl_debug_callback Trampoline.debug f.isSome ++ flagged i.curl CURLOPT_VERBOSE (f.isSome)))) := by
  unfold Easy.onDebug
  simp only [Prog.bind_eq, Prog.pure_eq, Easy.set_bool]
  rw [Easy.impl_bind h, Easy.modify_bind h, Easy.modify_bind h,
    Easy.set_bind h _ _ _ _ _ (by cases p; rfl) (hN _ _ _ _), Easy.set_bind h _ _ _ _ _ (by cases p; rfl) (hN _ _ _ _), Easy.set_bind h _ _ _ _ _ (by cases p; rfl) (hN _ _ _ _)]
  cases f <;> simp [registration, flagged, Prog.pure]



theorem Easy.reset_after {p : Platform} {N : Native} {w : World σ} {this a : Ptr}
    {i0 : Easy.Pimpl σ} (hN : ∀ tr c k v, N.curl_easy_setopt tr c k v = CURLE_OK)
    (h : Holds w this a i0) (i : Easy.Pimpl σ) (cs : NativeTrace) :
    Easy.reset p N this (World.after w a i cs)
      = (Outcome.ok (),
          World.after w a
            { i with err := CURLE_OK, onRead := ⟨none, 0⟩, onWrite := ⟨none, 0⟩,
                     onHeader := ⟨none, 0⟩, onProgress := ⟨none, 0⟩, onDebug := ⟨none, 0⟩ }
            (cs ++ ([NativeCall.curl_easy_reset i.curl] ++
              registration i.curl a CURLOPT_READFUNCTION CURLOPT_READDATA
                CType.curl_read_callback Trampoline.read false ++
              registration i.curl a CURLOPT_WRITEFUNCTION CURLOPT_WRITEDATA
                CType.curl_write_callback Trampoline.write false ++
              registration i.curl a CURLOPT_HEADERFUNCTION CURLOPT_HEADERDATA
                CType.curl_write_callback Trampoline.header false ++
              (registration i.curl a CURLOPT_PROGRESSFUNCTION CURLOPT_PROGRESSDATA
                CType.curl_progress_callback Trampoline.progress false ++
               flagged i.curl CURLOPT_NOPROGRESS true) ++
              (registration i.curl a CURLOPT_DEBUGFUNCTION CURLOPT_DEBUGDATA
                CType.curl_debug_callback Trampoline.debug false ++
               flagged i.curl CURLOPT_VERBOSE false)))) := by
  unfold Easy.reset
  simp only [Prog.bind_eq, Prog.pure_eq]
  rw [Easy.impl_bind h, Easy.load_bind h, Prog.native_bind, Easy.modify_bind h,
    Prog.bind_ok (Easy.onRead_after hN h _ _ _ _), Prog.bind_ok (Easy.onWrite_after hN h _ _ _ _),
    Prog.bind_ok (Easy.onHeader_after hN h _ _ _ _),
    Prog.bind_ok (Easy.onProgress_after hN h _ _ _ _), Easy.onDebug_after hN h]
  simp [List.append_assoc]

theorem Easy.getInfo_mismatch (N : Native) (w : World σ) (this a : Ptr) (impl : Easy.Pimpl σ)
    (h : Holds w this a impl) (T : CType) (key : CURLINFO) (dflt : Payload)
    (hk : InfoTypeCode T ≠ ((key &&& CURLINFO_TYPEMASK : Nat) : Int)) :
    Easy.getInfo N this T key dflt w
      = (if impl.throwExceptions
          then Outcome.raised ⟨N.curl_easy_strerror CURLE_BAD_FUNCTION_ARGUMENT⟩
          else Outcome.ok dflt,
         w.setPimpl a (some { impl with err := CURLE_BAD_FUNCTION_ARGUMENT })) := by
  simp only [Easy.getInfo, Prog.bind_eq, Prog.pure_eq]
  rw [if_pos (by simpa using hk), Prog.pure_bind, Prog.bind,
    Easy.handleError_run N w this a impl h]
  cases impl.throwExceptions <;> simp [CURLE_BAD_FUNCTION_ARGUMENT, CURLE_OK, Prog.pure]

theorem Easy.getInfo_match (N : Native) (w : World σ) (this a : Ptr) (impl : Easy.Pimpl σ)
    (h : Holds w this a impl) (T : CType) (key : CURLINFO) (dflt : Payload)
    (hk : InfoTypeCode T = ((key &&& CURLINFO_TYPEMASK : Nat) : Int)) :
    Easy.getInfo N this T key dflt w
      = (if (N.curl_easy_getinfo w.trace impl.curl key).1 = CURLE_OK
          then Outcome.ok (N.curl_easy_getinfo w.trace impl.curl key).2
          else if impl.throwExceptions
            then Outcome.raised
              ⟨N.curl_easy_strerror (N.curl_easy_getinfo w.trace impl.curl key).1⟩
            else Outcome.ok dflt,
         (w.called (NativeCall.curl_easy_getinfo impl.curl key)).setPimpl a
           (some { impl with err := (N.curl_easy_getinfo w.trace impl.curl key).1 })) := by
  simp only [Easy.getInfo, Prog.bind_eq, Prog.pure_eq]
  rw [if_neg (by simp [hk]), Prog.bind_ok (Easy.get_run w this a impl h),
    Prog.bind_ok (Prog.native_run _ _ _), Prog.pure_bind, Prog.bind,
    Easy.handleError_run N _ this a impl (h.called _)]
  by_cases hc : (N.curl_easy_getinfo w.trace impl.curl key).1 = CURLE_OK
  · simp [hc, Prog.pure]
  · cases hm : impl.throwExceptions <;> simp [hc, hm, Prog.pure]


theorem Easy.getInfo_string_mismatch (N : Native) (w : World σ) (this a : Ptr)
    (impl : Easy.Pimpl σ) (h : Holds w this a impl) (key : CURLINFO) (dflt : String)
    (hk : InfoTypeCode CType.char_ptr ≠ ((key &&& CURLINFO_TYPEMASK : Nat) : Int)) :
    Easy.getInfo_string N this key dflt w
      = (if impl.throwExceptions
          then Outcome.raised ⟨N.curl_easy_strerror CURLE_BAD_FUNCTION_ARGUMENT⟩
          else Outcome.ok dflt,
         w.setPimpl a (some { impl with err := CURLE_BAD_FUNCTION_ARGUMENT })) := by
  simp only [Easy.getInfo_string, Prog.bind_eq, Prog.pure_eq]
  rw [Prog.bind, Easy.getInfo_mismatch N w this a impl h _ key _ hk]
  cases impl.throwExceptions <;> simp [Prog.pure]

theorem Easy.getInfo_string_match (N : Native) (w : World σ) (this a : Ptr)
    (impl : Easy.Pimpl σ) (h : Holds w this a impl) (key : CURLINFO) (dflt : String)
    (hk : InfoTypeCode CType.char_ptr = ((key &&& CURLINFO_TYPEMASK : Nat) : Int)) :
    Easy.getInfo_string N this key dflt w
      = (if (N.curl_easy_getinfo w.trace impl.curl key).1 = CURLE_OK
          then (match (N.curl_easy_getinfo w.trace impl.curl key).2 with
            | Payload.cstr s => Outcome.ok s
            | Payload.null => Outcome.ok dflt
            | _ => Outcome.undefined)
          else if impl.throwExceptions
            then Outcome.raised
              ⟨N.curl_easy_strerror (N.curl_easy_getinfo w.trace impl.curl key).1⟩
            else Outcome.ok dflt,
         (w.called (NativeCall.curl_easy_getinfo impl.curl key)).setPimpl a
           (some { impl with err := (N.curl_easy_getinfo w.trace impl.curl key).1 })) := by
  simp only [Easy.getInfo_string, Prog.bind_eq, Prog.pure_eq]
  rw [Prog.bind, Easy.getInfo_match N w this a impl h _ key _ hk]
  by_cases hc : (N.curl_easy_getinfo w.trace impl.curl key).1 = CURLE_OK
  · simp only [hc, if_true]
    cases (N.curl_easy_getinfo w.trace impl.curl key).2 <;> rfl
  · cases hm : impl.throwExceptions <;> simp [hc, Prog.pure]

theorem Easy.perform_after (N : Native) {w : World σ} {this a : Ptr} {i0 : Easy.Pimpl σ}
    (h : Holds w this a i0) (i : Easy.Pimpl σ) (cs : NativeTrace) :
    Easy.perform N this (World.after w a i cs)
      = (if N.curl_easy_perform (w.trace ++ cs) i.curl != CURLE_OK && i.throwExceptions
          then Outcome.raised ⟨N.curl_easy_strerror (N.curl_easy_perform (w.trace ++ cs) i.curl)⟩
          else Outcome.ok (N.curl_easy_perform (w.trace ++ cs) i.curl == CURLE_OK),
         World.after w a { i with err := N.curl_easy_perform (w.trace ++ cs) i.curl }
           (cs ++ [NativeCall.curl_easy_perform i.curl])) := by
  rw [Easy.perform_run N _ this a i (World.after_holds h i cs), World.called_after,
    Easy.handleError_after N h]
  rfl

theorem Easy.operator_shr_after {p : Platform} {N : Native} {w : World σ} {this a : Ptr}
    {i0 : Easy.Pimpl σ} (hN : ∀ tr c k v, N.curl_easy_setopt tr c k v = CURLE_OK)
    (h : Holds w this a i0) (i : Easy.Pimpl σ) (cs : NativeTrace) (stream : std_ostream σ) :
    Easy.operator_shr p N stream this (World.after w a i cs)
      = Easy.perform N this
          (World.after w a
            { i with
              onWrite := ⟨some (fun data size n _ u =>
                (if stream.to_bool (stream.write data (streamsize_of p (size_t_mul p size n)) u)
                  then size_t_mul p size n else 0,
                 stream.write data (streamsize_of p (size_t_mul p size n)) u)), 0⟩,
              err := CURLE_OK }
            (cs ++ registration i.curl a CURLOPT_WRITEFUNCTION CURLOPT_WRITEDATA
              CType.curl_write_callback Trampoline.write true)) := by
  unfold Easy.operator_shr
  simp only [Prog.bind_eq]
  rw [Prog.bind_ok (Easy.onWrite_after hN h _ _ _ _)]
  rfl

theorem Easy.operator_shl_after {p : Platform} {N : Native} {w : World σ} {this a : Ptr}
    {i0 : Easy.Pimpl σ} (hN : ∀ tr c k v, N.curl_easy_setopt tr c k v = CURLE_OK)
    (h : Holds w this a i0) (i : Easy.Pimpl σ) (cs : NativeTrace) (stream : std_istream σ) :
    Easy.operator_shl p N stream this (World.after w a i cs)
      = Easy.perform N this
          (World.after w a
            { i with
              onRead := ⟨some (fun data size n _ u =>
                (stream.gcount (stream.read data (streamsize_of p (size_t_mul p size n)) u),
                 stream.read data (streamsize_of p (size_t_mul p size n)) u)), 0⟩,
              err := CURLE_OK }
            (cs ++ registration i.curl a CURLOPT_READFUNCTION CURLOPT_READDATA
              CType.curl_read_callback Trampoline.read true)) := by
  unfold Easy.operator_shl
  simp only [Prog.bind_eq]
  rw [Prog.bind_ok (Easy.onRead_after hN h _ _ _ _)]
  rfl

theorem streamsize_of_fits (p : Platform) (n : Nat) (hn : n < 2 ^ (p.size_t_bits - 1)) :
    streamsize_of p n = (n : Int) := by
  have hle : 2 ^ (p.size_t_bits - 1) ≤ 2 ^ p.size_t_bits :=
    Nat.pow_le_pow_right (by decide) (Nat.sub_le _ _)
  have hlt : n < 2 ^ p.size_t_bits := lt_of_lt_of_le hn hle
  simp [streamsize_of, Nat.mod_eq_of_lt hlt, hn]

theorem World.setList_after (w : World σ) (a : Ptr) (i : Easy.Pimpl σ) (cs : NativeTrace)
    (x : Ptr) (v : Option List) :
    (World.after w a i cs).setList x v = World.after (w.setList x v) a i cs := rfl

theorem World.setEasy_after (w : World σ) (a : Ptr) (i : Easy.Pimpl σ) (cs : NativeTrace)
    (x : Ptr) (v : Option Easy) :
    (World.after w a i cs).setEasy x v = World.after (w.setEasy x v) a i cs := rfl

theorem Holds.setList {w : World σ} {this a : Ptr} {impl : Easy.Pimpl σ}
    (h : Holds w this a impl) (x : Ptr) (v : Option List) :
    Holds (w.setList x v) this a impl := h

theorem Prog.scoped_ok {α : Type} {body : Prog σ α} {dtor : Prog σ Unit} {w w1 w2 : World σ}
    {x : α} (h : body w = (Outcome.ok x, w1)) (hd : dtor w1 = (Outcome.ok (), w2)) :
    Prog.scoped body dtor w = (Outcome.ok x, w2) := by
  simp only [Prog.scoped, Prog.bind_eq, Prog.pure_eq]
  rw [Prog.bind_ok (Prog.unwind_ok h), Prog.bind_ok hd]
  rfl

/-- The general form of `Easy::set` on a handle, for a call that does not raise. -/
theorem Easy.set_bind_quiet {p : Platform} {N : Native} {w : World σ} {this a : Ptr}
    {i0 : Easy.Pimpl σ} {β : Type} (h : Holds w this a i0) (i : Easy.Pimpl σ) (cs : NativeTrace)
    (key : CURLoption) (value : Value) (f : Bool → Prog σ β)
    (hc : Easy.set_check p key value.ctype = false) (hq : i.throwExceptions = false) :
    Prog.bind (Easy.set p N this key value) f (World.after w a i cs) =
      f false (World.after w a { i with err := CURLE_BAD_FUNCTION_ARGUMENT } cs) := by
  refine Prog.bind_ok ?_
  rw [Easy.set_run p N _ this a i (World.after_holds h i cs), hc, if_neg (by simp),
    Easy.handleError_after N h, hq]
  rfl

theorem World.setList_setList (w : World σ) (x : Ptr) (u v : Option List) :
    (w.setList x u).setList x v = w.setList x v := by
  unfold World.setList
  congr 1
  funext y
  by_cases hy : y = x <;> simp [hy]

theorem List.ctor_bind {β : Type} (w : World σ) (a : Ptr) (i : Easy.Pimpl σ) (cs : NativeTrace)
    (this list : Ptr) (f : Unit → Prog σ β) :
    Prog.bind (List.ctor this list) f (World.after w a i cs)
      = f () (World.after (w.setList this (some ⟨list⟩)) a i cs) := rfl

theorem List.append_bind {β : Type} (N : Native) (w : World σ) (a : Ptr) (i : Easy.Pimpl σ)
    (cs : NativeTrace) (this l : Ptr) (s : String) (f : Unit → Prog σ β) :
    Prog.bind (List.append N this s) f (World.after (w.setList this (some ⟨l⟩)) a i cs)
      = f () (World.after (w.setList this (some ⟨N.curl_slist_append (w.trace ++ cs) l s⟩)) a i
          (cs ++ [NativeCall.curl_slist_append l s])) := by
  have h1 : (World.after (w.setList this (some ⟨l⟩)) a i cs).lists this = some ⟨l⟩ := by
    simp [World.after, World.setList]
  refine Prog.bind_ok ?_
  rw [← World.setList_setList w this (some ⟨l⟩)
    (some ⟨N.curl_slist_append (w.trace ++ cs) l s⟩)]
  simp [List.append, Prog.bind, List.load, h1, Prog.native, List.store, World.called,
    World.after, World.setList]

theorem List.get_bind {β : Type} (w : World σ) (a : Ptr) (i : Easy.Pimpl σ)
    (cs : NativeTrace) (this l : Ptr) (f : Ptr → Prog σ β) :
    Prog.bind (List.get this) f (World.after (w.setList this (some ⟨l⟩)) a i cs)
      = f l (World.after (w.setList this (some ⟨l⟩)) a i cs) := by
  have h1 : (World.after (w.setList this (some ⟨l⟩)) a i cs).lists this = some ⟨l⟩ := by
    simp [World.after, World.setList]
  exact Prog.bind_ok (List.get_list h1)

theorem List.dtor_after (w : World σ) (a : Ptr) (i : Easy.Pimpl σ) (cs : NativeTrace)
    (this l : Ptr) :
    List.dtor this (World.after (w.setList this (some ⟨l⟩)) a i cs)
      = (Outcome.ok (), World.after (w.setList this none) a i (cs ++ slist_free_of l)) := by
  have h1 : (World.after (w.setList this (some ⟨l⟩)) a i cs).lists this = some ⟨l⟩ := by
    simp [World.after, World.setList]
  rw [List.dtor_list h1, ← World.setList_setList w this (some ⟨l⟩) none]
  simp [World.after, World.setList]

theorem Easy.set_size_bind {p : Platform} {N : Native} {w : World σ} {this a : Ptr}
    {i0 : Easy.Pimpl σ} {β : Type} (hN : ∀ tr c k v, N.curl_easy_setopt tr c k v = CURLE_OK)
    (h : Holds w this a i0) (i : Easy.Pimpl σ) (cs : NativeTrace) (size : Int)
    (f : Bool → Prog σ β) (hq : p.long_is_curl_off_t = false ∨ i.throwExceptions = false) :
    Prog.bind (Easy.set p N this CURLOPT_INFILESIZE_LARGE ⟨curl_off_t p, Payload.int size⟩) f
        (World.after w a i cs) =
      f (!p.long_is_curl_off_t)
        (World.after w a
          { i with err := if p.long_is_curl_off_t then CURLE_BAD_FUNCTION_ARGUMENT else CURLE_OK }
          (cs ++ (if p.long_is_curl_off_t then []
            else [NativeCall.curl_easy_setopt i.curl CURLOPT_INFILESIZE_LARGE
              ⟨curl_off_t p, Payload.int size⟩]))) := by
  obtain ⟨flag, bits⟩ := p
  cases flag
  · rw [Easy.set_bind h _ _ _ _ _ (by rfl) (hN _ _ _ _)]
    rfl
  · have hm : i.throwExceptions = false := by simpa using hq
    rw [Easy.set_bind_quiet h _ _ _ _ _ (by rfl) hm]
    simp

theorem Easy.setExceptionMode_bind {w : World σ} {this a : Ptr} {i0 : Easy.Pimpl σ} {β : Type}
    (h : Holds w this a i0) (i : Easy.Pimpl σ) (cs : NativeTrace) (mode : Bool)
    (f : Unit → Prog σ β) :
    Prog.bind (Easy.setExceptionMode this mode) f (World.after w a i cs)
      = f () (World.after w a { i with throwExceptions := mode } cs) := by
  unfold Easy.setExceptionMode
  simp only [Prog.bind_eq]
  refine Prog.bind_ok ?_
  rw [Easy.impl_bind h]
  simp [Easy.Pimpl.modify_run (World.after_holds h i cs), World.setPimpl_after]


theorem operator_shr_istream_bind {p : Platform} {N : Native} {w : World σ} {this a : Ptr}
    {i0 : Easy.Pimpl σ} {β : Type} (hN : ∀ tr c k v, N.curl_easy_setopt tr c k v = CURLE_OK)
    (h : Holds w this a i0) (i : Easy.Pimpl σ) (cs : NativeTrace) (stream : std_istream σ)
    (f : Unit → Prog σ β) :
    Prog.bind (operator_shr_istream p N stream this) f (World.after w a i cs)
      = if N.curl_easy_perform (w.trace ++ (cs ++ registration i.curl a CURLOPT_READFUNCTION
            CURLOPT_READDATA CType.curl_read_callback Trampoline.read true)) i.curl = CURLE_OK ∨
          i.throwExceptions = false
        then f () (World.after w a
          { i with
            onRead := ⟨some (fun data size n _ u =>
              (stream.gcount (stream.read data (streamsize_of p (size_t_mul p size n)) u),
               stream.read data (streamsize_of p (size_t_mul p size n)) u)), 0⟩,
            err := N.curl_easy_perform (w.trace ++ (cs ++ registration i.curl a
              CURLOPT_READFUNCTION CURLOPT_READDATA CType.curl_read_callback Trampoline.read
              true)) i.curl }
          (cs ++ registration i.curl a CURLOPT_READFUNCTION CURLOPT_READDATA
              CType.curl_read_callback Trampoline.read true ++
            [NativeCall.curl_easy_perform i.curl]))
        else (Outcome.raised ⟨N.curl_easy_strerror (N.curl_easy_perform (w.trace ++ (cs ++
            registration i.curl a CURLOPT_READFUNCTION CURLOPT_READDATA
              CType.curl_read_callback Trampoline.read true)) i.curl)⟩,
          World.after w a
          { i with
            onRead := ⟨some (fun data size n _ u =>
              (stream.gcount (stream.read data (streamsize_of p (size_t_mul p size n)) u),
               stream.read data (streamsize_of p (size_t_mul p size n)) u)), 0⟩,
            err := N.curl_easy_perform (w.trace ++ (cs ++ registration i.curl a
              CURLOPT_READFUNCTION CURLOPT_READDATA CType.curl_read_callback Trampoline.read
              true)) i.curl }
          (cs ++ registration i.curl a CURLOPT_READFUNCTION CURLOPT_READDATA
              CType.curl_read_callback Trampoline.read true ++
            [NativeCall.curl_easy_perform i.curl])) := by
  unfold operator_shr_istream
  simp only [Prog.bind_eq, Prog.pure_eq]
  rw [Prog.bind, Prog.bind, Easy.operator_shl_after hN h, Easy.perform_after N h]
  by_cases hc : N.curl_easy_perform (w.trace ++ (cs ++ registration i.curl a
      CURLOPT_READFUNCTION CURLOPT_READDATA CType.curl_read_callback Trampoline.read true))
      i.curl = CURLE_OK
  · simp [hc, Prog.pure]
  · cases hm : i.throwExceptions <;> simp [hc, hm, Prog.pure]

theorem Easy.move_ctor_after {w : World σ} {a : Ptr} (i : Easy.Pimpl σ) (cs : NativeTrace)
    {this other b : Ptr} (hne : this ≠ other) (hother : w.easies other = some ⟨b⟩) :
    Easy.move_ctor this other (World.after w a i cs)
      = (Outcome.ok (),
          World.after ((w.setEasy this (some ⟨b⟩)).setEasy other (some ⟨0⟩)) a i cs) := by
  have h1 : (World.after w a i cs).easies other = some ⟨b⟩ := hother
  rw [Easy.move_ctor_run hne h1]
  rfl

theorem Easy.dtor_after_empty {w : World σ} {a : Ptr} (i : Easy.Pimpl σ) (cs : NativeTrace)
    {this : Ptr} (h : w.easies this = some ⟨0⟩) :
    Easy.dtor this (World.after w a i cs)
      = (Outcome.ok (), World.after (w.setEasy this none) a i cs) := by
  have h1 : (World.after w a i cs).easies this = some ⟨0⟩ := h
  rw [Easy.dtor_empty h1]
  rfl

theorem Easy.ctor_ok_start (p : Platform) (N : Native) (w : World σ) (this : Ptr) {a : Ptr}
    (ha : a ≠ 0)
    (h0 : N.curl_easy_init w.trace ≠ 0)
    (hs : N.curl_easy_setopt (w.trace ++ [NativeCall.curl_easy_init])
      (N.curl_easy_init w.trace) CURLOPT_USERAGENT
      ⟨CType.const_char_ptr, Payload.cstr "curlite::Easy"⟩ = CURLE_OK) :
    Easy.ctor p N this a w
      = (Outcome.ok (),
          World.after ((w.setPimpl a (some Easy.Pimpl.ctor)).setEasy this (some ⟨a⟩)) a
            (Easy.Pimpl.fresh (N.curl_easy_init w.trace) true)
            [NativeCall.curl_easy_init,
             NativeCall.curl_easy_setopt (N.curl_easy_init w.trace) CURLOPT_USERAGENT
              ⟨CType.const_char_ptr, Payload.cstr "curlite::Easy"⟩]) := by
  rw [Easy.ctor_ok p N w ha h0 hs]
  refine congrArg (fun x => (Outcome.ok (), x)) ?_
  exact World.after_congr _ _ _ _ _ rfl rfl rfl rfl
    (fun x hx => by simp [World.setEasy, World.setPimpl, hx])


theorem World.setEasy_setList (w : World σ) (x y : Ptr) (v : Option List) (e : Option Easy) :
    (w.setList x v).setEasy y e = (w.setEasy y e).setList x v := rfl

theorem World.trace_setList (w : World σ) (x : Ptr) (v : Option List) :
    (w.setList x v).trace = w.trace := rfl

theorem upload_chunked_run (p : Platform) (N : Native) (w : World σ) (istr : std_istream σ)
    (url username password : String) (mode : Bool) (c a headers result : Ptr)
    (curl l1 l2 : Ptr)
    (hN : ∀ tr c k v, N.curl_easy_setopt tr c k v = CURLE_OK)
    (ha : a ≠ 0) (hne : result ≠ c)
    (hcurl : curl = N.curl_easy_init w.trace) (h0 : curl ≠ 0)
    (hl1 : l1 = N.curl_slist_append (w.trace ++ upload_setup p curl url username password (-1))
      0 "Transfer-Encoding: chunked")
    (hl2 : l2 = N.curl_slist_append (w.trace ++ (upload_setup p curl url username password (-1)
      ++ [NativeCall.curl_slist_append 0 "Transfer-Encoding: chunked"])) l1 "Expect:")
    (hsize : p.long_is_curl_off_t = false ∨ mode = false)
    (hperform : N.curl_easy_perform (w.trace ++ (upload_setup p curl url username password (-1)
      ++ [NativeCall.curl_slist_append 0 "Transfer-Encoding: chunked",
          NativeCall.curl_slist_append l1 "Expect:",
          NativeCall.curl_easy_setopt curl CURLOPT_HTTPHEADER
            ⟨CType.curl_slist_ptr, Payload.ptr l2⟩]
      ++ registration curl a CURLOPT_READFUNCTION CURLOPT_READDATA
          CType.curl_read_callback Trampoline.read true)) curl = CURLE_OK ∨ mode = false) :
    ∃ base impl2,
      upload p N istr url username password (-1) mode c a headers result w
        = (Outcome.ok (), World.after base a impl2
            (upload_setup p curl url username password (-1)
              ++ [NativeCall.curl_slist_append 0 "Transfer-Encoding: chunked",
                  NativeCall.curl_slist_append l1 "Expect:",
                  NativeCall.curl_easy_setopt curl CURLOPT_HTTPHEADER
                    ⟨CType.curl_slist_ptr, Payload.ptr l2⟩]
              ++ registration curl a CURLOPT_READFUNCTION CURLOPT_READDATA
                  CType.curl_read_callback Trampoline.read true
              ++ [NativeCall.curl_easy_perform curl,
                  NativeCall.curl_easy_setopt curl CURLOPT_HTTPHEADER
                    ⟨CType.nullptr_t, Payload.null⟩]
              ++ slist_free_of l2)) ∧
      base.trace = w.trace := by
  have hs := Easy.ctor_start w c ha
  have hrun := Easy.ctor_ok_start p N w c ha (hcurl ▸ h0) (hN _ _ _ _)
  rw [← hcurl] at hrun
  have ht : ((w.setPimpl a (some Easy.Pimpl.ctor)).setEasy c (some ⟨a⟩)).trace = w.trace := rfl
  generalize ((w.setPimpl a (some Easy.Pimpl.ctor)).setEasy c (some ⟨a⟩)) = W0 at hs hrun ht
  obtain ⟨flag, bits⟩ := p
  cases flag
  · simp only [upload_setup, Bool.false_eq_true, if_false, List.append_assoc, List.cons_append,
      List.nil_append, registration, if_true] at hl1 hl2 hperform ⊢
    apply Exists.intro
    apply Exists.intro
    apply And.intro
    · simp only [upload, Prog.bind_eq, Prog.pure_eq, Easy.set_string, Easy.set_bool]
      rw [Prog.bind_ok hrun]
      apply Prog.scoped_ok
      · rw [Easy.setExceptionMode_bind hs, Easy.set_bind hs _ _ _ _ _ (by rfl) (hN _ _ _ _),
          Easy.set_bind hs _ _ _ _ _ (by rfl) (hN _ _ _ _),
          Easy.set_bind hs _ _ _ _ _ (by rfl) (hN _ _ _ _),
          Easy.set_bind hs _ _ _ _ _ (by rfl) (hN _ _ _ _),
          Easy.set_bind hs _ _ _ _ _ (by rfl) (hN _ _ _ _), List.ctor_bind]
        simp only [if_true, Easy.Pimpl.fresh, Easy.Pimpl.ctor, List.operator_shl,
          List.append_assoc, List.cons_append, List.nil_append]
        apply Prog.scoped_ok
        · rw [List.append_bind, List.append_bind, List.get_bind,
            Easy.set_bind (hs.setList _ _) _ _ _ _ _ (by rfl) (hN _ _ _ _), Prog.pure_bind,
            operator_shr_istream_bind hN (hs.setList _ _)]
          simp only [World.trace_setList, ht, List.append_assoc, List.cons_append,
            List.nil_append, registration, if_true, ← hl1, ← hl2]
          rw [if_pos hperform, Easy.set_bind (hs.setList _ _) _ _ _ _ _ (by rfl) (hN _ _ _ _),
            Easy.move_ctor_after _ _ hne (by exact hs.1)]
        · rw [World.setEasy_setList, World.setEasy_setList, List.dtor_after]
      · rw [Easy.dtor_after_empty _ _ (by simp [World.setEasy, World.setList])]
        rfl
    · exact ht
  · simp only [upload_setup, Bool.false_eq_true, if_false, List.append_assoc, List.cons_append,
      List.nil_append, registration, if_true] at hl1 hl2 hperform ⊢
    have hm : mode = false := by simpa using hsize
    subst hm
    apply Exists.intro
    apply Exists.intro
    apply And.intro
    · simp only [upload, Prog.bind_eq, Prog.pure_eq, Easy.set_string, Easy.set_bool]
      rw [Prog.bind_ok hrun]
      apply Prog.scoped_ok
      · rw [Easy.setExceptionMode_bind hs, Easy.set_bind hs _ _ _ _ _ (by rfl) (hN _ _ _ _),
          Easy.set_bind hs _ _ _ _ _ (by rfl) (hN _ _ _ _),
          Easy.set_bind hs _ _ _ _ _ (by rfl) (hN _ _ _ _),
          Easy.set_bind_quiet hs _ _ _ _ _ (by rfl) rfl,
          Easy.set_bind hs _ _ _ _ _ (by rfl) (hN _ _ _ _), List.ctor_bind]
        simp only [if_true, Easy.Pimpl.fresh, Easy.Pimpl.ctor, List.operator_shl,
          List.append_assoc, List.cons_append, List.nil_append]
        apply Prog.scoped_ok
        · rw [List.append_bind, List.append_bind, List.get_bind,
            Easy.set_bind (hs.setList _ _) _ _ _ _ _ (by rfl) (hN _ _ _ _), Prog.pure_bind,
            operator_shr_istream_bind hN (hs.setList _ _)]
          simp only [World.trace_setList, ht, List.append_assoc, List.cons_append,
            List.nil_append, registration, if_true, ← hl1, ← hl2]
          rw [if_pos (Or.inr trivial), Easy.set_bind (hs.setList _ _) _ _ _ _ _ (by rfl) (hN _ _ _ _),
            Easy.move_ctor_after _ _ hne (by exact hs.1)]
        · rw [World.setEasy_setList, World.setEasy_setList, List.dtor_after]
      · rw [Easy.dtor_after_empty _ _ (by simp [World.setEasy, World.setList])]
        rfl
    · exact ht

theorem upload_sized_run (p : Platform) (N : Native) (w : World σ) (istr : std_istream σ)
    (url username password : String) (size : Int) (mode : Bool) (c a headers result : Ptr)
    (curl : Ptr)
    (hN : ∀ tr c k v, N.curl_easy_setopt tr c k v = CURLE_OK)
    (ha : a ≠ 0) (hne : result ≠ c) (hsz : size ≠ -1)
    (hcurl : curl = N.curl_easy_init w.trace) (h0 : curl ≠ 0)
    (hsize : p.long_is_curl_off_t = false ∨ mode = false)
    (hperform : N.curl_easy_perform (w.trace ++ (upload_setup p curl url username password size
      ++ registration curl a CURLOPT_READFUNCTION CURLOPT_READDATA
          CType.curl_read_callback Trampoline.read true)) curl = CURLE_OK ∨ mode = false) :
    ∃ base impl2,
      upload p N istr url username password size mode c a headers result w
        = (Outcome.ok (), World.after base a impl2
            (upload_setup p curl url username password size
              ++ registration curl a CURLOPT_READFUNCTION CURLOPT_READDATA
                  CType.curl_read_callback Trampoline.read true
              ++ [NativeCall.curl_easy_perform curl,
                  NativeCall.curl_easy_setopt curl CURLOPT_HTTPHEADER
                    ⟨CType.nullptr_t, Payload.null⟩])) ∧
      base.trace = w.trace := by
  have hs := Easy.ctor_start w c ha
  have hrun := Easy.ctor_ok_start p N w c ha (hcurl ▸ h0) (hN _ _ _ _)
  rw [← hcurl] at hrun
  have ht : ((w.setPimpl a (some Easy.Pimpl.ctor)).setEasy c (some ⟨a⟩)).trace = w.trace := rfl
  generalize ((w.setPimpl a (some Easy.Pimpl.ctor)).setEasy c (some ⟨a⟩)) = W0 at hs hrun ht
  obtain ⟨flag, bits⟩ := p
  cases flag
  · simp only [upload_setup, Bool.false_eq_true, if_false, List.append_assoc, List.cons_append,
      List.nil_append, registration, if_true] at hperform ⊢
    apply Exists.intro
    apply Exists.intro
    apply And.intro
    · simp only [upload, Prog.bind_eq, Prog.pure_eq, Easy.set_string, Easy.set_bool]
      rw [Prog.bind_ok hrun]
      apply Prog.scoped_ok
      · rw [Easy.setExceptionMode_bind hs, Easy.set_bind hs _ _ _ _ _ (by rfl) (hN _ _ _ _),
          Easy.set_bind hs _ _ _ _ _ (by rfl) (hN _ _ _ _),
          Easy.set_bind hs _ _ _ _ _ (by rfl) (hN _ _ _ _),
          Easy.set_bind hs _ _ _ _ _ (by rfl) (hN _ _ _ _),
          Easy.set_bind hs _ _ _ _ _ (by rfl) (hN _ _ _ _), List.ctor_bind]
        simp only [if_neg hsz, Easy.Pimpl.fresh, Easy.Pimpl.ctor, List.operator_shl,
          List.append_assoc, List.cons_append, List.nil_append]
        apply Prog.scoped_ok
        · rw [Prog.pure_bind, operator_shr_istream_bind hN (hs.setList _ _)]
          simp only [World.trace_setList, ht, List.append_assoc, List.cons_append,
            List.nil_append, registration, if_true]
          rw [if_pos hperform, Easy.set_bind (hs.setList _ _) _ _ _ _ _ (by rfl) (hN _ _ _ _),
            Easy.move_ctor_after _ _ hne (by exact hs.1)]
        · rw [World.setEasy_setList, World.setEasy_setList, List.dtor_after]
      · rw [Easy.dtor_after_empty _ _ (by simp [World.setEasy, World.setList])]
        rfl
    · exact ht
  · simp only [upload_setup, Bool.false_eq_true, if_false, List.append_assoc, List.cons_append,
      List.nil_append, registration, if_true] at hperform ⊢
    have hm : mode = false := by simpa using hsize
    subst hm
    apply Exists.intro
    apply Exists.intro
    apply And.intro
    · simp only [upload, Prog.bind_eq, Prog.pure_eq, Easy.set_string, Easy.set_bool]
      rw [Prog.bind_ok hrun]
      apply Prog.scoped_ok
      · rw [Easy.setExceptionMode_bind hs, Easy.set_bind hs _ _ _ _ _ (by rfl) (hN _ _ _ _),
          Easy.set_bind hs _ _ _ _ _ (by rfl) (hN _ _ _ _),
          Easy.set_bind hs _ _ _ _ _ (by rfl) (hN _ _ _ _),
          Easy.set_bind_quiet hs _ _ _ _ _ (by rfl) rfl,
          Easy.set_bind hs _ _ _ _ _ (by rfl) (hN _ _ _ _), List.ctor_bind]
        simp only [if_neg hsz, Easy.Pimpl.fresh, Easy.Pimpl.ctor, List.operator_shl,
          List.append_assoc, List.cons_append, List.nil_append]
        apply Prog.scoped_ok
        · rw [Prog.pure_bind, operator_shr_istream_bind hN (hs.setList _ _)]
          simp only [World.trace_setList, ht, List.append_assoc, List.cons_append,
            List.nil_append, registration, if_true]
          rw [if_pos (Or.inr trivial), Easy.set_bind (hs.setList _ _) _ _ _ _ _ (by rfl) (hN _ _ _ _),
            Easy.move_ctor_after _ _ hne (by exact hs.1)]
        · rw [World.setEasy_setList, World.setEasy_setList, List.dtor_after]
      · rw [Easy.dtor_after_empty _ _ (by simp [World.setEasy, World.setList])]
        rfl
    · exact ht


theorem Native.replay_concat (N : Native) (pre : NativeTrace) (s : NativeState)
    (xs ys : NativeTrace) :
    Native.replay N pre s (xs ++ ys)
      = Native.replay N (pre ++ xs) (Native.replay N pre s xs) ys := by
  induction xs generalizing pre s with
  | nil => simp [Native.replay]
  | cons x rest ih => simp [Native.replay, ih]

theorem Native.state_concat (N : Native) (tr rest : NativeTrace) :
    Native.state N (tr ++ rest) = Native.replay N tr (Native.state N tr) rest := by
  simpa using Native.replay_concat N [] NativeState.start tr rest

set_option maxRecDepth 100000 in
theorem encode_byte_cases : ∀ b : Byte,
    (Curl_isunreserved b = true ∧ b ≠ 37 ∧ b ≠ 0) ∨
    (Curl_isunreserved b = false ∧ Fin.ofNat (16 * (b.val / 16) + b.val % 16) = b ∧
      hex_value (hex_digit (b.val / 16)) = some (b.val / 16) ∧
      hex_value (hex_digit (b.val % 16)) = some (b.val % 16) ∧
      hex_digit (b.val / 16) ≠ 0 ∧ hex_digit (b.val % 16) ≠ 0) := by decide

theorem decode_encode (s : Vec Byte) : percent_decode (percent_encode s) = s := by
  unfold percent_decode
  induction s with
  | nil => rfl
  | cons b rest ih =>
    rcases encode_byte_cases b with ⟨h1, h2, -⟩ | ⟨h1, h0, h2, h3, -, -⟩
    · rw [percent_encode, if_pos h1, decode_from, if_neg h2, ih]
    · rw [percent_encode, if_neg (by simp [h1])]
      simp [decode_from, hex_pair, h2, h3, h0, ih]

theorem percent_encode_nonzero (s : Vec Byte) : ∀ b ∈ percent_encode s, b ≠ 0 := by
  induction s with
  | nil => simp [percent_encode]
  | cons x rest ih =>
    intro b hb
    rcases encode_byte_cases x with ⟨h1, -, h3⟩ | ⟨h1, -, -, -, h4, h5⟩
    · rw [percent_encode, if_pos h1] at hb
      rcases List.mem_cons.mp hb with rfl | hb
      · exact h3
      · exact ih b hb
    · rw [percent_encode, if_neg (by simp [h1])] at hb
      simp only [List.mem_cons] at hb
      rcases hb with rfl | rfl | rfl | hb
      · decide
      · exact h4
      · exact h5
      · exact ih b hb

theorem percent_encode_length (s : Vec Byte) : s.length ≤ (percent_encode s).length := by
  induction s with
  | nil => simp [percent_encode]
  | cons x rest ih =>
    rw [percent_encode]
    split <;> simp <;> omega

theorem c_string_percent_encode (s : Vec Byte) : c_string (percent_encode s) = percent_encode s := by
  unfold c_string
  rw [List.takeWhile_eq_self_iff]
  intro b hb
  simpa using percent_encode_nonzero s b hb

theorem int_of_size_t_small (n : Nat) (h : n < 2 ^ 31) : int_of_size_t n = (n : Int) := by
  have h2 : n < 2 ^ 32 := lt_trans h (by decide)
  unfold int_of_size_t
  rw [Nat.mod_eq_of_lt h2, if_pos h]

/-- A string shorter than `2 ^ 31` bytes, handed over as its buffer and its size, is
taken whole. -/
theorem native_input_self (s : Vec Byte) (h : s.length < 2 ^ 31) :
    native_input (s ++ [0]) (int_of_size_t s.length) = some s := by
  rw [int_of_size_t_small _ h]
  unfold native_input
  rw [if_neg (by omega)]
  cases s with
  | nil => simp [c_string]
  | cons x rest =>
    rw [if_neg (by simp; omega)]
    simp

theorem Easy.escape_run (N : Native) (w : World σ) (this a : Ptr) (impl : Easy.Pimpl σ)
    (h : Holds w this a impl) (url : Vec Byte) :
    Easy.escape N this url w
      = match N.curl_easy_escape w.trace impl.curl (url ++ [0]) (int_of_size_t url.length) with
        | some buffer =>
          (Outcome.ok (c_string buffer),
            (w.called (NativeCall.curl_easy_escape impl.curl (url ++ [0])
              (int_of_size_t url.length))).called (NativeCall.curl_free buffer))
        | none =>
          (Outcome.ok [],
            w.called (NativeCall.curl_easy_escape impl.curl (url ++ [0])
              (int_of_size_t url.length))) := by
  obtain ⟨h1, h2, h3⟩ := h
  simp only [Easy.escape, Prog.bind_eq, Prog.pure_eq, Prog.bind, Easy.impl, h1,
    Easy.Pimpl.load, h2, if_false, h3, Prog.native]
  cases N.curl_easy_escape w.trace impl.curl (url ++ [0]) (int_of_size_t url.length) <;> rfl

theorem Easy.unescape_run (N : Native) (w : World σ) (this a : Ptr) (impl : Easy.Pimpl σ)
    (h : Holds w this a impl) (url : Vec Byte) :
    Easy.unescape N this url w
      = match N.curl_easy_unescape w.trace impl.curl (url ++ [0]) (int_of_size_t url.length) with
        | some (buffer, outLength) =>
          if 0 ≤ outLength ∧ outLength ≤ buffer.length then
            (Outcome.ok (buffer.take outLength.toNat),
              (w.called (NativeCall.curl_easy_unescape impl.curl (url ++ [0])
                (int_of_size_t url.length))).called (NativeCall.curl_free buffer))
          else
            (Outcome.undefined,
              w.called (NativeCall.curl_easy_unescape impl.curl (url ++ [0])
                (int_of_size_t url.length)))
        | none =>
          (Outcome.ok [],
            w.called (NativeCall.curl_easy_unescape impl.curl (url ++ [0])
              (int_of_size_t url.length))) := by
  obtain ⟨h1, h2, h3⟩ := h
  simp only [Easy.unescape, Prog.bind_eq, Prog.pure_eq, Prog.bind, Easy.impl, h1,
    Easy.Pimpl.load, h2, if_false, h3, Prog.native]
  rcases N.curl_easy_unescape w.trace impl.curl (url ++ [0]) (int_of_size_t url.length)
    with _ | ⟨buffer, outLength⟩
  · rfl
  · simp only
    split <;> rfl


theorem long_string_length : long_string.length = 2 ^ 31 := List.length_replicate _ _

theorem native_input_negative (string : Vec Byte) (length : Int) (h : length < 0) :
    native_input string length = none := by
  unfold native_input
  rw [if_pos h]

theorem Easy.escape_of_negative (N : Native) (w : World σ) (this a : Ptr)
    (impl : Easy.Pimpl σ) (h : Holds w this a impl)
    (hE : ∀ tr c string length, N.curl_easy_escape tr c string length = url_escape string length)
    (url : Vec Byte) (hneg : int_of_size_t url.length < 0) :
    Easy.escape N this url w
      = (Outcome.ok [], w.called (NativeCall.curl_easy_escape impl.curl (url ++ [0])
          (int_of_size_t url.length))) := by
  rw [Easy.escape_run N w this a impl h, hE]
  unfold url_escape
  rw [native_input_negative _ _ hneg]
  rfl

theorem Easy.unescape_nil (N : Native) (w : World σ) (this a : Ptr)
    (impl : Easy.Pimpl σ) (h : Holds w this a impl)
    (hU : ∀ tr c string length,
      N.curl_easy_unescape tr c string length = url_unescape string length) :
    (Easy.unescape N this [] w).1 = Outcome.ok [] := by
  rw [Easy.unescape_run N w this a impl h, hU]
  rfl

theorem Sound.start : Sound (σ := σ) (fun _ => none) (fun _ => none) [] [] :=
  { attached := by simp, apart := by simp, single := by simp, owned := by simp, held := by simp,
    once := by simp, order := List.Pairwise.nil, kept := by simp, nonnull := by simp,
    handed := by simp }

/-- Two distinct handles exchange their private states. -/
theorem Sound.swap {e : Ptr → Option Easy} {q : Ptr → Option (Easy.Pimpl σ)}
    {ss : Vec Session} {rl : Vec Ptr} (hS : Sound e q ss rl) {this other a b : Ptr}
    (hne : this ≠ other) (hthis : e this = some ⟨a⟩) (hother : e other = some ⟨b⟩) :
    Sound (fun x => if x = other then some ⟨a⟩ else if x = this then some ⟨b⟩ else e x)
      q ss rl := by
  have key : ∀ h x, (if h = other then some (Easy.mk a) else if h = this then some ⟨b⟩ else e h)
      = some x → ∃ h2, e h2 = some x ∧ (h2 = this ↔ h = other) ∧ (h2 = other ↔ h = this) := by
    intro h x hx
    by_cases h1 : h = other
    · simp [h1] at hx
      subst hx
      exact ⟨this, hthis, by simp [h1], by simp [h1, hne, Ne.symm hne]⟩
    · by_cases h2 : h = this
      · simp [h1, h2, hne] at hx
        subst hx
        exact ⟨other, hother, by simp [h2, hne, Ne.symm hne], by simp [h2]⟩
      · simp [h1, h2] at hx
        exact ⟨h, hx, by simp [h1, h2], by simp [h1, h2]⟩
  refine { hS with attached := ?_, apart := ?_, owned := ?_ }
  · intro h x hx hx0
    obtain ⟨h2, hh2, -, -⟩ := key h x hx
    exact hS.attached h2 x hh2 hx0
  · intro h1 h2 e1 e2 he1 he2 hx0 heq
    obtain ⟨k1, hk1, hk1a, hk1b⟩ := key h1 e1 he1
    obtain ⟨k2, hk2, hk2a, hk2b⟩ := key h2 e2 he2
    have := hS.apart k1 k2 e1 e2 hk1 hk2 hx0 heq
    subst this
    by_cases c1 : k1 = this
    · rw [hk1a.mp c1, hk2a.mp c1]
    · by_cases c2 : k1 = other
      · rw [hk1b.mp c2, hk2b.mp c2]
      · have n1 : h1 ≠ other := fun hh => c1 (hk1a.mpr hh)
        have n2 : h1 ≠ this := fun hh => c2 (hk1b.mpr hh)
        have m1 : h2 ≠ other := fun hh => c1 (hk2a.mpr hh)
        have m2 : h2 ≠ this := fun hh => c2 (hk2b.mpr hh)
        simp [n1, n2] at he1
        simp [m1, m2] at he2
        exact hS.apart h1 h2 e1 e2 he1 he2 hx0 heq
  · intro x i hi
    obtain ⟨hx, h, hh⟩ := hS.owned x i hi
    refine ⟨hx, ?_⟩
    by_cases c1 : h = this
    · subst c1
      rw [hthis] at hh
      cases hh
      exact ⟨other, by simp⟩
    · by_cases c2 : h = other
      · subst c2
        rw [hother] at hh
        cases hh
        exact ⟨this, by simp [hne]⟩
      · exact ⟨h, by simp [c1, c2, hh]⟩

theorem Sound.congr {e e2 : Ptr → Option Easy} {q q2 : Ptr → Option (Easy.Pimpl σ)}
    {ss ss2 : Vec Session} {rl rl2 : Vec Ptr} (hS : Sound e q ss rl) (he : ∀ x, e2 x = e x)
    (hq : ∀ x, q2 x = q x) (hss : ss2 = ss) (hrl : rl2 = rl) : Sound e2 q2 ss2 rl2 := by
  have h1 : e2 = e := funext he
  have h2 : q2 = q := funext hq
  subst h1 h2 hss hrl
  exact hS

/-- Why `curl_easy_init` is taken to hand out no address at which a session is live: with
a native library that hands out the address `7` while the session at `7` is live, two
constructors build two handles that own the same session. -/
theorem Easy.ctor_shares_live_address :
    ∃ w : World Unit,
      Prog.bind (Easy.ctor ⟨false, 64⟩ (Native.always CURLE_OK 7) 1 100)
        (fun _ => Easy.ctor ⟨false, 64⟩ (Native.always CURLE_OK 7) 2 200) World.empty
        = (Outcome.ok (), w) ∧ Owns w 1 7 ∧ Owns w 2 7 :=
  ⟨_, rfl, ⟨100, _, ⟨rfl, by decide, rfl⟩, rfl⟩, ⟨200, _, ⟨rfl, by decide, rfl⟩, rfl⟩⟩

theorem Easy.send_run (N : Native) (w : World σ) (this a : Ptr) (impl : Easy.Pimpl σ)
    (h : Holds w this a impl) (buffer : Ptr) (bufferSize : Nat) :
    Easy.send N this buffer bufferSize w
      = (if (N.curl_easy_send w.trace impl.curl buffer bufferSize).1 = CURLE_OK
          then Outcome.ok (N.curl_easy_send w.trace impl.curl buffer bufferSize).2
          else if impl.throwExceptions
            then Outcome.raised
              ⟨N.curl_easy_strerror (N.curl_easy_send w.trace impl.curl buffer bufferSize).1⟩
            else Outcome.ok 0,
         (w.called (NativeCall.curl_easy_send impl.curl buffer bufferSize)).setPimpl a
           (some { impl with
             err := (N.curl_easy_send w.trace impl.curl buffer bufferSize).1 })) := by
  have hl : Easy.Pimpl.load a w = (Outcome.ok impl, w) := by
    simp [Easy.Pimpl.load, h.2.1, h.2.2]
  simp only [Easy.send, Prog.bind_eq, Prog.pure_eq]
  rw [Prog.bind_ok (Easy.impl_run h), Prog.bind_ok hl, Prog.bind_ok (Prog.native_run _ _ _),
    Prog.bind,
    Easy.handleError_run N _ this a impl (h.called _)]
  by_cases hc : (N.curl_easy_send w.trace impl.curl buffer bufferSize).1 = CURLE_OK
  · simp [hc, Prog.pure]
  · cases hm : impl.throwExceptions <;> simp [hc, Prog.pure]

theorem Easy.recv_run (N : Native) (w : World σ) (this a : Ptr) (impl : Easy.Pimpl σ)
    (h : Holds w this a impl) (buffer : Ptr) (bufferSize : Nat) :
    Easy.recv N this buffer bufferSize w
      = (if (N.curl_easy_recv w.trace impl.curl buffer bufferSize).1 = CURLE_OK
          then Outcome.ok (N.curl_easy_recv w.trace impl.curl buffer bufferSize).2
          else if impl.throwExceptions
            then Outcome.raised
              ⟨N.curl_easy_strerror (N.curl_easy_recv w.trace impl.curl buffer bufferSize).1⟩
            else Outcome.ok 0,
         (w.called (NativeCall.curl_easy_recv impl.curl buffer bufferSize)).setPimpl a
           (some { impl with
             err := (N.curl_easy_recv w.trace impl.curl buffer bufferSize).1 })) := by
  have hl : Easy.Pimpl.load a w = (Outcome.ok impl, w) := by
    simp [Easy.Pimpl.load, h.2.1, h.2.2]
  simp only [Easy.recv, Prog.bind_eq, Prog.pure_eq]
  rw [Prog.bind_ok (Easy.impl_run h), Prog.bind_ok hl, Prog.bind_ok (Prog.native_run _ _ _),
    Prog.bind,
    Easy.handleError_run N _ this a impl (h.called _)]
  by_cases hc : (N.curl_easy_recv w.trace impl.curl buffer bufferSize).1 = CURLE_OK
  · simp [hc, Prog.pure]
  · cases hm : impl.throwExceptions <;> simp [hc, Prog.pure]

end lemmas

/-! ## The claims -/

/-- C1: for a value whose static type is `long`, an object-pointer type, a
function-pointer type, or `curl_off_t` where that is not `long`, on a handle that has
its private state: when the type code of the value differs from the category
`key / 10000 * 10000` of the key, `Easy::set` makes no native call at all and leaves
`CURLE_BAD_FUNCTION_ARGUMENT` as the last error; when they are equal it makes exactly
one native call, `curl_easy_setopt( get(), key, value )`, and leaves the status that
call returned as the last error. -/
theorem Easy.set_checks_category {σ : Type} (p : Platform) (N : Native) (w : World σ)
    (this a : Ptr) (impl : Easy.Pimpl σ) (key : CURLoption) (value : Value)
    (h : Holds w this a impl)
    (hT : value.ctype = CType.long ∨ value.ctype.isObjectPtr = true ∨
      value.ctype.isFunctionPtr = true ∨
      (value.ctype = curl_off_t p ∧ curl_off_t p ≠ CType.long)) :
    (OptionTypeCode p value.ctype ≠ Int.tdiv key 10000 * 10000 →
      (Easy.set p N this key value w).2.trace = w.trace ∧
      (Easy.error this (Easy.set p N this key value w).2).1
        = Outcome.ok CURLE_BAD_FUNCTION_ARGUMENT) ∧
    (OptionTypeCode p value.ctype = Int.tdiv key 10000 * 10000 →
      (Easy.set p N this key value w).2.trace
        = w.trace ++ [NativeCall.curl_easy_setopt impl.curl key value] ∧
      (Easy.error this (Easy.set p N this key value w).2).1
        = Outcome.ok (N.curl_easy_setopt w.trace impl.curl key value)) := by
  have hnull : value.ctype ≠ CType.nullptr_t := by
    rcases hT with hT | hT | hT | ⟨hT, -⟩
    · rw [hT]; decide
    · intro e; rw [e] at hT; exact absurd hT (by decide)
    · intro e; rw [e] at hT; exact absurd hT (by decide)
    · rw [hT]; unfold curl_off_t; split <;> decide
  rw [Easy.set_run p N w this a impl h, Easy.set_check_eq p key _ hnull]
  constructor
  · intro hne
    rw [decide_eq_false hne, Easy.handleError_run N w this a impl h]
    simp only [Bool.false_eq_true, if_false]
    exact ⟨rfl, by rw [Easy.error_run _ this a _ (h.setPimpl _)]⟩
  · intro heq
    rw [decide_eq_true heq, Easy.handleError_run N _ this a impl (h.called _)]
    simp only [if_true]
    exact ⟨rfl, by rw [Easy.error_run _ this a _ ((h.called _).setPimpl _)]⟩

/-- C1, at an input: with exceptions off, a `long` for the object-pointer key
`CURLOPT_URL` is refused without a native call, and a `long` for the key
`CURLOPT_VERBOSE` is handed to the native setter once. -/
theorem Easy.set_checks_category_witness :
    ((Easy.set ⟨true, 64⟩ (Native.always 0 7) 1 CURLOPT_URL ⟨CType.long, Payload.int 5⟩
        (World.single (Easy.Pimpl.fresh 7 false : Easy.Pimpl Unit))).2.trace = [] ∧
      (Easy.error 1 (Easy.set ⟨true, 64⟩ (Native.always 0 7) 1 CURLOPT_URL
        ⟨CType.long, Payload.int 5⟩
        (World.single (Easy.Pimpl.fresh 7 false : Easy.Pimpl Unit))).2).1
        = Outcome.ok CURLE_BAD_FUNCTION_ARGUMENT) ∧
    (Easy.set ⟨true, 64⟩ (Native.always 0 7) 1 CURLOPT_VERBOSE ⟨CType.long, Payload.int 1⟩
        (World.single (Easy.Pimpl.fresh 7 false : Easy.Pimpl Unit))).2.trace
      = [NativeCall.curl_easy_setopt 7 CURLOPT_VERBOSE ⟨CType.long, Payload.int 1⟩] :=
  ⟨(Easy.set_checks_category ⟨true, 64⟩ (Native.always 0 7) _ 1 100 _ CURLOPT_URL
      ⟨CType.long, Payload.int 5⟩ (Holds.single _) (Or.inl rfl)).1 (by decide),
   ((Easy.set_checks_category ⟨true, 64⟩ (Native.always 0 7) _ 1 100 _ CURLOPT_VERBOSE
      ⟨CType.long, Payload.int 1⟩ (Holds.single _) (Or.inl rfl)).2 (by decide)).1⟩


/-- C4: on a handle that has its private state, `Easy::handleError( c )` leaves `c` as
the last error; it raises exactly when `c` is not `CURLE_OK` and exception mode is on,
and the exception carries `curl_easy_strerror( c )`; otherwise it returns `true`
exactly when `c` is `CURLE_OK`.  The same holds of `set`, `perform` and `pause` for the
status each of them hands to `handleError`: each returns `true` exactly when that
status is `CURLE_OK`, and none raises with exception mode off. -/
theorem Easy.handleError_funnels {σ : Type} (p : Platform) (N : Native) (w : World σ)
    (this a : Ptr) (impl : Easy.Pimpl σ) (h : Holds w this a impl) (c : CURLcode)
    (key : CURLoption) (value : Value) (bitmask : Int) :
    (Easy.error this (Easy.handleError N this c w).2).1 = Outcome.ok c ∧
    Funnelled N impl.throwExceptions c (Easy.handleError N this c w).1 ∧
    Funnelled N impl.throwExceptions (Easy.set_status p N w impl.curl key value)
      (Easy.set p N this key value w).1 ∧
    Funnelled N impl.throwExceptions (N.curl_easy_perform w.trace impl.curl)
      (Easy.perform N this w).1 ∧
    Funnelled N impl.throwExceptions (N.curl_easy_pause w.trace impl.curl bitmask)
      (Easy.pause N this bitmask w).1 := by
  refine ⟨?_, ?_, ?_, ?_, ?_⟩
  · rw [Easy.handleError_run N w this a impl h, Easy.error_run _ this a _ (h.setPimpl _)]
  · rw [Easy.handleError_run N w this a impl h]
    exact Funnelled.intro N _ c
  · rw [Easy.set_run_status p N w this a impl h]
    exact Funnelled.intro N _ _
  · rw [Easy.perform_run N w this a impl h,
      Easy.handleError_run N _ this a impl (h.called _)]
    exact Funnelled.intro N _ _
  · rw [Easy.pause_run N w this a impl h bitmask,
      Easy.handleError_run N _ this a impl (h.called _)]
    exact Funnelled.intro N _ _

/-- C4, at an input: with exception mode on and every native status `3`, the status
is recorded and `perform` raises with the native description of `3`. -/
theorem Easy.handleError_funnels_witness :
    (Easy.error 1 (Easy.handleError (Native.always 3 7) 1 3
      (World.single (Easy.Pimpl.fresh 7 true : Easy.Pimpl Unit))).2).1 = Outcome.ok 3 ∧
    (Easy.perform (Native.always 3 7) 1
      (World.single (Easy.Pimpl.fresh 7 true : Easy.Pimpl Unit))).1
      = Outcome.raised ⟨"error 3"⟩ :=
  have h := Easy.handleError_funnels ⟨true, 64⟩ (Native.always 3 7)
    (World.single (Easy.Pimpl.fresh 7 true : Easy.Pimpl Unit)) 1 100 _ (Holds.single _) 3
    CURLOPT_URL ⟨CType.long, Payload.int 5⟩ 0
  ⟨h.1, rfl⟩

/-- C5: a trampoline invoked with a null pointer, or with a pointer to a private state
whose slot for its kind holds no handler, returns the sentinel of its kind, runs no user
code (the user state `u` comes back as it went in) and leaves the world as it is:
read `CURL_READFUNC_ABORT`, write `0`, header `0`, fnmatch `CURL_FNMATCHFUNC_FAIL`,
seek `1`, ioctl `CURLIOE_UNKNOWNCMD`, progress `1`, xferinfo `1`, chunk-begin
`CURL_CHUNK_BGN_FUNC_FAIL`, chunk-end `CURL_CHUNK_END_FUNC_FAIL`, open-socket
`CURL_SOCKET_BAD`, close-socket `1`, sockopt `1`, ssl-context `CURLE_ABORTED_BY_CALLBACK`. -/
theorem Easy.Pimpl.trampoline_sentinels {σ : Type} (w : World σ) (userPtr : Ptr) (u : σ) :
    (Easy.Pimpl.NoHandler w userPtr (fun impl => impl.onRead.handler = none) →
      ∀ (data : Ptr) (size n : Nat), Easy.Pimpl.read data size n userPtr u w = (Outcome.ok (CURL_READFUNC_ABORT, u), w)) ∧
    (Easy.Pimpl.NoHandler w userPtr (fun impl => impl.onWrite.handler = none) →
      ∀ (data : Ptr) (size n : Nat), Easy.Pimpl.write data size n userPtr u w = (Outcome.ok (0, u), w)) ∧
    (Easy.Pimpl.NoHandler w userPtr (fun impl => impl.onHeader.handler = none) →
      ∀ (data : Ptr) (size n : Nat), Easy.Pimpl.header data size n userPtr u w = (Outcome.ok (0, u), w)) ∧
    (Easy.Pimpl.NoHandler w userPtr (fun impl => impl.onFnMatch.handler = none) →
      ∀ (pattern string : Ptr), Easy.Pimpl.fnMatch userPtr pattern string u w = (Outcome.ok (CURL_FNMATCHFUNC_FAIL, u), w)) ∧
    (Easy.Pimpl.NoHandler w userPtr (fun impl => impl.onSeek.handler = none) →
      ∀ (offset origin : Int), Easy.Pimpl.seek userPtr offset origin u w = (Outcome.ok (1, u), w)) ∧
    (Easy.Pimpl.NoHandler w userPtr (fun impl => impl.onIoctl.handler = none) →
      ∀ (handle : Ptr) (cmd : Int), Easy.Pimpl.ioctl handle cmd userPtr u w = (Outcome.ok (CURLIOE_UNKNOWNCMD, u), w)) ∧
    (Easy.Pimpl.NoHandler w userPtr (fun impl => impl.onProgress.handler = none) →
      ∀ (dTotal dCurrent uTotal uCurrent : Float), Easy.Pimpl.progress userPtr dTotal dCurrent uTotal uCurrent u w = (Outcome.ok (1, u), w)) ∧
    (Easy.Pimpl.NoHandler w userPtr (fun impl => impl.onXferInfo.handler = none) →
      ∀ (dTotal dCurrent uTotal uCurrent : Int), Easy.Pimpl.xferInfo userPtr dTotal dCurrent uTotal uCurrent u w = (Outcome.ok (1, u), w)) ∧
    (Easy.Pimpl.NoHandler w userPtr (fun impl => impl.onChunkBegin.handler = none) →
      ∀ (transferInfo : Ptr) (remains : Int), Easy.Pimpl.chunkBegin transferInfo userPtr remains u w = (Outcome.ok (CURL_CHUNK_BGN_FUNC_FAIL, u), w)) ∧
    (Easy.Pimpl.NoHandler w userPtr (fun impl => impl.onChunkEnd.handler = none) →
      Easy.Pimpl.chunkEnd userPtr u w = (Outcome.ok (CURL_CHUNK_END_FUNC_FAIL, u), w)) ∧
    (Easy.Pimpl.NoHandler w userPtr (fun impl => impl.onOpenSocket.handler = none) →
      ∀ (purpose : Int) (address : Ptr), Easy.Pimpl.openSocket userPtr purpose address u w = (Outcome.ok (CURL_SOCKET_BAD, u), w)) ∧
    (Easy.Pimpl.NoHandler w userPtr (fun impl => impl.onCloseSocket.handler = none) →
      ∀ (socket : Int), Easy.Pimpl.closeSocket userPtr socket u w = (Outcome.ok (1, u), w)) ∧
    (Easy.Pimpl.NoHandler w userPtr (fun impl => impl.onSockOpt.handler = none) →
      ∀ (socket purpose : Int), Easy.Pimpl.sockOpt userPtr socket purpose u w = (Outcome.ok (1, u), w)) ∧
    (Easy.Pimpl.NoHandler w userPtr (fun impl => impl.onSslContext.handler = none) →
      ∀ (curl sslCtx : Ptr), Easy.Pimpl.sslContext curl sslCtx userPtr u w = (Outcome.ok (CURLE_ABORTED_BY_CALLBACK, u), w)) := by
  refine ⟨?_, ?_, ?_, ?_, ?_, ?_, ?_, ?_, ?_, ?_, ?_, ?_, ?_, ?_⟩
  · rintro (rfl | ⟨impl, h1, h2⟩)
    · intros; rfl
    · intros
      by_cases hz : userPtr = 0 <;>
      simp [Easy.Pimpl.read, hz, Prog.bind, Easy.Pimpl.load, h1, h2]
  · rintro (rfl | ⟨impl, h1, h2⟩)
    · intros; rfl
    · intros
      by_cases hz : userPtr = 0 <;>
      simp [Easy.Pimpl.write, hz, Prog.bind, Easy.Pimpl.load, h1, h2]
  · rintro (rfl | ⟨impl, h1, h2⟩)
    · intros; rfl
    · intros
      by_cases hz : userPtr = 0 <;>
      simp [Easy.Pimpl.header, hz, Prog.bind, Easy.Pimpl.load, h1, h2]
  · rintro (rfl | ⟨impl, h1, h2⟩)
    · intros; rfl
    · intros
      by_cases hz : userPtr = 0 <;>
      simp [Easy.Pimpl.fnMatch, hz, Prog.bind, Easy.Pimpl.load, h1, h2]
  · rintro (rfl | ⟨impl, h1, h2⟩)
    · intros; rfl
    · intros
      by_cases hz : userPtr = 0 <;>
      simp [Easy.Pimpl.seek, hz, Prog.bind, Easy.Pimpl.load, h1, h2]
  · rintro (rfl | ⟨impl, h1, h2⟩)
    · intros; rfl
    · intros
      by_cases hz : userPtr = 0 <;>
      simp [Easy.Pimpl.ioctl, hz, Prog.bind, Easy.Pimpl.load, h1, h2]
  · rintro (rfl | ⟨impl, h1, h2⟩)
    · intros; rfl
    · intros
      by_cases hz : userPtr = 0 <;>
      simp [Easy.Pimpl.progress, hz, Prog.bind, Easy.Pimpl.load, h1, h2]
  · rintro (rfl | ⟨impl, h1, h2⟩)
    · intros; rfl
    · intros
      by_cases hz : userPtr = 0 <;>
      simp [Easy.Pimpl.xferInfo, hz, Prog.bind, Easy.Pimpl.load, h1, h2]
  · rintro (rfl | ⟨impl, h1, h2⟩)
    · intros; rfl
    · intros
      by_cases hz : userPtr = 0 <;>
      simp [Easy.Pimpl.chunkBegin, hz, Prog.bind, Easy.Pimpl.load, h1, h2]
  · rintro (rfl | ⟨impl, h1, h2⟩)
    · rfl
    · by_cases hz : userPtr = 0 <;>
      simp [Easy.Pimpl.chunkEnd, hz, Prog.bind, Easy.Pimpl.load, h1, h2]
  · rintro (rfl | ⟨impl, h1, h2⟩)
    · intros; rfl
    · intros
      by_cases hz : userPtr = 0 <;>
      simp [Easy.Pimpl.openSocket, hz, Prog.bind, Easy.Pimpl.load, h1, h2]
  · rintro (rfl | ⟨impl, h1, h2⟩)
    · intros; rfl
    · intros
      by_cases hz : userPtr = 0 <;>
      simp [Easy.Pimpl.closeSocket, hz, Prog.bind, Easy.Pimpl.load, h1, h2]
  · rintro (rfl | ⟨impl, h1, h2⟩)
    · intros; rfl
    · intros
      by_cases hz : userPtr = 0 <;>
      simp [Easy.Pimpl.sockOpt, hz, Prog.bind, Easy.Pimpl.load, h1, h2]
  · rintro (rfl | ⟨impl, h1, h2⟩)
    · intros; rfl
    · intros
      by_cases hz : userPtr = 0 <;>
      simp [Easy.Pimpl.sslContext, hz, Prog.bind, Easy.Pimpl.load, h1, h2]

/-- C5, at an input: the read trampoline with a null pointer, and the write trampoline
with a pointer to a private state that has no write handler. -/
theorem Easy.Pimpl.trampoline_sentinels_witness :
    Easy.Pimpl.NoHandler (World.single (Easy.Pimpl.fresh 7 true : Easy.Pimpl Nat)) 100
      (fun impl => impl.onWrite.handler = none) ∧
    (Easy.Pimpl.write 5 1 16 100 (3 : Nat)
      (World.single (Easy.Pimpl.fresh 7 true : Easy.Pimpl Nat))).1 = Outcome.ok (0, 3) :=
  ⟨Or.inr ⟨_, rfl, rfl⟩,
   congrArg Prod.fst ((Easy.Pimpl.trampoline_sentinels
      (World.single (Easy.Pimpl.fresh 7 true : Easy.Pimpl Nat)) 100 3).2.1
      (Or.inr ⟨_, rfl, rfl⟩) 5 1 16)⟩

/-- C6: a trampoline of a kind other than debug, invoked with a pointer to a private
state whose slot for its kind holds a handler, returns exactly what one call of that
handler returns, value and user state: the call gets the native arguments unchanged,
with the user-data pointer of the slot in the place of the pointer the trampoline
received; the world is left as it is. -/
theorem Easy.Pimpl.trampoline_forwards {σ : Type} (w : World σ) (userPtr : Ptr)
    (impl : Easy.Pimpl σ) (u : σ) (hz : userPtr ≠ 0) (h : w.pimpls userPtr = some impl) :
    (∀ handler, impl.onRead.handler = some handler →
      ∀ (data : Ptr) (size n : Nat), Easy.Pimpl.read data size n userPtr u w
        = (Outcome.ok (handler data size n impl.onRead.data u), w)) ∧
    (∀ handler, impl.onWrite.handler = some handler →
      ∀ (data : Ptr) (size n : Nat), Easy.Pimpl.write data size n userPtr u w
        = (Outcome.ok (handler data size n impl.onWrite.data u), w)) ∧
    (∀ handler, impl.onHeader.handler = some handler →
      ∀ (data : Ptr) (size n : Nat), Easy.Pimpl.header data size n userPtr u w
        = (Outcome.ok (handler data size n impl.onHeader.data u), w)) ∧
    (∀ handler, impl.onFnMatch.handler = some handler →
      ∀ (pattern string : Ptr), Easy.Pimpl.fnMatch userPtr pattern string u w
        = (Outcome.ok (handler impl.onFnMatch.data pattern string u), w)) ∧
    (∀ handler, impl.onSeek.handler = some handler →
      ∀ (offset origin : Int), Easy.Pimpl.seek userPtr offset origin u w
        = (Outcome.ok (handler impl.onSeek.data offset origin u), w)) ∧
    (∀ handler, impl.onIoctl.handler = some handler →
      ∀ (handle : Ptr) (cmd : Int), Easy.Pimpl.ioctl handle cmd userPtr u w
        = (Outcome.ok (handler handle cmd impl.onIoctl.data u), w)) ∧
    (∀ handler, impl.onProgress.handler = some handler →
      ∀ (dTotal dCurrent uTotal uCurrent : Float), Easy.Pimpl.progress userPtr dTotal dCurrent uTotal uCurrent u w
        = (Outcome.ok (handler impl.onProgress.data dTotal dCurrent uTotal uCurrent u), w)) ∧
    (∀ handler, impl.onXferInfo.handler = some handler →
      ∀ (dTotal dCurrent uTotal uCurrent : Int), Easy.Pimpl.xferInfo userPtr dTotal dCurrent uTotal uCurrent u w
        = (Outcome.ok (handler impl.onXferInfo.data dTotal dCurrent uTotal uCurrent u), w)) ∧
    (∀ handler, impl.onChunkBegin.handler = some handler →
      ∀ (transferInfo : Ptr) (remains : Int), Easy.Pimpl.chunkBegin transferInfo userPtr remains u w
        = (Outcome.ok (handler transferInfo impl.onChunkBegin.data remains u), w)) ∧
    (∀ handler, impl.onChunkEnd.handler = some handler →
      Easy.Pimpl.chunkEnd userPtr u w
        = (Outcome.ok (handler impl.onChunkEnd.data u), w)) ∧
    (∀ handler, impl.onOpenSocket.handler = some handler →
      ∀ (purpose : Int) (address : Ptr), Easy.Pimpl.openSocket userPtr purpose address u w
        = (Outcome.ok (handler impl.onOpenSocket.data purpose address u), w)) ∧
    (∀ handler, impl.onCloseSocket.handler = some handler →
      ∀ (socket : Int), Easy.Pimpl.closeSocket userPtr socket u w
        = (Outcome.ok (handler impl.onCloseSocket.data socket u), w)) ∧
    (∀ handler, impl.onSockOpt.handler = some handler →
      ∀ (socket purpose : Int), Easy.Pimpl.sockOpt userPtr socket purpose u w
        = (Outcome.ok (handler impl.onSockOpt.data socket purpose u), w)) ∧
    (∀ handler, impl.onSslContext.handler = some handler →
      ∀ (curl sslCtx : Ptr), Easy.Pimpl.sslContext curl sslCtx userPtr u w
        = (Outcome.ok (handler curl sslCtx impl.onSslContext.data u), w)) := by
  refine ⟨?_, ?_, ?_, ?_, ?_, ?_, ?_, ?_, ?_, ?_, ?_, ?_, ?_, ?_⟩
  · intro handler hh
    intros
    simp [Easy.Pimpl.read, hz, Prog.bind, Easy.Pimpl.load, h, hh]
  · intro handler hh
    intros
    simp [Easy.Pimpl.write, hz, Prog.bind, Easy.Pimpl.load, h, hh]
  · intro handler hh
    intros
    simp [Easy.Pimpl.header, hz, Prog.bind, Easy.Pimpl.load, h, hh]
  · intro handler hh
    intros
    simp [Easy.Pimpl.fnMatch, hz, Prog.bind, Easy.Pimpl.load, h, hh]
  · intro handler hh
    intros
    simp [Easy.Pimpl.seek, hz, Prog.bind, Easy.Pimpl.load, h, hh]
  · intro handler hh
    intros
    simp [Easy.Pimpl.ioctl, hz, Prog.bind, Easy.Pimpl.load, h, hh]
  · intro handler hh
    intros
    simp [Easy.Pimpl.progress, hz, Prog.bind, Easy.Pimpl.load, h, hh]
  · intro handler hh
    intros
    simp [Easy.Pimpl.xferInfo, hz, Prog.bind, Easy.Pimpl.load, h, hh]
  · intro handler hh
    intros
    simp [Easy.Pimpl.chunkBegin, hz, Prog.bind, Easy.Pimpl.load, h, hh]
  · intro handler hh
    simp [Easy.Pimpl.chunkEnd, hz, Prog.bind, Easy.Pimpl.load, h, hh]
  · intro handler hh
    intros
    simp [Easy.Pimpl.openSocket, hz, Prog.bind, Easy.Pimpl.load, h, hh]
  · intro handler hh
    intros
    simp [Easy.Pimpl.closeSocket, hz, Prog.bind, Easy.Pimpl.load, h, hh]
  · intro handler hh
    intros
    simp [Easy.Pimpl.sockOpt, hz, Prog.bind, Easy.Pimpl.load, h, hh]
  · intro handler hh
    intros
    simp [Easy.Pimpl.sslContext, hz, Prog.bind, Easy.Pimpl.load, h, hh]

/-- C6, at an input: a read handler that counts its calls in the user state and
returns the sum of its arguments is called once, with the user data `9` of the slot. -/
theorem Easy.Pimpl.trampoline_forwards_witness :
    Easy.Pimpl.read 5 2 16 100 (0 : Nat)
        (World.single (Easy.Pimpl.reading (fun data size n p u => (data + size + n + p, u + 1))))
      = (Outcome.ok (5 + 2 + 16 + 9, 1),
         World.single (Easy.Pimpl.reading (fun data size n p u => (data + size + n + p, u + 1)))) :=
  (Easy.Pimpl.trampoline_forwards
    (World.single (Easy.Pimpl.reading (fun data size n p u => (data + size + n + p, u + 1))))
    100 _ 0 (by decide) rfl).1 _ rfl 5 2 16

/-- C2, the code at the failing input: `set( CURLOPT_INFILESIZE_LARGE, nullptr )`, a null
pointer for a key of the large-integer category `CURLOPTTYPE_OFF_T`, passes the check
and is handed to the native setter, and `CURLE_OK` is the last error; the claim has it
refused with `CURLE_BAD_FUNCTION_ARGUMENT` and no native call. -/
theorem Easy.set_nullptr_large_integer_key :
    Int.tdiv CURLOPT_INFILESIZE_LARGE 10000 * 10000 = CURLOPTTYPE_OFF_T ∧
    Easy.set_static_assert ⟨false, 64⟩ CType.nullptr_t = true ∧
    Easy.set_check ⟨false, 64⟩ CURLOPT_INFILESIZE_LARGE CType.nullptr_t = true ∧
    (Easy.set ⟨false, 64⟩ (Native.always 0 7) 1 CURLOPT_INFILESIZE_LARGE
        ⟨CType.nullptr_t, Payload.null⟩
        (World.single (Easy.Pimpl.fresh 7 true : Easy.Pimpl Unit))).2.trace
      = [NativeCall.curl_easy_setopt 7 CURLOPT_INFILESIZE_LARGE
          ⟨CType.nullptr_t, Payload.null⟩] ∧
    (Easy.error 1 (Easy.set ⟨false, 64⟩ (Native.always 0 7) 1 CURLOPT_INFILESIZE_LARGE
        ⟨CType.nullptr_t, Payload.null⟩
        (World.single (Easy.Pimpl.fresh 7 true : Easy.Pimpl Unit))).2).1
      = Outcome.ok CURLE_OK :=
  ⟨by decide, by decide, by decide, by decide, by decide⟩

/-- C3, the code at the failing input: where `curl_off_t` is the type `long`, the call
`set( CURLOPT_INFILESIZE_LARGE, size )` with `size` of type `curl_off_t`, as `upload`
makes it, has type code `CURLOPTTYPE_LONG` against the key category
`CURLOPTTYPE_OFF_T`: no native call is made, `CURLE_BAD_FUNCTION_ARGUMENT` is the last
error, and with exception mode on (the default of `upload`) the call raises. -/
theorem Easy.set_curl_off_t_where_long :
    curl_off_t ⟨true, 64⟩ = CType.long ∧
    Easy.set_static_assert ⟨true, 64⟩ (curl_off_t ⟨true, 64⟩) = true ∧
    OptionTypeCode ⟨true, 64⟩ (curl_off_t ⟨true, 64⟩) = CURLOPTTYPE_LONG ∧
    Easy.set_check ⟨true, 64⟩ CURLOPT_INFILESIZE_LARGE (curl_off_t ⟨true, 64⟩) = false ∧
    (Easy.set ⟨true, 64⟩ (Native.always 0 7) 1 CURLOPT_INFILESIZE_LARGE
        ⟨curl_off_t ⟨true, 64⟩, Payload.int 1024⟩
        (World.single (Easy.Pimpl.fresh 7 true : Easy.Pimpl Unit))).2.trace = [] ∧
    (Easy.error 1 (Easy.set ⟨true, 64⟩ (Native.always 0 7) 1 CURLOPT_INFILESIZE_LARGE
        ⟨curl_off_t ⟨true, 64⟩, Payload.int 1024⟩
        (World.single (Easy.Pimpl.fresh 7 true : Easy.Pimpl Unit))).2).1
      = Outcome.ok CURLE_BAD_FUNCTION_ARGUMENT ∧
    (Easy.set ⟨true, 64⟩ (Native.always 0 7) 1 CURLOPT_INFILESIZE_LARGE
        ⟨curl_off_t ⟨true, 64⟩, Payload.int 1024⟩
        (World.single (Easy.Pimpl.fresh 7 true : Easy.Pimpl Unit))).1
      = Outcome.raised ⟨"error 43"⟩ :=
  ⟨by decide, by decide, by decide, by decide, by decide, by decide, by decide⟩

/-- C7: on a handle that has its private state, with a native setter that always
succeeds, each of the fifteen registrations `onRead`, `onWrite`, `onHeader`,
`onProgress`, `onDebug`, `onIoctl`, `onSeek`, `onFnMatch`, `onXferInfo`,
`onOpenSocket`, `onCloseSocket`, `onSockOpt`, `onChunkBegin`, `onChunkEnd`,
`onSslContext` returns after storing the handler and the user data in the slot of
its kind and making exactly these native calls on the session of the handle: with a
handler, the function option of the kind is set to the trampoline of the kind and its
data option to the address of the private state; with an empty handler both are set
to a null pointer (`onProgress` and `onXferInfo` then set `CURLOPT_NOPROGRESS` to
"no handler", `onDebug` sets `CURLOPT_VERBOSE` to "handler").  Every option so
set passes the category check of `set` with the type of its value. -/
theorem Easy.on_registers {σ : Type} (p : Platform) (N : Native) (w : World σ)
    (this a : Ptr) (impl : Easy.Pimpl σ) (h : Holds w this a impl)
    (hN : ∀ tr c k v, N.curl_easy_setopt tr c k v = CURLE_OK) (data : Ptr) :
    (∀ f : Option (ReadHandler σ),
      Registered w a impl (Easy.onRead p N this f data w) (fun i => i.onRead) f data
        (registration impl.curl a CURLOPT_READFUNCTION CURLOPT_READDATA
        CType.curl_read_callback Trampoline.read f.isSome)) ∧
    (∀ f : Option (WriteHandler σ),
      Registered w a impl (Easy.onWrite p N this f data w) (fun i => i.onWrite) f data
        (registration impl.curl a CURLOPT_WRITEFUNCTION CURLOPT_WRITEDATA
        CType.curl_write_callback Trampoline.write f.isSome)) ∧
    (∀ f : Option (WriteHandler σ),
      Registered w a impl (Easy.onHeader p N this f data w) (fun i => i.onHeader) f data
        (registration impl.curl a CURLOPT_HEADERFUNCTION CURLOPT_HEADERDATA
        CType.curl_write_callback Trampoline.header f.isSome)) ∧
    (∀ f : Option (ProgressHandler σ),
      Registered w a impl (Easy.onProgress p N this f data w) (fun i => i.onProgress) f data
        (registration impl.curl a CURLOPT_PROGRESSFUNCTION CURLOPT_PROGRESSDATA
        CType.curl_progress_callback Trampoline.progress f.isSome ++
        flagged impl.curl CURLOPT_NOPROGRESS (!f.isSome))) ∧
    (∀ f : Option (DebugHandler σ),
      Registered w a impl (Easy.onDebug p N this f data w) (fun i => i.onDebug) f data
        (registration impl.curl a CURLOPT_DEBUGFUNCTION CURLOPT_DEBUGDATA
        CType.curl_debug_callback Trampoline.debug f.isSome ++
        flagged impl.curl CURLOPT_VERBOSE (f.isSome))) ∧
    (∀ f : Option (IoctlHandler σ),
      Registered w a impl (Easy.onIoctl p N this f data w) (fun i => i.onIoctl) f data
        (registration impl.curl a CURLOPT_IOCTLFUNCTION CURLOPT_IOCTLDATA
        CType.curl_ioctl_callback Trampoline.ioctl f.isSome)) ∧
    (∀ f : Option (SeekHandler σ),
      Registered w a impl (Easy.onSeek p N this f data w) (fun i => i.onSeek) f data
        (registration impl.curl a CURLOPT_SEEKFUNCTION CURLOPT_SEEKDATA
        CType.curl_seek_callback Trampoline.seek f.isSome)) ∧
    (∀ f : Option (FnMatchHandler σ),
      Registered w a impl (Easy.onFnMatch p N this f data w) (fun i => i.onFnMatch) f data
        (registration impl.curl a CURLOPT_FNMATCH_FUNCTION CURLOPT_FNMATCH_DATA
        CType.curl_fnmatch_callback Trampoline.fnMatch f.isSome)) ∧
    (∀ f : Option (XferInfoHandler σ),
      Registered w a impl (Easy.onXferInfo p N this f data w) (fun i => i.onXferInfo) f data
        (registration impl.curl a CURLOPT_XFERINFOFUNCTION CURLOPT_XFERINFODATA
        CType.curl_xferinfo_callback Trampoline.xferInfo f.isSome ++
        flagged impl.curl CURLOPT_NOPROGRESS (!f.isSome))) ∧
    (∀ f : Option (OpenSocketHandler σ),
      Registered w a impl (Easy.onOpenSocket p N this f data w) (fun i => i.onOpenSocket) f data
        (registration impl.curl a CURLOPT_OPENSOCKETFUNCTION CURLOPT_OPENSOCKETDATA
        CType.curl_opensocket_callback Trampoline.openSocket f.isSome)) ∧
    (∀ f : Option (CloseSocketHandler σ),
      Registered w a impl (Easy.onCloseSocket p N this f data w) (fun i => i.onCloseSocket) f data
        (registration impl.curl a CURLOPT_CLOSESOCKETFUNCTION CURLOPT_CLOSESOCKETDATA
        CType.curl_closesocket_callback Trampoline.closeSocket f.isSome)) ∧
    (∀ f : Option (SockOptHandler σ),
      Registered w a impl (Easy.onSockOpt p N this f data w) (fun i => i.onSockOpt) f data
        (registration impl.curl a CURLOPT_SOCKOPTFUNCTION CURLOPT_SOCKOPTDATA
        CType.curl_sockopt_callback Trampoline.sockOpt f.isSome)) ∧
    (∀ f : Option (ChunkBeginHandler σ),
      Registered w a impl (Easy.onChunkBegin p N this f data w) (fun i => i.onChunkBegin) f data
        (registration impl.curl a CURLOPT_CHUNK_BGN_FUNCTION CURLOPT_CHUNK_DATA
        CType.curl_chunk_bgn_callback Trampoline.chunkBegin f.isSome)) ∧
    (∀ f : Option (ChunkEndHandler σ),
      Registered w a impl (Easy.onChunkEnd p N this f data w) (fun i => i.onChunkEnd) f data
        (registration impl.curl a CURLOPT_CHUNK_END_FUNCTION CURLOPT_CHUNK_DATA
        CType.curl_chunk_end_callback Trampoline.chunkEnd f.isSome)) ∧
    (∀ f : Option (SslContextHandler σ),
      Registered w a impl (Easy.onSslContext p N this f data w) (fun i => i.onSslContext) f data
        (registration impl.curl a CURLOPT_SSL_CTX_FUNCTION CURLOPT_SSL_CTX_DATA
        CType.curl_ssl_ctx_callback Trampoline.sslContext f.isSome)) ∧
    (∀ kv ∈ Easy.registration_options, Easy.set_check p kv.1 kv.2 = true) := by
  refine ⟨?_, ?_, ?_, ?_, ?_, ?_, ?_, ?_, ?_, ?_, ?_, ?_, ?_, ?_, ?_, ?_⟩
  · intro f
    simp only [Easy.onRead, Prog.bind_run, Prog.bind, Easy.impl_run h, Easy.Pimpl.modify_run h,
      Easy.Pimpl.modify_run (h.setPimpl _), Easy.set_bool]
    rw [Easy.set_ok hN ((h.setPimpl _).setPimpl _) _ _ (by cases p; rfl)]
    simp only []
    rw [Easy.set_ok hN ((((h.setPimpl _).setPimpl _).called _).setPimpl _) _ _
      (by cases p; rfl)]
    refine ⟨rfl, ⟨{ impl with onRead := ⟨f, data⟩, err := CURLE_OK }, ?_, rfl, rfl, rfl⟩, ?_, rfl⟩
    · simp [World.setPimpl]
    · cases f <;> simp [World.setPimpl, World.called, registration, flagged]
  · intro f
    simp only [Easy.onWrite, Prog.bind_run, Prog.bind, Easy.impl_run h, Easy.Pimpl.modify_run h,
      Easy.Pimpl.modify_run (h.setPimpl _), Easy.set_bool]
    rw [Easy.set_ok hN ((h.setPimpl _).setPimpl _) _ _ (by cases p; rfl)]
    simp only []
    rw [Easy.set_ok hN ((((h.setPimpl _).setPimpl _).called _).setPimpl _) _ _
      (by cases p; rfl)]
    refine ⟨rfl, ⟨{ impl with onWrite := ⟨f, data⟩, err := CURLE_OK }, ?_, rfl, rfl, rfl⟩, ?_, rfl⟩
    · simp [World.setPimpl]
    · cases f <;> simp [World.setPimpl, World.called, registration, flagged]
  · intro f
    simp only [Easy.onHeader, Prog.bind_run, Prog.bind, Easy.impl_run h, Easy.Pimpl.modify_run h,
      Easy.Pimpl.modify_run (h.setPimpl _), Easy.set_bool]
    rw [Easy.set_ok hN ((h.setPimpl _).setPimpl _) _ _ (by cases p; rfl)]
    simp only []
    rw [Easy.set_ok hN ((((h.setPimpl _).setPimpl _).called _).setPimpl _) _ _
      (by cases p; rfl)]
    refine ⟨rfl, ⟨{ impl with onHeader := ⟨f, data⟩, err := CURLE_OK }, ?_, rfl, rfl, rfl⟩, ?_, rfl⟩
    · simp [World.setPimpl]
    · cases f <;> simp [World.setPimpl, World.called, registration, flagged]
  · intro f
    simp only [Easy.onProgress, Prog.bind_run, Prog.bind, Easy.impl_run h, Easy.Pimpl.modify_run h,
      Easy.Pimpl.modify_run (h.setPimpl _), Easy.set_bool]
    rw [Easy.set_ok hN ((h.setPimpl _).setPimpl _) _ _ (by cases p; rfl)]
    simp only []
    rw [Easy.set_ok hN ((((h.setPimpl _).setPimpl _).called _).setPimpl _) _ _
      (by cases p; rfl)]
    simp only []
    rw [Easy.set_ok hN ((((((h.setPimpl _).setPimpl _).called _).setPimpl _).called _).setPimpl _)
      _ _ (by cases p; rfl)]
    refine ⟨rfl, ⟨{ impl with onProgress := ⟨f, data⟩, err := CURLE_OK }, ?_, rfl, rfl, rfl⟩, ?_, rfl⟩
    · simp [World.setPimpl]
    · cases f <;> simp [World.setPimpl, World.called, registration, flagged]
  · intro f
    simp only [Easy.onDebug, Prog.bind_run, Prog.bind, Easy.impl_run h, Easy.Pimpl.modify_run h,
      Easy.Pimpl.modify_run (h.setPimpl _), Easy.set_bool]
    rw [Easy.set_ok hN ((h.setPimpl _).setPimpl _) _ _ (by cases p; rfl)]
    simp only []
    rw [Easy.set_ok hN ((((h.setPimpl _).setPimpl _).called _).setPimpl _) _ _
      (by cases p; rfl)]
    simp only []
    rw [Easy.set_ok hN ((((((h.setPimpl _).setPimpl _).called _).setPimpl _).called _).setPimpl _)
      _ _ (by cases p; rfl)]
    refine ⟨rfl, ⟨{ impl with onDebug := ⟨f, data⟩, err := CURLE_OK }, ?_, rfl, rfl, rfl⟩, ?_, rfl⟩
    · simp [World.setPimpl]
    · cases f <;> simp [World.setPimpl, World.called, registration, flagged]
  · intro f
    simp only [Easy.onIoctl, Prog.bind_run, Prog.bind, Easy.impl_run h, Easy.Pimpl.modify_run h,
      Easy.Pimpl.modify_run (h.setPimpl _), Easy.set_bool]
    rw [Easy.set_ok hN ((h.setPimpl _).setPimpl _) _ _ (by cases p; rfl)]
    simp only []
    rw [Easy.set_ok hN ((((h.setPimpl _).setPimpl _).called _).setPimpl _) _ _
      (by cases p; rfl)]
    refine ⟨rfl, ⟨{ impl with onIoctl := ⟨f, data⟩, err := CURLE_OK }, ?_, rfl, rfl, rfl⟩, ?_, rfl⟩
    · simp [World.setPimpl]
    · cases f <;> simp [World.setPimpl, World.called, registration, flagged]
  · intro f
    simp only [Easy.onSeek, Prog.bind_run, Prog.bind, Easy.impl_run h, Easy.Pimpl.modify_run h,
      Easy.Pimpl.modify_run (h.setPimpl _), Easy.set_bool]
    rw [Easy.set_ok hN ((h.setPimpl _).setPimpl _) _ _ (by cases p; rfl)]
    simp only []
    rw [Easy.set_ok hN ((((h.setPimpl _).setPimpl _).called _).setPimpl _) _ _
      (by cases p; rfl)]
    refine ⟨rfl, ⟨{ impl with onSeek := ⟨f, data⟩, err := CURLE_OK }, ?_, rfl, rfl, rfl⟩, ?_, rfl⟩
    · simp [World.setPimpl]
    · cases f <;> simp [World.setPimpl, World.called, registration, flagged]
  · intro f
    simp only [Easy.onFnMatch, Prog.bind_run, Prog.bind, Easy.impl_run h, Easy.Pimpl.modify_run h,
      Easy.Pimpl.modify_run (h.setPimpl _), Easy.set_bool]
    rw [Easy.set_ok hN ((h.setPimpl _).setPimpl _) _ _ (by cases p; rfl)]
    simp only []
    rw [Easy.set_ok hN ((((h.setPimpl _).setPimpl _).called _).setPimpl _) _ _
      (by cases p; rfl)]
    refine ⟨rfl, ⟨{ impl with onFnMatch := ⟨f, data⟩, err := CURLE_OK }, ?_, rfl, rfl, rfl⟩, ?_, rfl⟩
    · simp [World.setPimpl]
    · cases f <;> simp [World.setPimpl, World.called, registration, flagged]
  · intro f
    simp only [Easy.onXferInfo, Prog.bind_run, Prog.bind, Easy.impl_run h, Easy.Pimpl.modify_run h,
      Easy.Pimpl.modify_run (h.setPimpl _), Easy.set_bool]
    rw [Easy.set_ok hN ((h.setPimpl _).setPimpl _) _ _ (by cases p; rfl)]
    simp only []
    rw [Easy.set_ok hN ((((h.setPimpl _).setPimpl _).called _).setPimpl _) _ _
      (by cases p; rfl)]
    simp only []
    rw [Easy.set_ok hN ((((((h.setPimpl _).setPimpl _).called _).setPimpl _).called _).setPimpl _)
      _ _ (by cases p; rfl)]
    refine ⟨rfl, ⟨{ impl with onXferInfo := ⟨f, data⟩, err := CURLE_OK }, ?_, rfl, rfl, rfl⟩, ?_, rfl⟩
    · simp [World.setPimpl]
    · cases f <;> simp [World.setPimpl, World.called, registration, flagged]
  · intro f
    simp only [Easy.onOpenSocket, Prog.bind_run, Prog.bind, Easy.impl_run h, Easy.Pimpl.modify_run h,
      Easy.Pimpl.modify_run (h.setPimpl _), Easy.set_bool]
    rw [Easy.set_ok hN ((h.setPimpl _).setPimpl _) _ _ (by cases p; rfl)]
    simp only []
    rw [Easy.set_ok hN ((((h.setPimpl _).setPimpl _).called _).setPimpl _) _ _
      (by cases p; rfl)]
    refine ⟨rfl, ⟨{ impl with onOpenSocket := ⟨f, data⟩, err := CURLE_OK }, ?_, rfl, rfl, rfl⟩, ?_, rfl⟩
    · simp [World.setPimpl]
    · cases f <;> simp [World.setPimpl, World.called, registration, flagged]
  · intro f
    simp only [Easy.onCloseSocket, Prog.bind_run, Prog.bind, Easy.impl_run h, Easy.Pimpl.modify_run h,
      Easy.Pimpl.modify_run (h.setPimpl _), Easy.set_bool]
    rw [Easy.set_ok hN ((h.setPimpl _).setPimpl _) _ _ (by cases p; rfl)]
    simp only []
    rw [Easy.set_ok hN ((((h.setPimpl _).setPimpl _).called _).setPimpl _) _ _
      (by cases p; rfl)]
    refine ⟨rfl, ⟨{ impl with onCloseSocket := ⟨f, data⟩, err := CURLE_OK }, ?_, rfl, rfl, rfl⟩, ?_, rfl⟩
    · simp [World.setPimpl]
    · cases f <;> simp [World.setPimpl, World.called, registration, flagged]
  · intro f
    simp only [Easy.onSockOpt, Prog.bind_run, Prog.bind, Easy.impl_run h, Easy.Pimpl.modify_run h,
      Easy.Pimpl.modify_run (h.setPimpl _), Easy.set_bool]
    rw [Easy.set_ok hN ((h.setPimpl _).setPimpl _) _ _ (by cases p; rfl)]
    simp only []
    rw [Easy.set_ok hN ((((h.setPimpl _).setPimpl _).called _).setPimpl _) _ _
      (by cases p; rfl)]
    refine ⟨rfl, ⟨{ impl with onSockOpt := ⟨f, data⟩, err := CURLE_OK }, ?_, rfl, rfl, rfl⟩, ?_, rfl⟩
    · simp [World.setPimpl]
    · cases f <;> simp [World.setPimpl, World.called, registration, flagged]
  · intro f
    simp only [Easy.onChunkBegin, Prog.bind_run, Prog.bind, Easy.impl_run h, Easy.Pimpl.modify_run h,
      Easy.Pimpl.modify_run (h.setPimpl _), Easy.set_bool]
    rw [Easy.set_ok hN ((h.setPimpl _).setPimpl _) _ _ (by cases p; rfl)]
    simp only []
    rw [Easy.set_ok hN ((((h.setPimpl _).setPimpl _).called _).setPimpl _) _ _
      (by cases p; rfl)]
    refine ⟨rfl, ⟨{ impl with onChunkBegin := ⟨f, data⟩, err := CURLE_OK }, ?_, rfl, rfl, rfl⟩, ?_, rfl⟩
    · simp [World.setPimpl]
    · cases f <;> simp [World.setPimpl, World.called, registration, flagged]
  · intro f
    simp only [Easy.onChunkEnd, Prog.bind_run, Prog.bind, Easy.impl_run h, Easy.Pimpl.modify_run h,
      Easy.Pimpl.modify_run (h.setPimpl _), Easy.set_bool]
    rw [Easy.set_ok hN ((h.setPimpl _).setPimpl _) _ _ (by cases p; rfl)]
    simp only []
    rw [Easy.set_ok hN ((((h.setPimpl _).setPimpl _).called _).setPimpl _) _ _
      (by cases p; rfl)]
    refine ⟨rfl, ⟨{ impl with onChunkEnd := ⟨f, data⟩, err := CURLE_OK }, ?_, rfl, rfl, rfl⟩, ?_, rfl⟩
    · simp [World.setPimpl]
    · cases f <;> simp [World.setPimpl, World.called, registration, flagged]
  · intro f
    simp only [Easy.onSslContext, Prog.bind_run, Prog.bind, Easy.impl_run h, Easy.Pimpl.modify_run h,
      Easy.Pimpl.modify_run (h.setPimpl _), Easy.set_bool]
    rw [Easy.set_ok hN ((h.setPimpl _).setPimpl _) _ _ (by cases p; rfl)]
    simp only []
    rw [Easy.set_ok hN ((((h.setPimpl _).setPimpl _).called _).setPimpl _) _ _
      (by cases p; rfl)]
    refine ⟨rfl, ⟨{ impl with onSslContext := ⟨f, data⟩, err := CURLE_OK }, ?_, rfl, rfl, rfl⟩, ?_, rfl⟩
    · simp [World.setPimpl]
    · cases f <;> simp [World.setPimpl, World.called, registration, flagged]
  · cases p with
    | mk flag bits =>
      intro kv hkv
      rw [Easy.set_check_bits]
      revert kv
      cases flag <;> decide

/-- C7, at an input: `onWrite` with a handler and user data `9`, then the two native
calls it makes; and `onProgress` with an empty handler, which nulls both options and
sets `CURLOPT_NOPROGRESS` to `1`. -/
theorem Easy.on_registers_witness :
    (Easy.onWrite ⟨true, 64⟩ (Native.always 0 7) 1
        (some (fun _ size n _ (u : Nat) => (size * n, u + 1))) 9
        (World.single (Easy.Pimpl.fresh 7 true))).2.trace
      = [NativeCall.curl_easy_setopt 7 CURLOPT_WRITEFUNCTION
          ⟨CType.curl_write_callback, Payload.fn Trampoline.write⟩,
         NativeCall.curl_easy_setopt 7 CURLOPT_WRITEDATA ⟨CType.void_ptr, Payload.addr 100⟩] ∧
    (Easy.onProgress ⟨true, 64⟩ (Native.always 0 7) 1 none 0
        (World.single (Easy.Pimpl.fresh 7 true : Easy.Pimpl Nat))).2.trace
      = [NativeCall.curl_easy_setopt 7 CURLOPT_PROGRESSFUNCTION
          ⟨CType.curl_progress_callback, Payload.null⟩,
         NativeCall.curl_easy_setopt 7 CURLOPT_PROGRESSDATA ⟨CType.void_ptr, Payload.null⟩,
         NativeCall.curl_easy_setopt 7 CURLOPT_NOPROGRESS ⟨CType.long, Payload.int 1⟩] :=
  ⟨((Easy.on_registers ⟨true, 64⟩ (Native.always 0 7)
      (World.single (Easy.Pimpl.fresh 7 true : Easy.Pimpl Nat)) 1 100 _ (Holds.single _)
      (fun _ _ _ _ => rfl) 9).2.1 (some (fun _ size n _ (u : Nat) => (size * n, u + 1)))).2.2.1,
   ((Easy.on_registers ⟨true, 64⟩ (Native.always 0 7)
      (World.single (Easy.Pimpl.fresh 7 true : Easy.Pimpl Nat)) 1 100 _ (Holds.single _)
      (fun _ _ _ _ => rfl) 0).2.2.2.1 none).2.2.1⟩

/-- C8: on a handle that has its private state, whatever the native setter answers:
after `onRead_( f )` with a non-empty `f` the read slot holds a handler that calls
`f( data, size * n )` once and returns `size * n` when that is `true` and
`CURL_READFUNC_ABORT` when it is `false`; after `onWrite_( f )` and `onHeader_( f )` the
write and the header slot hold one that returns `size * n` or `0`; after
`onProgress_( f )` the xferinfo slot holds one that calls `f` with the four counters
and returns `0` when that is `true` and `1` when it is `false`.  The product
`size * n` is the `size_t` one, which is the product of the numbers when that fits.
With an empty `f` each is the registration it wraps, called with an empty handler:
`onRead`, `onWrite`, `onHeader` and, for `onProgress_`, `onXferInfo`. -/
theorem Easy.simplified_handlers {σ : Type} (p : Platform) (N : Native) (w : World σ)
    (this a : Ptr) (impl : Easy.Pimpl σ) (h : Holds w this a impl) :
    (∀ f : SimplifiedDataHandler σ,
      Installed (Easy.onRead_ p N this (some f) w).2 a (fun i => i.onRead)
        (fun handler => ∀ data size n userPtr u, handler data size n userPtr u =
          (if (f data (size_t_mul p size n) u).1 then size_t_mul p size n
            else CURL_READFUNC_ABORT,
           (f data (size_t_mul p size n) u).2))) ∧
    (∀ f : SimplifiedDataHandler σ,
      Installed (Easy.onWrite_ p N this (some f) w).2 a (fun i => i.onWrite)
        (fun handler => ∀ data size n userPtr u, handler data size n userPtr u =
          (if (f data (size_t_mul p size n) u).1 then size_t_mul p size n else 0,
           (f data (size_t_mul p size n) u).2))) ∧
    (∀ f : SimplifiedDataHandler σ,
      Installed (Easy.onHeader_ p N this (some f) w).2 a (fun i => i.onHeader)
        (fun handler => ∀ data size n userPtr u, handler data size n userPtr u =
          (if (f data (size_t_mul p size n) u).1 then size_t_mul p size n else 0,
           (f data (size_t_mul p size n) u).2))) ∧
    (∀ f : SimplifiedProgressHandler σ,
      Installed (Easy.onProgress_ p N this (some f) w).2 a (fun i => i.onXferInfo)
        (fun handler => ∀ userPtr dTotal dCurrent uTotal uCurrent u,
          handler userPtr dTotal dCurrent uTotal uCurrent u =
            (if (f dTotal dCurrent uTotal uCurrent u).1 then 0 else 1,
             (f dTotal dCurrent uTotal uCurrent u).2))) ∧
    (∀ size n, size * n < 2 ^ p.size_t_bits → size_t_mul p size n = size * n) ∧
    (Easy.onRead_ p N this none : Prog σ Unit) = Easy.onRead p N this none 0 ∧
    (Easy.onWrite_ p N this none : Prog σ Unit) = Easy.onWrite p N this none 0 ∧
    (Easy.onHeader_ p N this none : Prog σ Unit) = Easy.onHeader p N this none 0 ∧
    (Easy.onProgress_ p N this none : Prog σ Unit) = Easy.onXferInfo p N this none 0 := by
  refine ⟨?_, ?_, ?_, ?_, ?_, rfl, rfl, rfl, rfl⟩
  · intro f
    obtain ⟨e, -, -, he⟩ := Easy.onRead_keeps p N h (some (fun data size n _ u =>
      (if (f data (size_t_mul p size n) u).1 then size_t_mul p size n
        else CURL_READFUNC_ABORT, (f data (size_t_mul p size n) u).2))) 0
    exact ⟨_, _, he, rfl, fun _ _ _ _ _ => rfl⟩
  · intro f
    obtain ⟨e, -, -, he⟩ := Easy.onWrite_keeps p N h (some (fun data size n _ u =>
      (if (f data (size_t_mul p size n) u).1 then size_t_mul p size n
        else 0, (f data (size_t_mul p size n) u).2))) 0
    exact ⟨_, _, he, rfl, fun _ _ _ _ _ => rfl⟩
  · intro f
    obtain ⟨e, -, -, he⟩ := Easy.onHeader_keeps p N h (some (fun data size n _ u =>
      (if (f data (size_t_mul p size n) u).1 then size_t_mul p size n
        else 0, (f data (size_t_mul p size n) u).2))) 0
    exact ⟨_, _, he, rfl, fun _ _ _ _ _ => rfl⟩
  · intro f
    obtain ⟨e, -, -, he⟩ := Easy.onXferInfo_keeps p N h
      (some (fun _ dTotal dCurrent uTotal uCurrent u =>
        (if !(f dTotal dCurrent uTotal uCurrent u).1 then 1 else 0,
          (f dTotal dCurrent uTotal uCurrent u).2))) 0
    refine ⟨_, _, he, rfl, fun _ dT dC uT uC u => ?_⟩
    cases hf : (f dT dC uT uC u).1 <;> simp [hf]
  · intro size n hlt
    exact Nat.mod_eq_of_lt hlt

/-- C8, at an input: the handler that `onRead_` installs for an `f` that accepts only
buffers shorter than ten bytes and counts its calls. -/
theorem Easy.simplified_handlers_witness :
    Installed (Easy.onRead_ ⟨true, 64⟩ (Native.always 0 7) 1
        (some (fun _ len (u : Nat) => (decide (len < 10), u + 1)))
        (World.single (Easy.Pimpl.fresh 7 true))).2 100 (fun i => i.onRead)
      (fun handler => handler 5 2 3 0 0 = (6, 1) ∧ handler 5 2 8 0 0 = (CURL_READFUNC_ABORT, 1)) :=
  have h := (Easy.simplified_handlers ⟨true, 64⟩ (Native.always 0 7)
    (World.single (Easy.Pimpl.fresh 7 true : Easy.Pimpl Nat)) 1 100 _ (Holds.single _)).1
    (fun _ len (u : Nat) => (decide (len < 10), u + 1))
  match h with
  | ⟨impl, handler, h1, h2, h3⟩ =>
    ⟨impl, handler, h1, h2, (h3 5 2 3 0 0).trans (by decide), (h3 5 2 8 0 0).trans (by decide)⟩

/-- C9: for two distinct `Easy` objects, `other` holding the private state at `b`.
Move-construction of `this` from `other` returns, makes no native call and leaves every
private state as it was: `this` now holds the state at `b`, the very address the native
library was given as callback data, and `other` holds none, so that destroying `other`
makes no native call and deletes no private state.  Move-assignment to a `this` that
holds the state `impl` at another address `a` cleans up the former session of `this`
(one `curl_easy_cleanup`, none when it had no session) and nothing else; afterwards
`this` holds the state at `b`, which is untouched, and `other` holds the state at `a`
with a null session, so that destroying `other` makes no native call.  Move-assignment
to a `this` that holds no private state makes no native call and leaves `other` with
none.  Self move-assignment does nothing. -/
theorem Easy.move_semantics {σ : Type} (w : World σ) (this other b : Ptr)
    (hne : this ≠ other) (hother : w.easies other = some ⟨b⟩) :
    (∀ r, r = Easy.move_ctor this other w →
      r.1 = Outcome.ok () ∧ r.2.easies this = some ⟨b⟩ ∧ r.2.easies other = some ⟨0⟩ ∧
      r.2.pimpls = w.pimpls ∧ r.2.trace = w.trace ∧
      (Easy.dtor other r.2).1 = Outcome.ok () ∧
      (Easy.dtor other r.2).2.trace = w.trace ∧
      (Easy.dtor other r.2).2.pimpls = w.pimpls) ∧
    (∀ a impl r, Holds w this a impl → a ≠ b → r = Easy.move_assign this other w →
      r.1 = Outcome.ok () ∧ r.2.trace = w.trace ++ cleanup_of impl.curl ∧
      r.2.easies this = some ⟨b⟩ ∧ r.2.pimpls b = w.pimpls b ∧
      r.2.easies other = some ⟨a⟩ ∧ r.2.pimpls a = some { impl with curl := 0 } ∧
      (Easy.dtor other r.2).1 = Outcome.ok () ∧
      (Easy.dtor other r.2).2.trace = r.2.trace) ∧
    (∀ r, w.easies this = some ⟨0⟩ → r = Easy.move_assign this other w →
      r.1 = Outcome.ok () ∧ r.2.trace = w.trace ∧ r.2.easies this = some ⟨b⟩ ∧
      r.2.easies other = some ⟨0⟩ ∧ r.2.pimpls = w.pimpls) ∧
    Easy.move_assign this this w = (Outcome.ok (), w) := by
  refine ⟨?_, ?_, ?_, ?_⟩
  · intro r hr
    subst hr
    have hd : ((w.setEasy this (some ⟨b⟩)).setEasy other (some ⟨0⟩)).easies other
        = some ⟨0⟩ := by simp [World.setEasy]
    rw [Easy.move_ctor_run hne hother, Easy.dtor_empty hd]
    refine ⟨rfl, ?_, ?_, rfl, rfl, rfl, rfl, rfl⟩ <;> simp [World.setEasy, hne]
  · intro a impl r h hab hr
    subst hr
    rw [Easy.move_assign_run hne hother h]
    have hd : Holds (({ w.setPimpl a (some { impl with curl := 0 }) with
        trace := w.trace ++ cleanup_of impl.curl }.setEasy this (some ⟨b⟩)).setEasy
        other (some ⟨a⟩)) other a { impl with curl := 0 } :=
      ⟨by simp [World.setEasy], h.2.1, by simp [World.setEasy, World.setPimpl]⟩
    rw [Easy.dtor_run hd]
    refine ⟨rfl, rfl, ?_, ?_, ?_, ?_, rfl, ?_⟩ <;>
      simp [World.setEasy, World.setPimpl, hne, Ne.symm hab, cleanup_of]
  · intro r h hr
    subst hr
    rw [Easy.move_assign_empty hne hother h]
    refine ⟨rfl, rfl, ?_, ?_, rfl⟩ <;> simp [World.setEasy, hne]
  · simp [Easy.move_assign, Prog.pure]

/-- C9, at an input: two handles with the sessions `7` and `8`; the second is moved
into the first, then destroyed. -/
theorem Easy.move_semantics_witness :
    (Easy.move_assign 1 2 (World.pair (Easy.Pimpl.fresh 7 true : Easy.Pimpl Unit)
        (Easy.Pimpl.fresh 8 true))).2.trace = [NativeCall.curl_easy_cleanup 7] ∧
    (Easy.move_assign 1 2 (World.pair (Easy.Pimpl.fresh 7 true : Easy.Pimpl Unit)
        (Easy.Pimpl.fresh 8 true))).2.easies 1 = some ⟨200⟩ ∧
    (Easy.dtor 2 (Easy.move_assign 1 2 (World.pair (Easy.Pimpl.fresh 7 true : Easy.Pimpl Unit)
        (Easy.Pimpl.fresh 8 true))).2).2.trace = [NativeCall.curl_easy_cleanup 7] :=
  have h := (Easy.move_semantics (World.pair (Easy.Pimpl.fresh 7 true : Easy.Pimpl Unit)
    (Easy.Pimpl.fresh 8 true)) 1 2 200 (by decide) rfl).2.1 100 _ _
    ⟨rfl, by decide, rfl⟩ (by decide) rfl
  ⟨h.2.1, h.2.2.1, h.2.2.2.2.2.2.2.trans h.2.1⟩

/-- C10: for two distinct `List` objects, `other` holding the chain `b`: move-construction
of `this` leaves `this` holding `b` and `other` holding null without a native call;
move-assignment to a `this` that holds the chain `a` frees `a` (one
`curl_slist_free_all`, none for a null `a`) and nothing else, and leaves `this` holding
`b` and `other` holding null; in both cases destroying `other` afterwards makes no
native call; self move-assignment does nothing.  The same for two distinct `Form`
objects, `other` holding the pointers `g`: `this` ends with exactly `g`, `other` with
a null first and a null last pointer, and move-assignment frees the former first
pointer of `this` with one `curl_formfree`. -/
theorem chains_move_semantics {σ : Type} (w : World σ) (this other : Ptr)
    (hne : this ≠ other) :
    (∀ b, w.lists other = some ⟨b⟩ →
      (∀ r, r = List.move_ctor this other w →
        r.1 = Outcome.ok () ∧ r.2.lists this = some ⟨b⟩ ∧ r.2.lists other = some ⟨0⟩ ∧
        r.2.trace = w.trace ∧ (List.dtor other r.2).2.trace = w.trace) ∧
      (∀ a r, w.lists this = some ⟨a⟩ → r = List.move_assign this other w →
        r.1 = Outcome.ok () ∧ r.2.lists this = some ⟨b⟩ ∧ r.2.lists other = some ⟨0⟩ ∧
        r.2.trace = w.trace ++ slist_free_of a ∧
        (List.dtor other r.2).2.trace = r.2.trace)) ∧
    List.move_assign this this w = (Outcome.ok (), w) ∧
    (∀ g, w.forms other = some g →
      (∀ r, r = Form.move_ctor this other w →
        r.1 = Outcome.ok () ∧ r.2.forms this = some g ∧ r.2.forms other = some ⟨0, 0⟩ ∧
        r.2.trace = w.trace ∧ (Form.dtor other r.2).2.trace = w.trace) ∧
      (∀ f r, w.forms this = some f → r = Form.move_assign this other w →
        r.1 = Outcome.ok () ∧ r.2.forms this = some g ∧ r.2.forms other = some ⟨0, 0⟩ ∧
        r.2.trace = w.trace ++ formfree_of f._first ∧
        (Form.dtor other r.2).2.trace = r.2.trace)) ∧
    Form.move_assign this this w = (Outcome.ok (), w) := by
  refine ⟨fun b hother => ⟨?_, ?_⟩, ?_, fun g hother => ⟨?_, ?_⟩, ?_⟩
  · intro r hr
    subst hr
    rw [List.move_ctor_list hne hother]
    refine ⟨rfl, by simp [hne], by simp, rfl, ?_⟩
    rw [List.dtor_list (a := 0) (by simp)]
    simp [slist_free_of]
  · intro a r hthis hr
    subst hr
    rw [List.move_assign_list hne hthis hother]
    refine ⟨rfl, by simp [hne], by simp, rfl, ?_⟩
    rw [List.dtor_list (a := 0) (by simp)]
    simp [slist_free_of]
  · simp [List.move_assign, Prog.pure]
  · intro r hr
    subst hr
    rw [Form.move_ctor_form hne hother]
    refine ⟨rfl, by simp [hne], by simp, rfl, ?_⟩
    rw [Form.dtor_form (f := ⟨0, 0⟩) (by simp)]
    simp [formfree_of]
  · intro f r hthis hr
    subst hr
    rw [Form.move_assign_form hne hthis hother]
    refine ⟨rfl, by simp [hne], by simp, rfl, ?_⟩
    rw [Form.dtor_form (f := ⟨0, 0⟩) (by simp)]
    simp [formfree_of]
  · simp [Form.move_assign, Prog.pure]

/-- C10, at an input: lists holding the chains `11` and `12`, forms holding the chains
`21`..`22` and `31`..`32`; the second of each is moved into the first. -/
theorem chains_move_semantics_witness :
    (List.move_assign 1 2 (World.chains ⟨11⟩ ⟨12⟩ ⟨21, 22⟩ ⟨31, 32⟩)).2.trace
      = [NativeCall.curl_slist_free_all 11] ∧
    (List.move_assign 1 2 (World.chains ⟨11⟩ ⟨12⟩ ⟨21, 22⟩ ⟨31, 32⟩)).2.lists 1 = some ⟨12⟩ ∧
    (Form.move_assign 1 2 (World.chains ⟨11⟩ ⟨12⟩ ⟨21, 22⟩ ⟨31, 32⟩)).2.trace
      = [NativeCall.curl_formfree 21] ∧
    (Form.move_assign 1 2 (World.chains ⟨11⟩ ⟨12⟩ ⟨21, 22⟩ ⟨31, 32⟩)).2.forms 2
      = some ⟨0, 0⟩ :=
  have h := chains_move_semantics (World.chains ⟨11⟩ ⟨12⟩ ⟨21, 22⟩ ⟨31, 32⟩) 1 2 (by decide)
  have hl := (h.1 12 rfl).2 11 _ rfl rfl
  have hf := (h.2.2.1 ⟨31, 32⟩ rfl).2 ⟨21, 22⟩ _ rfl rfl
  ⟨hl.2.2.2.1, hl.2.1, hf.2.2.2.1, hf.2.2.1⟩

/-- C11: `release()` of an `Easy`, a `List` or a `Form` returns the native pointers the
wrapper held (null for an `Easy` without private state), makes no native call, and leaves
the wrapper empty: `get()` then returns null, a second `release()` returns null, and the
destructor that follows makes no native call. -/
theorem release_empties {σ : Type} (w : World σ) (this : Ptr) :
    (∀ a impl r, Holds w this a impl → r = Easy.release this w →
      r.1 = Outcome.ok impl.curl ∧
      (Easy.get this r.2).1 = Outcome.ok 0 ∧
      (Easy.release this r.2).1 = Outcome.ok 0 ∧
      r.2.trace = w.trace ∧
      (Easy.dtor this r.2).1 = Outcome.ok () ∧
      (Easy.dtor this r.2).2.trace = w.trace) ∧
    (∀ r, w.easies this = some ⟨0⟩ → r = Easy.release this w →
      r = (Outcome.ok 0, w) ∧
      (Easy.dtor this r.2).1 = Outcome.ok () ∧
      (Easy.dtor this r.2).2.trace = w.trace) ∧
    (∀ l r, w.lists this = some ⟨l⟩ → r = List.release this w →
      r.1 = Outcome.ok l ∧
      (List.get this r.2).1 = Outcome.ok 0 ∧
      (List.release this r.2).1 = Outcome.ok 0 ∧
      r.2.trace = w.trace ∧
      (List.dtor this r.2).1 = Outcome.ok () ∧
      (List.dtor this r.2).2.trace = w.trace) ∧
    (∀ f r, w.forms this = some f → r = Form.release this w →
      r.1 = Outcome.ok (f._first, f._last) ∧
      (Form.get this r.2).1 = Outcome.ok 0 ∧
      (Form.release this r.2).1 = Outcome.ok (0, 0) ∧
      r.2.trace = w.trace ∧
      (Form.dtor this r.2).1 = Outcome.ok () ∧
      (Form.dtor this r.2).2.trace = w.trace) := by
  refine ⟨?_, ?_, ?_, ?_⟩
  · intro a impl r h hr
    subst hr
    rw [Easy.release_run h]
    have h2 : Holds (w.setPimpl a (some { impl with curl := 0 })) this a { impl with curl := 0 } :=
      h.setPimpl _
    rw [Easy.get_run _ this a _ h2, Easy.release_run h2, Easy.dtor_run h2]
    simp [World.setPimpl, World.setEasy, cleanup_of]
  · intro r h hr
    subst hr
    rw [Easy.release_empty h, Easy.dtor_empty h]
    simp [World.setEasy]
  · intro l r h hr
    subst hr
    rw [List.release_list h]
    have h2 : (w.setList this (some ⟨0⟩)).lists this = some ⟨0⟩ := by simp [World.setList]
    rw [List.get_list h2, List.release_list h2, List.dtor_list h2]
    simp [World.setList, slist_free_of]
  · intro f r h hr
    subst hr
    rw [Form.release_form h]
    have h2 : (w.setForm this (some ⟨0, 0⟩)).forms this = some ⟨0, 0⟩ := by simp [World.setForm]
    rw [Form.get_form h2, Form.release_form h2, Form.dtor_form h2]
    simp [World.setForm, formfree_of]

/-- C11, at an input: a handle with the session `7`, a `List` with the chain `11` and a
`Form` with the pointers `21` and `22`. -/
theorem release_empties_witness :
    (Easy.release 1 (World.single (Easy.Pimpl.fresh 7 true : Easy.Pimpl Unit))).1
      = Outcome.ok 7 ∧
    (Easy.dtor 1 (Easy.release 1
      (World.single (Easy.Pimpl.fresh 7 true : Easy.Pimpl Unit))).2).2.trace = [] ∧
    (List.release 1 (World.chains ⟨11⟩ ⟨12⟩ ⟨21, 22⟩ ⟨31, 32⟩)).1 = Outcome.ok 11 ∧
    (Form.release 1 (World.chains ⟨11⟩ ⟨12⟩ ⟨21, 22⟩ ⟨31, 32⟩)).1 = Outcome.ok (21, 22) :=
  have he := (release_empties (World.single (Easy.Pimpl.fresh 7 true : Easy.Pimpl Unit)) 1).1
    100 _ _ (Holds.single _) rfl
  have hc := release_empties (World.chains ⟨11⟩ ⟨12⟩ ⟨21, 22⟩ ⟨31, 32⟩) 1
  have hl := hc.2.2.1 11 _ rfl rfl
  have hf := hc.2.2.2 ⟨21, 22⟩ _ rfl rfl
  ⟨he.1, he.2.2.2.2.2, hl.1, hf.1⟩

/-- C13: the constructor `Easy::Easy()`, building the object at `this` with its private
state at the address `a` that `new Pimpl()` returned.  When `curl_easy_init` returns
null it raises `Exception( "can't init curl_easy interface" )`, having made that one
native call and no `curl_easy_setopt`, and leaves neither an object nor a private state.
When `curl_easy_init` returns a session and the `curl_easy_setopt` that follows
succeeds, it returns, the handle owns that session with exception mode on, last error
`CURLE_OK`, null user data and every callback slot empty, and the native calls made are
`curl_easy_init` and the one that sets `CURLOPT_USERAGENT` to `"curlite::Easy"`, which
the session then holds. -/
theorem Easy.ctor_contract {σ : Type} (p : Platform) (N : Native) (w : World σ)
    (this a : Ptr) (ha : a ≠ 0) :
    (N.curl_easy_init w.trace = 0 → ∀ r, r = Easy.ctor p N this a w →
      r.1 = Outcome.raised ⟨"can't init curl_easy interface"⟩ ∧
      r.2.trace = w.trace ++ [NativeCall.curl_easy_init] ∧
      r.2.easies this = none ∧ r.2.pimpls a = none) ∧
    (N.curl_easy_init w.trace ≠ 0 →
      N.curl_easy_setopt (w.trace ++ [NativeCall.curl_easy_init]) (N.curl_easy_init w.trace)
        CURLOPT_USERAGENT ⟨CType.const_char_ptr, Payload.cstr "curlite::Easy"⟩ = CURLE_OK →
      ∀ r, r = Easy.ctor p N this a w →
      r.1 = Outcome.ok () ∧
      r.2.trace = w.trace ++ [NativeCall.curl_easy_init,
        NativeCall.curl_easy_setopt (N.curl_easy_init w.trace) CURLOPT_USERAGENT
          ⟨CType.const_char_ptr, Payload.cstr "curlite::Easy"⟩] ∧
      (Native.state N r.2.trace).option (N.curl_easy_init w.trace) CURLOPT_USERAGENT
        = some ⟨CType.const_char_ptr, Payload.cstr "curlite::Easy"⟩ ∧
      ∃ impl, Holds r.2 this a impl ∧ impl.curl = N.curl_easy_init w.trace ∧
        impl.throwExceptions = true ∧ impl.err = CURLE_OK ∧ impl.userData = 0 ∧
        impl.onRead = ⟨none, 0⟩ ∧ impl.onWrite = ⟨none, 0⟩ ∧ impl.onHeader = ⟨none, 0⟩ ∧
        impl.onIoctl = ⟨none, 0⟩ ∧ impl.onSeek = ⟨none, 0⟩ ∧ impl.onFnMatch = ⟨none, 0⟩ ∧
        impl.onProgress = ⟨none, 0⟩ ∧ impl.onXferInfo = ⟨none, 0⟩ ∧
        impl.onChunkBegin = ⟨none, 0⟩ ∧ impl.onChunkEnd = ⟨none, 0⟩ ∧
        impl.onSockOpt = ⟨none, 0⟩ ∧ impl.onOpenSocket = ⟨none, 0⟩ ∧
        impl.onCloseSocket = ⟨none, 0⟩ ∧ impl.onSslContext = ⟨none, 0⟩ ∧
        impl.onDebug = ⟨none, 0⟩) := by
  refine ⟨?_, ?_⟩
  · intro h0 r hr
    subst hr
    rw [Easy.ctor_raises p N w ha h0]
    simp [World.setPimpl, World.setEasy, World.called]
  · intro h0 hs r hr
    subst hr
    rw [Easy.ctor_ok p N w ha h0 hs]
    refine ⟨rfl, rfl, ?_, Easy.Pimpl.fresh (N.curl_easy_init w.trace) true, ?_, rfl, rfl, rfl, rfl,
      rfl, rfl, rfl, rfl, rfl, rfl, rfl, rfl, rfl, rfl, rfl, rfl, rfl, rfl, rfl⟩
    · have e := Native.state_setopt N (w.trace ++ [NativeCall.curl_easy_init]) _ _ _ hs
      simpa [World.after, World.setEasy] using e
    · exact ⟨by simp [World.after, World.setEasy], ha, by simp [World.after]⟩

/-- C13, at an input: a native library whose `curl_easy_init` returns the session `7`
and whose calls succeed, and one whose `curl_easy_init` returns null. -/
theorem Easy.ctor_contract_witness :
    (Easy.ctor ⟨false, 64⟩ (Native.always CURLE_OK 7) 1 100 (World.empty : World Unit)).2.trace
      = [NativeCall.curl_easy_init,
         NativeCall.curl_easy_setopt 7 CURLOPT_USERAGENT
          ⟨CType.const_char_ptr, Payload.cstr "curlite::Easy"⟩] ∧
    (Easy.ctor ⟨false, 64⟩ (Native.always CURLE_OK 0) 1 100 (World.empty : World Unit)).1
      = Outcome.raised ⟨"can't init curl_easy interface"⟩ :=
  ⟨((Easy.ctor_contract ⟨false, 64⟩ (Native.always CURLE_OK 7)
      (World.empty : World Unit) 1 100 (by decide)).2 (by decide) rfl _ rfl).2.1,
   ((Easy.ctor_contract ⟨false, 64⟩ (Native.always CURLE_OK 0)
      (World.empty : World Unit) 1 100 (by decide)).1 rfl _ rfl).1⟩

/-- C17: `reset()` on a handle that has its private state, the native setter
succeeding: it returns, the native calls it makes are one `curl_easy_reset` of the
session followed by the thirteen `curl_easy_setopt` calls that clear the read, write,
header, progress and debug registrations, and afterwards these five slots hold no
handler and null user data, whatever they held before; the last error is `CURLE_OK`
and the session is the same. -/
theorem Easy.reset_clears {σ : Type} (p : Platform) (N : Native) (w : World σ)
    (this a : Ptr) (impl : Easy.Pimpl σ)
    (hN : ∀ tr c k v, N.curl_easy_setopt tr c k v = CURLE_OK) (h : Holds w this a impl) :
    ∀ r, r = Easy.reset p N this w →
      r.1 = Outcome.ok () ∧
      r.2.trace = w.trace ++ ([NativeCall.curl_easy_reset impl.curl] ++
        registration impl.curl a CURLOPT_READFUNCTION CURLOPT_READDATA
          CType.curl_read_callback Trampoline.read false ++
        registration impl.curl a CURLOPT_WRITEFUNCTION CURLOPT_WRITEDATA
          CType.curl_write_callback Trampoline.write false ++
        registration impl.curl a CURLOPT_HEADERFUNCTION CURLOPT_HEADERDATA
          CType.curl_write_callback Trampoline.header false ++
        (registration impl.curl a CURLOPT_PROGRESSFUNCTION CURLOPT_PROGRESSDATA
          CType.curl_progress_callback Trampoline.progress false ++
         flagged impl.curl CURLOPT_NOPROGRESS true) ++
        (registration impl.curl a CURLOPT_DEBUGFUNCTION CURLOPT_DEBUGDATA
          CType.curl_debug_callback Trampoline.debug false ++
         flagged impl.curl CURLOPT_VERBOSE false)) ∧
      (r.2.trace.drop w.trace.length).count (NativeCall.curl_easy_reset impl.curl) = 1 ∧
      ∃ impl2, Holds r.2 this a impl2 ∧
        impl2.onRead = ⟨none, 0⟩ ∧ impl2.onWrite = ⟨none, 0⟩ ∧ impl2.onHeader = ⟨none, 0⟩ ∧
        impl2.onProgress = ⟨none, 0⟩ ∧ impl2.onDebug = ⟨none, 0⟩ ∧
        impl2.err = CURLE_OK ∧ impl2.curl = impl.curl := by
  intro r hr
  subst hr
  rw [← World.after_self h, Easy.reset_after hN h]
  refine ⟨rfl, ?_, ?_, _, World.after_holds h _ _, rfl, rfl, rfl, rfl, rfl, rfl, rfl⟩
  · simp [World.after]
  · simp [World.after, registration, flagged, List.count_cons]

/-- C17, at an input: a handle with the session `7` that holds a read handler. -/
theorem Easy.reset_clears_witness :
    (Easy.reset ⟨false, 64⟩ (Native.always CURLE_OK 7) 1
        (World.single (Easy.Pimpl.reading (fun _ _ _ _ (u : Unit) => (0, u))))).1
      = Outcome.ok () ∧
    ∃ impl2, Holds (Easy.reset ⟨false, 64⟩ (Native.always CURLE_OK 7) 1
        (World.single (Easy.Pimpl.reading (fun _ _ _ _ (u : Unit) => (0, u))))).2 1 100 impl2 ∧
      impl2.onRead = ⟨none, 0⟩ :=
  have h := Easy.reset_clears ⟨false, 64⟩ (Native.always CURLE_OK 7)
    (World.single (Easy.Pimpl.reading (fun _ _ _ _ (u : Unit) => (0, u)))) 1 100 _
    (fun _ _ _ _ => rfl) (Holds.single _) _ rfl
  ⟨h.1, h.2.2.2.imp (fun _ hh => ⟨hh.1, hh.2.1⟩)⟩

/-- C18, the code at the failing input: a progress handler is installed with
`onProgress_`, then `reset()` is called.  `onProgress_` registers its wrapper with
`onXferInfo`, and `reset()` clears the progress slot with `onProgress()` but never the
transfer-info slot: after `reset()` the transfer-info slot of the handle still holds the
wrapper of the handler, while the claim has it cleared.  The handlers installed with
`onRead_`, `onWrite_` and `onHeader_` are cleared. -/
theorem Easy.reset_keeps_simplified_progress :
    (∃ impl, Holds (Easy.reset ⟨false, 64⟩ (Native.always CURLE_OK 7) 1
        (Easy.onProgress_ ⟨false, 64⟩ (Native.always CURLE_OK 7) 1
          (some (fun _ _ _ _ (u : Unit) => (true, u)))
          (World.single (Easy.Pimpl.fresh 7 true))).2).2 1 100 impl ∧
      impl.onXferInfo.handler.isSome = true ∧ impl.onProgress.handler.isSome = false) ∧
    (∃ impl, Holds (Easy.reset ⟨false, 64⟩ (Native.always CURLE_OK 7) 1
        (Easy.onRead_ ⟨false, 64⟩ (Native.always CURLE_OK 7) 1
          (some (fun _ _ (u : Unit) => (true, u)))
          (World.single (Easy.Pimpl.fresh 7 true))).2).2 1 100 impl ∧
      impl.onRead.handler.isSome = false) :=
  ⟨⟨_, ⟨rfl, by decide, rfl⟩, rfl, rfl⟩, ⟨_, ⟨rfl, by decide, rfl⟩, rfl⟩⟩

/-- C16, a counterexample: the `std::string` variant of `getInfo` is asked for
`CURLINFO_CONTENT_TYPE` with the default `"text/plain"`, exception mode off.  The key is
of the string category, the native getter is invoked and reports success, and what it
produced is a null string; `getInfo` returns the caller's default `"text/plain"`. -/
theorem Easy.getInfo_string_null_value :
    InfoTypeCode CType.char_ptr = ((CURLINFO_CONTENT_TYPE &&& CURLINFO_TYPEMASK : Nat) : Int) ∧
    Native.no_content_type.curl_easy_getinfo [] 7 CURLINFO_CONTENT_TYPE
      = (CURLE_OK, Payload.null) ∧
    (Easy.getInfo_string Native.no_content_type 1 CURLINFO_CONTENT_TYPE "text/plain"
        (World.single (Easy.Pimpl.fresh 7 false : Easy.Pimpl Unit))).1
      = Outcome.ok "text/plain" ∧
    (Easy.getInfo_string Native.no_content_type 1 CURLINFO_CONTENT_TYPE "text/plain"
        (World.single (Easy.Pimpl.fresh 7 false : Easy.Pimpl Unit))).2.trace
      = [NativeCall.curl_easy_getinfo 7 CURLINFO_CONTENT_TYPE] :=
  ⟨by decide, rfl, by decide, by decide⟩

/-- C16, amended: on a handle that has its private state, `getInfo<ValueType>( key,
defaultValue )` makes no native call when `InfoTypeCode<ValueType>` differs from
`key & CURLINFO_TYPEMASK` and records `CURLE_BAD_FUNCTION_ARGUMENT`; otherwise it
invokes `curl_easy_getinfo` once and records its status.  With exception mode off it
returns the default in the first case and when the native status is not `CURLE_OK`;
with exception mode on it raises in these two cases; when the native status is
`CURLE_OK` it returns the value the native getter produced.  The `std::string` variant
does the same with the string category, except that when the native getter succeeds
with a null string it returns the caller's default. -/
theorem Easy.getInfo_contract {σ : Type} (N : Native) (w : World σ) (this a : Ptr)
    (impl : Easy.Pimpl σ) (h : Holds w this a impl) (key : CURLINFO) :
    (∀ (ValueType : CType) (defaultValue : Payload) r,
      r = Easy.getInfo N this ValueType key defaultValue w →
      (InfoTypeCode ValueType ≠ ((key &&& CURLINFO_TYPEMASK : Nat) : Int) →
        r.2.trace = w.trace ∧
        (Easy.error this r.2).1 = Outcome.ok CURLE_BAD_FUNCTION_ARGUMENT ∧
        (impl.throwExceptions = false → r.1 = Outcome.ok defaultValue) ∧
        (impl.throwExceptions = true →
          r.1 = Outcome.raised ⟨N.curl_easy_strerror CURLE_BAD_FUNCTION_ARGUMENT⟩)) ∧
      (InfoTypeCode ValueType = ((key &&& CURLINFO_TYPEMASK : Nat) : Int) →
        r.2.trace = w.trace ++ [NativeCall.curl_easy_getinfo impl.curl key] ∧
        (Easy.error this r.2).1
          = Outcome.ok (N.curl_easy_getinfo w.trace impl.curl key).1 ∧
        ((N.curl_easy_getinfo w.trace impl.curl key).1 = CURLE_OK →
          r.1 = Outcome.ok (N.curl_easy_getinfo w.trace impl.curl key).2) ∧
        ((N.curl_easy_getinfo w.trace impl.curl key).1 ≠ CURLE_OK →
          (impl.throwExceptions = false → r.1 = Outcome.ok defaultValue) ∧
          (impl.throwExceptions = true → r.1 = Outcome.raised
            ⟨N.curl_easy_strerror (N.curl_easy_getinfo w.trace impl.curl key).1⟩)))) ∧
    (∀ (defaultValue : String) r,
      r = Easy.getInfo_string N this key defaultValue w →
      (InfoTypeCode CType.char_ptr ≠ ((key &&& CURLINFO_TYPEMASK : Nat) : Int) →
        r.2.trace = w.trace ∧
        (Easy.error this r.2).1 = Outcome.ok CURLE_BAD_FUNCTION_ARGUMENT ∧
        (impl.throwExceptions = false → r.1 = Outcome.ok defaultValue) ∧
        (impl.throwExceptions = true →
          r.1 = Outcome.raised ⟨N.curl_easy_strerror CURLE_BAD_FUNCTION_ARGUMENT⟩)) ∧
      (InfoTypeCode CType.char_ptr = ((key &&& CURLINFO_TYPEMASK : Nat) : Int) →
        r.2.trace = w.trace ++ [NativeCall.curl_easy_getinfo impl.curl key] ∧
        (Easy.error this r.2).1
          = Outcome.ok (N.curl_easy_getinfo w.trace impl.curl key).1 ∧
        ((N.curl_easy_getinfo w.trace impl.curl key).1 = CURLE_OK →
          (∀ s, (N.curl_easy_getinfo w.trace impl.curl key).2 = Payload.cstr s →
            r.1 = Outcome.ok s) ∧
          ((N.curl_easy_getinfo w.trace impl.curl key).2 = Payload.null →
            r.1 = Outcome.ok defaultValue)) ∧
        ((N.curl_easy_getinfo w.trace impl.curl key).1 ≠ CURLE_OK →
          (impl.throwExceptions = false → r.1 = Outcome.ok defaultValue) ∧
          (impl.throwExceptions = true → r.1 = Outcome.raised
            ⟨N.curl_easy_strerror (N.curl_easy_getinfo w.trace impl.curl key).1⟩)))) := by
  refine ⟨?_, ?_⟩
  · intro T d r hr
    subst hr
    refine ⟨fun hk => ?_, fun hk => ?_⟩
    · rw [Easy.getInfo_mismatch N w this a impl h T key d hk,
        Easy.error_run _ this a _ (h.setPimpl _)]
      exact ⟨rfl, rfl, fun hm => by simp [hm], fun hm => by simp [hm]⟩
    · rw [Easy.getInfo_match N w this a impl h T key d hk,
        Easy.error_run _ this a _ ((h.called _).setPimpl _)]
      exact ⟨rfl, rfl, fun hc => by simp [hc],
        fun hc => ⟨fun hm => by simp [hc, hm], fun hm => by simp [hc, hm]⟩⟩
  · intro d r hr
    subst hr
    refine ⟨fun hk => ?_, fun hk => ?_⟩
    · rw [Easy.getInfo_string_mismatch N w this a impl h key d hk,
        Easy.error_run _ this a _ (h.setPimpl _)]
      exact ⟨rfl, rfl, fun hm => by simp [hm], fun hm => by simp [hm]⟩
    · rw [Easy.getInfo_string_match N w this a impl h key d hk,
        Easy.error_run _ this a _ ((h.called _).setPimpl _)]
      exact ⟨rfl, rfl, fun hc => ⟨fun s hs => by simp [hc, hs], fun hn => by simp [hc, hn]⟩,
        fun hc => ⟨fun hm => by simp [hc, hm], fun hm => by simp [hc, hm]⟩⟩

/-- C16, at an input: exception mode off, a native library whose every status is `3`;
the key `CURLINFO_RESPONSE_CODE` read as a `long` fails natively and gives the default,
read as a `double` it is refused without a native call. -/
theorem Easy.getInfo_contract_witness :
    (Easy.getInfo (Native.always 3 7) 1 CType.long CURLINFO_RESPONSE_CODE (Payload.int 5)
        (World.single (Easy.Pimpl.fresh 7 false : Easy.Pimpl Unit))).1
      = Outcome.ok (Payload.int 5) ∧
    (Easy.getInfo (Native.always 3 7) 1 CType.double CURLINFO_RESPONSE_CODE (Payload.double 0)
        (World.single (Easy.Pimpl.fresh 7 false : Easy.Pimpl Unit))).2.trace = [] :=
  have h := (Easy.getInfo_contract (Native.always 3 7)
    (World.single (Easy.Pimpl.fresh 7 false : Easy.Pimpl Unit)) 1 100 _ (Holds.single _)
    CURLINFO_RESPONSE_CODE).1
  ⟨((h CType.long (Payload.int 5) _ rfl).2 (by decide)).2.2.2 (by decide) |>.1 rfl,
   ((h CType.double (Payload.double 0) _ rfl).1 (by decide)).1⟩

/-- C19: on a handle that has its private state, the native setter succeeding.  The
member `operator >> ( std::ostream & )` registers a write handler (the two
`curl_easy_setopt` calls of `onWrite`, with the trampoline and the private state), then
makes exactly one `curl_easy_perform`, and ends as the error routine does for the status
of that transfer: it returns `true` exactly when the status is `CURLE_OK`.  The handler
in the write slot calls `stream.write( data, size * n )` once and returns `size * n`
when the stream then converts to `true` and `0` otherwise.  The member
`operator << ( std::istream & )` does the same with the read slot; its handler calls
`stream.read( data, size * n )` once and returns `stream.gcount()`.  The product is the
`size_t` one, handed over as a `std::streamsize`; it is the product of the numbers when
that fits.  The two free operators make the same calls and changes as the members. -/
theorem Easy.stream_adapters {σ : Type} (p : Platform) (N : Native) (w : World σ)
    (this a : Ptr) (impl : Easy.Pimpl σ)
    (hN : ∀ tr c k v, N.curl_easy_setopt tr c k v = CURLE_OK) (h : Holds w this a impl) :
    (∀ (stream : std_ostream σ) r, r = Easy.operator_shr p N stream this w →
      r.2.trace = w.trace ++ (registration impl.curl a CURLOPT_WRITEFUNCTION CURLOPT_WRITEDATA
          CType.curl_write_callback Trampoline.write true ++
        [NativeCall.curl_easy_perform impl.curl]) ∧
      Funnelled N impl.throwExceptions
        (N.curl_easy_perform (w.trace ++ registration impl.curl a CURLOPT_WRITEFUNCTION
          CURLOPT_WRITEDATA CType.curl_write_callback Trampoline.write true) impl.curl) r.1 ∧
      (Easy.error this r.2).1 = Outcome.ok
        (N.curl_easy_perform (w.trace ++ registration impl.curl a CURLOPT_WRITEFUNCTION
          CURLOPT_WRITEDATA CType.curl_write_callback Trampoline.write true) impl.curl) ∧
      Installed r.2 a (fun i => i.onWrite)
        (fun handler => ∀ data size n userPtr u, handler data size n userPtr u =
          (if stream.to_bool (stream.write data (streamsize_of p (size_t_mul p size n)) u)
            then size_t_mul p size n else 0,
           stream.write data (streamsize_of p (size_t_mul p size n)) u)) ∧
      (operator_shl_ostream p N stream this w).2 = r.2) ∧
    (∀ (stream : std_istream σ) r, r = Easy.operator_shl p N stream this w →
      r.2.trace = w.trace ++ (registration impl.curl a CURLOPT_READFUNCTION CURLOPT_READDATA
          CType.curl_read_callback Trampoline.read true ++
        [NativeCall.curl_easy_perform impl.curl]) ∧
      Funnelled N impl.throwExceptions
        (N.curl_easy_perform (w.trace ++ registration impl.curl a CURLOPT_READFUNCTION
          CURLOPT_READDATA CType.curl_read_callback Trampoline.read true) impl.curl) r.1 ∧
      (Easy.error this r.2).1 = Outcome.ok
        (N.curl_easy_perform (w.trace ++ registration impl.curl a CURLOPT_READFUNCTION
          CURLOPT_READDATA CType.curl_read_callback Trampoline.read true) impl.curl) ∧
      Installed r.2 a (fun i => i.onRead)
        (fun handler => ∀ data size n userPtr u, handler data size n userPtr u =
          (stream.gcount (stream.read data (streamsize_of p (size_t_mul p size n)) u),
           stream.read data (streamsize_of p (size_t_mul p size n)) u)) ∧
      (operator_shr_istream p N stream this w).2 = r.2) ∧
    (∀ size n, size * n < 2 ^ (p.size_t_bits - 1) →
      streamsize_of p (size_t_mul p size n) = ((size * n : Nat) : Int)) := by
  refine ⟨?_, ?_, ?_⟩
  · intro stream r hr
    have hfree : (operator_shl_ostream p N stream this w).2
        = (Easy.operator_shr p N stream this w).2 := by
      simp only [operator_shl_ostream, Prog.bind_eq, Prog.pure_eq, Prog.bind]
      cases hh : Easy.operator_shr p N stream this w with
      | mk o w1 => cases o <;> rfl
    subst hr
    rw [hfree]
    rw [← World.after_self h, Easy.operator_shr_after hN h, Easy.perform_after N h]
    rw [Easy.error_run _ this a _ (World.after_holds h _ _)]
    refine ⟨by simp [World.after], ?_, by simp [World.after], ⟨_, _, (World.after_holds h _ _).2.2, rfl, fun _ _ _ _ _ => rfl⟩, rfl⟩
    simpa [World.after] using Funnelled.intro N impl.throwExceptions _
  · intro stream r hr
    have hfree : (operator_shr_istream p N stream this w).2
        = (Easy.operator_shl p N stream this w).2 := by
      simp only [operator_shr_istream, Prog.bind_eq, Prog.pure_eq, Prog.bind]
      cases hh : Easy.operator_shl p N stream this w with
      | mk o w1 => cases o <;> rfl
    subst hr
    rw [hfree]
    rw [← World.after_self h, Easy.operator_shl_after hN h, Easy.perform_after N h]
    rw [Easy.error_run _ this a _ (World.after_holds h _ _)]
    refine ⟨by simp [World.after], ?_, by simp [World.after], ⟨_, _, (World.after_holds h _ _).2.2, rfl, fun _ _ _ _ _ => rfl⟩, rfl⟩
    simpa [World.after] using Funnelled.intro N impl.throwExceptions _
  · intro size n hsn
    have hle : 2 ^ (p.size_t_bits - 1) ≤ 2 ^ p.size_t_bits :=
      Nat.pow_le_pow_right (by decide) (Nat.sub_le _ _)
    have e : size_t_mul p size n = size * n := Nat.mod_eq_of_lt (lt_of_lt_of_le hsn hle)
    rw [e]
    exact streamsize_of_fits p _ hsn

/-- C19, at an input: a handle with the session `7`, every native call succeeding, and
an output stream that counts the bytes written to it. -/
theorem Easy.stream_adapters_witness :
    (Easy.operator_shr ⟨false, 64⟩ (Native.always CURLE_OK 7)
        ⟨fun _ count u => u + count.toNat, fun _ => true⟩ 1
        (World.single (Easy.Pimpl.fresh 7 true : Easy.Pimpl Nat))).2.trace
      = registration 7 100 CURLOPT_WRITEFUNCTION CURLOPT_WRITEDATA
          CType.curl_write_callback Trampoline.write true ++
        [NativeCall.curl_easy_perform 7] ∧
    (Easy.operator_shr ⟨false, 64⟩ (Native.always CURLE_OK 7)
        ⟨fun _ count u => u + count.toNat, fun _ => true⟩ 1
        (World.single (Easy.Pimpl.fresh 7 true : Easy.Pimpl Nat))).1 = Outcome.ok true :=
  have h := (Easy.stream_adapters ⟨false, 64⟩ (Native.always CURLE_OK 7)
    (World.single (Easy.Pimpl.fresh 7 true : Easy.Pimpl Nat)) 1 100 _ (fun _ _ _ _ => rfl)
    (Holds.single _)).1 ⟨fun _ count u => u + count.toNat, fun _ => true⟩ _ rfl
  ⟨h.1, h.2.1.2.2.2.1.mpr rfl⟩

/-- C14, the code at the failing input: `upload` with exception mode off and a size of
`1024`, on a platform where `curl_off_t` is not `long`, every `curl_easy_setopt`
succeeding and the transfer failing with the status `7`.  `upload` returns, it has made
one `curl_easy_perform`, whose status is `7`, and after it the call
`set( CURLOPT_HTTPHEADER, nullptr )`, whose status `CURLE_OK` the error routine records:
`error()` of the handle returned is `CURLE_OK`, not the status of the transfer, which
`perform` had left as the last error. -/
theorem upload_masks_transfer_status :
    (upload ⟨false, 64⟩ Native.failing_transfer std_istream.at_end "ftp://host/file" "user"
        "secret" 1024 false 1 100 2 3 World.empty).1 = Outcome.ok () ∧
    (upload ⟨false, 64⟩ Native.failing_transfer std_istream.at_end "ftp://host/file" "user"
        "secret" 1024 false 1 100 2 3 World.empty).2.trace
      = [NativeCall.curl_easy_init,
         NativeCall.curl_easy_setopt 7 CURLOPT_USERAGENT
           ⟨CType.const_char_ptr, Payload.cstr "curlite::Easy"⟩,
         NativeCall.curl_easy_setopt 7 CURLOPT_URL
           ⟨CType.const_char_ptr, Payload.cstr "ftp://host/file"⟩,
         NativeCall.curl_easy_setopt 7 CURLOPT_USERNAME
           ⟨CType.const_char_ptr, Payload.cstr "user"⟩,
         NativeCall.curl_easy_setopt 7 CURLOPT_PASSWORD
           ⟨CType.const_char_ptr, Payload.cstr "secret"⟩,
         NativeCall.curl_easy_setopt 7 CURLOPT_INFILESIZE_LARGE
           ⟨CType.long_long, Payload.int 1024⟩,
         NativeCall.curl_easy_setopt 7 CURLOPT_UPLOAD ⟨CType.long, Payload.int 1⟩,
         NativeCall.curl_easy_setopt 7 CURLOPT_READFUNCTION
           ⟨CType.curl_read_callback, Payload.fn Trampoline.read⟩,
         NativeCall.curl_easy_setopt 7 CURLOPT_READDATA ⟨CType.void_ptr, Payload.addr 100⟩,
         NativeCall.curl_easy_perform 7,
         NativeCall.curl_easy_setopt 7 CURLOPT_HTTPHEADER ⟨CType.nullptr_t, Payload.null⟩] ∧
    (∀ tr, Native.failing_transfer.curl_easy_perform tr 7 = 7) ∧
    (Easy.error 3 (upload ⟨false, 64⟩ Native.failing_transfer std_istream.at_end
        "ftp://host/file" "user" "secret" 1024 false 1 100 2 3 World.empty).2).1
      = Outcome.ok CURLE_OK ∧
    (Easy.error 1 (Easy.perform Native.failing_transfer 1
        (World.single (Easy.Pimpl.fresh 7 false : Easy.Pimpl Unit))).2).1 = Outcome.ok 7 :=
  ⟨rfl, rfl, fun _ => rfl, rfl, rfl⟩

/-- C15: `upload`, every `curl_easy_setopt` succeeding, `curl_easy_init` handing out a
session, and no call raising (the type of `size` passes the check of `set` or exception
mode is off, and the transfer succeeds or exception mode is off).  With the size `-1`
and both `curl_slist_append` calls succeeding: `upload` returns; when
`curl_easy_perform` is called, the option `CURLOPT_HTTPHEADER` of the session holds the
chain whose strings are exactly `"Transfer-Encoding: chunked"` and `"Expect:"`, in this
order; after the transfer the option is set to the null pointer while the chain still
holds its two strings, and only then is the chain freed.  With any other size `upload`
returns and every `curl_easy_setopt` it makes for `CURLOPT_HTTPHEADER` hands over the
null pointer. -/
theorem upload_headers {σ : Type} (p : Platform) (N : Native) (w : World σ)
    (istr : std_istream σ) (url username password : String) (size : Int) (mode : Bool)
    (c a headers result curl : Ptr)
    (hN : ∀ tr c k v, N.curl_easy_setopt tr c k v = CURLE_OK)
    (ha : a ≠ 0) (hne : result ≠ c)
    (hcurl : curl = N.curl_easy_init w.trace) (h0 : curl ≠ 0)
    (hsize : p.long_is_curl_off_t = false ∨ mode = false) :
    (size = -1 → ∀ l1 l2 pre,
      l1 = N.curl_slist_append (w.trace ++ upload_setup p curl url username password (-1))
        0 "Transfer-Encoding: chunked" →
      l2 = N.curl_slist_append (w.trace ++ (upload_setup p curl url username password (-1)
        ++ [NativeCall.curl_slist_append 0 "Transfer-Encoding: chunked"])) l1 "Expect:" →
      l1 ≠ 0 → l2 ≠ 0 →
      pre = w.trace ++ (upload_setup p curl url username password (-1)
        ++ [NativeCall.curl_slist_append 0 "Transfer-Encoding: chunked",
            NativeCall.curl_slist_append l1 "Expect:",
            NativeCall.curl_easy_setopt curl CURLOPT_HTTPHEADER
              ⟨CType.curl_slist_ptr, Payload.ptr l2⟩]
        ++ registration curl a CURLOPT_READFUNCTION CURLOPT_READDATA
            CType.curl_read_callback Trampoline.read true) →
      (N.curl_easy_perform pre curl = CURLE_OK ∨ mode = false) →
      ∀ r, r = upload p N istr url username password size mode c a headers result w →
        r.1 = Outcome.ok () ∧
        r.2.trace = pre ++ [NativeCall.curl_easy_perform curl,
          NativeCall.curl_easy_setopt curl CURLOPT_HTTPHEADER ⟨CType.nullptr_t, Payload.null⟩,
          NativeCall.curl_slist_free_all l2] ∧
        (Native.state N pre).option curl CURLOPT_HTTPHEADER
          = some ⟨CType.curl_slist_ptr, Payload.addr l2⟩ ∧
        (Native.state N pre).chain l2 = some ["Transfer-Encoding: chunked", "Expect:"] ∧
        (Native.state N (pre ++ [NativeCall.curl_easy_perform curl,
          NativeCall.curl_easy_setopt curl CURLOPT_HTTPHEADER
            ⟨CType.nullptr_t, Payload.null⟩])).option curl CURLOPT_HTTPHEADER
          = some ⟨CType.nullptr_t, Payload.null⟩ ∧
        (Native.state N (pre ++ [NativeCall.curl_easy_perform curl,
          NativeCall.curl_easy_setopt curl CURLOPT_HTTPHEADER
            ⟨CType.nullptr_t, Payload.null⟩])).chain l2
          = some ["Transfer-Encoding: chunked", "Expect:"] ∧
        (Native.state N r.2.trace).chain l2 = none) ∧
    (size ≠ -1 → ∀ pre,
      pre = w.trace ++ (upload_setup p curl url username password size
        ++ registration curl a CURLOPT_READFUNCTION CURLOPT_READDATA
            CType.curl_read_callback Trampoline.read true) →
      (N.curl_easy_perform pre curl = CURLE_OK ∨ mode = false) →
      ∀ r, r = upload p N istr url username password size mode c a headers result w →
        r.1 = Outcome.ok () ∧
        r.2.trace = pre ++ [NativeCall.curl_easy_perform curl,
          NativeCall.curl_easy_setopt curl CURLOPT_HTTPHEADER
            ⟨CType.nullptr_t, Payload.null⟩] ∧
        ∀ c2 v, NativeCall.curl_easy_setopt c2 CURLOPT_HTTPHEADER v
            ∈ r.2.trace.drop w.trace.length → v.payload = Payload.null) := by
  refine ⟨?_, ?_⟩
  · intro hsz l1 l2 pre hl1 hl2 h1 h2 hpre hperform r hr
    subst hsz hpre hr
    obtain ⟨base, impl2, hrun, hbase⟩ := upload_chunked_run p N w istr url username password
      mode c a headers result curl l1 l2 hN ha hne hcurl h0 hl1 hl2 hsize hperform
    rw [hrun]
    have hp : Payload.ptr l2 = Payload.addr l2 := by simp [Payload.ptr, h2]
    have hk1 : CURLOPT_HTTPHEADER ≠ CURLOPT_READFUNCTION := by decide
    have hk2 : CURLOPT_HTTPHEADER ≠ CURLOPT_READDATA := by decide
    refine ⟨rfl, ?_, ?_, ?_, ?_, ?_, ?_⟩
    · simp [World.after, hbase, slist_free_of, h2]
    · obtain ⟨flag, bits⟩ := p
      cases flag <;>
      · simp only [upload_setup, Bool.false_eq_true, if_false, if_true, List.append_assoc,
          List.cons_append, List.nil_append, registration] at hl1 hl2 ⊢
        rw [Native.state_concat]
        simp [Native.replay, NativeState.step, hN, ← hl1, ← hl2, h1, h2, hp, hk1, hk2]
    · obtain ⟨flag, bits⟩ := p
      cases flag <;>
      · simp only [upload_setup, Bool.false_eq_true, if_false, if_true, List.append_assoc,
          List.cons_append, List.nil_append, registration] at hl1 hl2 ⊢
        rw [Native.state_concat]
        simp [Native.replay, NativeState.step, hN, ← hl1, ← hl2, h1, h2, hp, hk1, hk2]
    · obtain ⟨flag, bits⟩ := p
      cases flag <;>
      · simp only [upload_setup, Bool.false_eq_true, if_false, if_true, List.append_assoc,
          List.cons_append, List.nil_append, registration] at hl1 hl2 ⊢
        rw [Native.state_concat]
        simp [Native.replay, NativeState.step, hN, ← hl1, ← hl2, h1, h2, hp, hk1, hk2]
    · obtain ⟨flag, bits⟩ := p
      cases flag <;>
      · simp only [upload_setup, Bool.false_eq_true, if_false, if_true, List.append_assoc,
          List.cons_append, List.nil_append, registration] at hl1 hl2 ⊢
        rw [Native.state_concat]
        simp [Native.replay, NativeState.step, hN, ← hl1, ← hl2, h1, h2, hp, hk1, hk2]
    · have e : (World.after base a impl2
          (upload_setup p curl url username password (-1)
            ++ [NativeCall.curl_slist_append 0 "Transfer-Encoding: chunked",
                NativeCall.curl_slist_append l1 "Expect:",
                NativeCall.curl_easy_setopt curl CURLOPT_HTTPHEADER
                  ⟨CType.curl_slist_ptr, Payload.ptr l2⟩]
            ++ registration curl a CURLOPT_READFUNCTION CURLOPT_READDATA
                CType.curl_read_callback Trampoline.read true
            ++ [NativeCall.curl_easy_perform curl,
                NativeCall.curl_easy_setopt curl CURLOPT_HTTPHEADER
                  ⟨CType.nullptr_t, Payload.null⟩]
            ++ slist_free_of l2)).trace
          = w.trace ++ (upload_setup p curl url username password (-1)
            ++ [NativeCall.curl_slist_append 0 "Transfer-Encoding: chunked",
                NativeCall.curl_slist_append l1 "Expect:",
                NativeCall.curl_easy_setopt curl CURLOPT_HTTPHEADER
                  ⟨CType.curl_slist_ptr, Payload.ptr l2⟩]
            ++ registration curl a CURLOPT_READFUNCTION CURLOPT_READDATA
                CType.curl_read_callback Trampoline.read true
            ++ [NativeCall.curl_easy_perform curl,
                NativeCall.curl_easy_setopt curl CURLOPT_HTTPHEADER
                  ⟨CType.nullptr_t, Payload.null⟩]
            ++ slist_free_of l2) := by
        simp [World.after, hbase]
      simp only [e]
      obtain ⟨flag, bits⟩ := p
      cases flag <;>
      · simp only [upload_setup, Bool.false_eq_true, if_false, if_true, List.append_assoc,
          List.cons_append, List.nil_append, registration, slist_free_of, if_pos h2]
          at hl1 hl2 ⊢
        rw [Native.state_concat]
        simp [Native.replay, NativeState.step, hN, ← hl1, ← hl2, h1, h2, hp, hk1, hk2]
  · intro hsz pre hpre hperform r hr
    subst hpre hr
    obtain ⟨base, impl2, hrun, hbase⟩ := upload_sized_run p N w istr url username password
      size mode c a headers result curl hN ha hne hsz hcurl h0 hsize hperform
    rw [hrun]
    refine ⟨rfl, ?_, ?_⟩
    · simp [World.after, hbase]
    · intro c2 v hv
      have e : (World.after base a impl2
          (upload_setup p curl url username password size
            ++ registration curl a CURLOPT_READFUNCTION CURLOPT_READDATA
                CType.curl_read_callback Trampoline.read true
            ++ [NativeCall.curl_easy_perform curl,
                NativeCall.curl_easy_setopt curl CURLOPT_HTTPHEADER
                  ⟨CType.nullptr_t, Payload.null⟩])).trace
          = w.trace ++ (upload_setup p curl url username password size
            ++ registration curl a CURLOPT_READFUNCTION CURLOPT_READDATA
                CType.curl_read_callback Trampoline.read true
            ++ [NativeCall.curl_easy_perform curl,
                NativeCall.curl_easy_setopt curl CURLOPT_HTTPHEADER
                  ⟨CType.nullptr_t, Payload.null⟩]) := by
        simp [World.after, hbase]
      simp only [e, List.drop_left] at hv
      have k1 : CURLOPT_HTTPHEADER ≠ CURLOPT_USERAGENT := by decide
      have k2 : CURLOPT_HTTPHEADER ≠ CURLOPT_URL := by decide
      have k3 : CURLOPT_HTTPHEADER ≠ CURLOPT_USERNAME := by decide
      have k4 : CURLOPT_HTTPHEADER ≠ CURLOPT_PASSWORD := by decide
      have k5 : CURLOPT_HTTPHEADER ≠ CURLOPT_INFILESIZE_LARGE := by decide
      have k6 : CURLOPT_HTTPHEADER ≠ CURLOPT_UPLOAD := by decide
      have k7 : CURLOPT_HTTPHEADER ≠ CURLOPT_READFUNCTION := by decide
      have k8 : CURLOPT_HTTPHEADER ≠ CURLOPT_READDATA := by decide
      obtain ⟨flag, bits⟩ := p
      cases flag <;>
      · simp [upload_setup, registration, k1, k2, k3, k4, k5, k6, k7, k8] at hv
        rw [hv.2]

/-- C15, at an input: an upload of unknown size with the session `7`, every native call
succeeding; `curl_slist_append` hands out the chain `500`. -/
theorem upload_headers_witness :
    (upload ⟨false, 64⟩ (Native.always CURLE_OK 7) std_istream.at_end "http://host/file"
        "user" "secret" (-1) true 1 100 2 3 World.empty).1 = Outcome.ok () ∧
    (Native.state (Native.always CURLE_OK 7)
        ([] ++ (upload_setup ⟨false, 64⟩ 7 "http://host/file" "user" "secret" (-1)
          ++ [NativeCall.curl_slist_append 0 "Transfer-Encoding: chunked",
              NativeCall.curl_slist_append 500 "Expect:",
              NativeCall.curl_easy_setopt 7 CURLOPT_HTTPHEADER
                ⟨CType.curl_slist_ptr, Payload.ptr 500⟩]
          ++ registration 7 100 CURLOPT_READFUNCTION CURLOPT_READDATA
              CType.curl_read_callback Trampoline.read true))).chain 500
      = some ["Transfer-Encoding: chunked", "Expect:"] :=
  have h := (upload_headers ⟨false, 64⟩ (Native.always CURLE_OK 7) (World.empty : World Unit)
    std_istream.at_end "http://host/file" "user" "secret" (-1) true 1 100 2 3 7
    (fun _ _ _ _ => rfl) (by decide) (by decide) rfl (by decide) (Or.inl rfl)).1 rfl
    500 500 _ rfl rfl (by decide) (by decide) rfl (Or.inl rfl) _ rfl
  ⟨h.1, h.2.2.2.1⟩

/-- C20, a counterexample: a string of `2 ^ 31` bytes, the native functions being
percent-encoding and percent-decoding.  Its size does not fit the `int` that
`curl_easy_escape` takes: the length handed over is `-2 ^ 31`, for which
`curl_easy_escape` returns a null pointer, so `escape` returns the empty string, and
`unescape` of that is the empty string, not the string. -/
theorem Easy.escape_narrows_size :
    long_string.length = 2 ^ 31 ∧
    int_of_size_t long_string.length = -(2 ^ 31) ∧
    (Easy.escape (Native.always CURLE_OK 7) 1 long_string
        (World.single (Easy.Pimpl.fresh 7 true : Easy.Pimpl Unit))).1 = Outcome.ok [] ∧
    (Prog.bind (Easy.escape (Native.always CURLE_OK 7) 1 long_string)
        (Easy.unescape (Native.always CURLE_OK 7) 1)
        (World.single (Easy.Pimpl.fresh 7 true : Easy.Pimpl Unit))).1 = Outcome.ok [] ∧
    long_string ≠ [] := by
  have hlen : int_of_size_t long_string.length = -(2 ^ 31) := by
    rw [long_string_length]
    decide
  have hrun := Easy.escape_of_negative (Native.always CURLE_OK 7)
    (World.single (Easy.Pimpl.fresh 7 true : Easy.Pimpl Unit)) 1 100 _ (Holds.single _)
    (fun _ _ _ _ => rfl) long_string (by rw [hlen]; decide)
  refine ⟨long_string_length, hlen, ?_, ?_, ?_⟩
  · rw [hrun]
  · rw [Prog.bind_ok hrun]
    exact Easy.unescape_nil (Native.always CURLE_OK 7) _ 1 100 _ ((Holds.single _).called _)
      (fun _ _ _ _ => rfl)
  · intro h
    have := congrArg List.length h
    rw [long_string_length] at this
    exact absurd this (by decide)

/-- C20, amended: for every byte string whose percent-encoded form is shorter than
`2 ^ 31` bytes (the empty string and strings with zero bytes among them),
`unescape( escape( s ) )` is `s`, the native functions being percent-encoding and
percent-decoding: on a handle that has its private state, `escape( s )` returns the
percent-encoded form of `s`, and `unescape` of that returns `s`. -/
theorem Easy.unescape_escape {σ : Type} (N : Native) (w : World σ) (this a : Ptr)
    (impl : Easy.Pimpl σ) (h : Holds w this a impl)
    (hE : ∀ tr c string length, N.curl_easy_escape tr c string length = url_escape string length)
    (hU : ∀ tr c string length,
      N.curl_easy_unescape tr c string length = url_unescape string length)
    (s : Vec Byte) (hs : (percent_encode s).length < 2 ^ 31) :
    (Easy.escape N this s w).1 = Outcome.ok (percent_encode s) ∧
    (Prog.bind (Easy.escape N this s) (Easy.unescape N this) w).1 = Outcome.ok s := by
  have hs2 : s.length < 2 ^ 31 := lt_of_le_of_lt (percent_encode_length s) hs
  have hrun : Easy.escape N this s w
      = (Outcome.ok (percent_encode s),
          (w.called (NativeCall.curl_easy_escape impl.curl (s ++ [0])
            (int_of_size_t s.length))).called (NativeCall.curl_free (percent_encode s))) := by
    rw [Easy.escape_run N w this a impl h, hE]
    unfold url_escape
    rw [native_input_self s hs2]
    simp only [Option.map_some']
    rw [c_string_percent_encode]
  refine ⟨by rw [hrun], ?_⟩
  rw [Prog.bind_ok hrun, Easy.unescape_run N _ this a impl ((h.called _).called _), hU]
  unfold url_unescape
  rw [native_input_self _ hs]
  simp only [Option.map_some', decode_encode]
  rw [int_of_size_t_small _ hs2, if_pos ⟨by omega, by omega⟩]
  simp

/-- C20, at an input: the string of the three bytes `a`, zero and `%`. -/
theorem Easy.unescape_escape_witness :
    (Easy.escape (Native.always CURLE_OK 7) 1 [97, 0, 37]
        (World.single (Easy.Pimpl.fresh 7 true : Easy.Pimpl Unit))).1
      = Outcome.ok [97, 37, 48, 48, 37, 50, 53] ∧
    (Prog.bind (Easy.escape (Native.always CURLE_OK 7) 1 [97, 0, 37])
        (Easy.unescape (Native.always CURLE_OK 7) 1)
        (World.single (Easy.Pimpl.fresh 7 true : Easy.Pimpl Unit))).1
      = Outcome.ok [97, 0, 37] :=
  Easy.unescape_escape (Native.always CURLE_OK 7)
    (World.single (Easy.Pimpl.fresh 7 true : Easy.Pimpl Unit)) 1 100 _ (Holds.single _)
    (fun _ _ _ _ => rfl) (fun _ _ _ _ => rfl) [97, 0, 37] (by decide)

/-- C21: on a handle that has its private state and exception mode off, `send` and
`recv` make exactly one native call (`curl_easy_send`, `curl_easy_recv`) and leave its
status as the last error; they return the byte count the native call reported when the
status is `CURLE_OK`, and `0` for every other status, whatever count was reported. -/
theorem Easy.send_recv_count {σ : Type} (N : Native) (w : World σ) (this a : Ptr)
    (impl : Easy.Pimpl σ) (h : Holds w this a impl) (hm : impl.throwExceptions = false)
    (buffer : Ptr) (bufferSize : Nat) :
    (∀ r, r = Easy.send N this buffer bufferSize w →
      r.2.trace = w.trace ++ [NativeCall.curl_easy_send impl.curl buffer bufferSize] ∧
      (Easy.error this r.2).1
        = Outcome.ok (N.curl_easy_send w.trace impl.curl buffer bufferSize).1 ∧
      ((N.curl_easy_send w.trace impl.curl buffer bufferSize).1 = CURLE_OK →
        r.1 = Outcome.ok (N.curl_easy_send w.trace impl.curl buffer bufferSize).2) ∧
      ((N.curl_easy_send w.trace impl.curl buffer bufferSize).1 ≠ CURLE_OK →
        r.1 = Outcome.ok 0)) ∧
    (∀ r, r = Easy.recv N this buffer bufferSize w →
      r.2.trace = w.trace ++ [NativeCall.curl_easy_recv impl.curl buffer bufferSize] ∧
      (Easy.error this r.2).1
        = Outcome.ok (N.curl_easy_recv w.trace impl.curl buffer bufferSize).1 ∧
      ((N.curl_easy_recv w.trace impl.curl buffer bufferSize).1 = CURLE_OK →
        r.1 = Outcome.ok (N.curl_easy_recv w.trace impl.curl buffer bufferSize).2) ∧
      ((N.curl_easy_recv w.trace impl.curl buffer bufferSize).1 ≠ CURLE_OK →
        r.1 = Outcome.ok 0)) := by
  refine ⟨?_, ?_⟩
  · intro r hr
    subst hr
    rw [Easy.send_run N w this a impl h, Easy.error_run _ this a _ ((h.called _).setPimpl _)]
    exact ⟨rfl, rfl, fun hc => by simp [hc], fun hc => by simp [hc, hm]⟩
  · intro r hr
    subst hr
    rw [Easy.recv_run N w this a impl h, Easy.error_run _ this a _ ((h.called _).setPimpl _)]
    exact ⟨rfl, rfl, fun hc => by simp [hc], fun hc => by simp [hc, hm]⟩

/-- C21, at an input: exception mode off, a native library that reports the whole
buffer as transferred with the status `3`, and one that does so with `CURLE_OK`. -/
theorem Easy.send_recv_count_witness :
    (Native.always 3 7).curl_easy_send [] 7 40 16 = (3, 16) ∧
    (Easy.send (Native.always 3 7) 1 40 16
        (World.single (Easy.Pimpl.fresh 7 false : Easy.Pimpl Unit))).1 = Outcome.ok 0 ∧
    (Easy.recv (Native.always CURLE_OK 7) 1 40 16
        (World.single (Easy.Pimpl.fresh 7 false : Easy.Pimpl Unit))).1 = Outcome.ok 16 :=
  ⟨rfl,
   ((Easy.send_recv_count (Native.always 3 7)
      (World.single (Easy.Pimpl.fresh 7 false : Easy.Pimpl Unit)) 1 100 _ (Holds.single _) rfl
      40 16).1 _ rfl).2.2.2 (by decide),
   ((Easy.send_recv_count (Native.always CURLE_OK 7)
      (World.single (Easy.Pimpl.fresh 7 false : Easy.Pimpl Unit)) 1 100 _ (Holds.single _) rfl
      40 16).2 _ rfl).2.2.1 rfl⟩

/-- C22, the code at the failing inputs, on a handle with the session `7` and the
private state at `100`, every native call succeeding.  A chunk-begin handler is
registered, then the chunk-end handler is cleared: `onChunkEnd()` sets
`CURLOPT_CHUNK_DATA`, the one data option of both kinds, to null, so the chunk-begin
trampoline stays installed with a null pointer, for which it returns
`CURL_CHUNK_BGN_FUNC_FAIL` and does not call the handler that the slot still holds.  A
transfer-info handler is registered, then the progress handler is cleared:
`onProgress()` sets `CURLOPT_PROGRESSDATA`, which is `CURLOPT_XFERINFODATA`, to null and
`CURLOPT_NOPROGRESS` to `1`, so progress reporting is off for the transfer-info
trampoline that stays installed. -/
theorem Easy.on_clears_shared_options :
    (Native.state (Native.always CURLE_OK 7)
      (Easy.onChunkBegin ⟨false, 64⟩ (Native.always CURLE_OK 7) 1
        (some (fun _ _ _ (u : Nat) => (0, u + 1))) 0
        (World.single (Easy.Pimpl.fresh 7 true))).2.trace).option 7 CURLOPT_CHUNK_DATA
      = some ⟨CType.void_ptr, Payload.addr 100⟩ ∧
    (Native.state (Native.always CURLE_OK 7)
      (Easy.onChunkEnd ⟨false, 64⟩ (Native.always CURLE_OK 7) 1 none 0
        (Easy.onChunkBegin ⟨false, 64⟩ (Native.always CURLE_OK 7) 1
          (some (fun _ _ _ (u : Nat) => (0, u + 1))) 0
          (World.single (Easy.Pimpl.fresh 7 true))).2).2.trace).option 7
        CURLOPT_CHUNK_BGN_FUNCTION
      = some ⟨CType.curl_chunk_bgn_callback, Payload.fn Trampoline.chunkBegin⟩ ∧
    (Native.state (Native.always CURLE_OK 7)
      (Easy.onChunkEnd ⟨false, 64⟩ (Native.always CURLE_OK 7) 1 none 0
        (Easy.onChunkBegin ⟨false, 64⟩ (Native.always CURLE_OK 7) 1
          (some (fun _ _ _ (u : Nat) => (0, u + 1))) 0
          (World.single (Easy.Pimpl.fresh 7 true))).2).2.trace).option 7 CURLOPT_CHUNK_DATA
      = some ⟨CType.void_ptr, Payload.null⟩ ∧
    (∃ impl, Holds (Easy.onChunkEnd ⟨false, 64⟩ (Native.always CURLE_OK 7) 1 none 0
        (Easy.onChunkBegin ⟨false, 64⟩ (Native.always CURLE_OK 7) 1
          (some (fun _ _ _ (u : Nat) => (0, u + 1))) 0
          (World.single (Easy.Pimpl.fresh 7 true))).2).2 1 100 impl ∧
      impl.onChunkBegin.handler.isSome = true) ∧
    (Easy.Pimpl.chunkBegin 50 0 3 (10 : Nat)
      (Easy.onChunkEnd ⟨false, 64⟩ (Native.always CURLE_OK 7) 1 none 0
        (Easy.onChunkBegin ⟨false, 64⟩ (Native.always CURLE_OK 7) 1
          (some (fun _ _ _ (u : Nat) => (0, u + 1))) 0
          (World.single (Easy.Pimpl.fresh 7 true))).2).2).1
      = Outcome.ok (CURL_CHUNK_BGN_FUNC_FAIL, 10) ∧
    CURLOPT_XFERINFODATA = CURLOPT_PROGRESSDATA ∧
    (Native.state (Native.always CURLE_OK 7)
      (Easy.onXferInfo ⟨false, 64⟩ (Native.always CURLE_OK 7) 1
        (some (fun _ _ _ _ _ (u : Nat) => (0, u + 1))) 0
        (World.single (Easy.Pimpl.fresh 7 true))).2.trace).option 7 CURLOPT_NOPROGRESS
      = some ⟨CType.long, Payload.int 0⟩ ∧
    (Native.state (Native.always CURLE_OK 7)
      (Easy.onProgress ⟨false, 64⟩ (Native.always CURLE_OK 7) 1 none 0
        (Easy.onXferInfo ⟨false, 64⟩ (Native.always CURLE_OK 7) 1
          (some (fun _ _ _ _ _ (u : Nat) => (0, u + 1))) 0
          (World.single (Easy.Pimpl.fresh 7 true))).2).2.trace).option 7
        CURLOPT_XFERINFOFUNCTION
      = some ⟨CType.curl_xferinfo_callback, Payload.fn Trampoline.xferInfo⟩ ∧
    (Native.state (Native.always CURLE_OK 7)
      (Easy.onProgress ⟨false, 64⟩ (Native.always CURLE_OK 7) 1 none 0
        (Easy.onXferInfo ⟨false, 64⟩ (Native.always CURLE_OK 7) 1
          (some (fun _ _ _ _ _ (u : Nat) => (0, u + 1))) 0
          (World.single (Easy.Pimpl.fresh 7 true))).2).2.trace).option 7 CURLOPT_NOPROGRESS
      = some ⟨CType.long, Payload.int 1⟩ ∧
    (Native.state (Native.always CURLE_OK 7)
      (Easy.onProgress ⟨false, 64⟩ (Native.always CURLE_OK 7) 1 none 0
        (Easy.onXferInfo ⟨false, 64⟩ (Native.always CURLE_OK 7) 1
          (some (fun _ _ _ _ _ (u : Nat) => (0, u + 1))) 0
          (World.single (Easy.Pimpl.fresh 7 true))).2).2.trace).option 7 CURLOPT_XFERINFODATA
      = some ⟨CType.void_ptr, Payload.null⟩ :=
  ⟨by decide, by decide, by decide, ⟨_, ⟨rfl, by decide, rfl⟩, rfl⟩, rfl, rfl,
    by decide, by decide, by decide, by decide⟩

/-- C23, the code at the failing input: a `List` is built from the values `"a"` and
`"b"`, and the second `curl_slist_append` fails.  `append` assigns what the native call
returns to `_list` whatever it is: after the first call the wrapper holds the chain
`500` with the string `"a"`; after the second, which returns null, the wrapper holds
null, while the native library still holds the chain `500` with `"a"`.  The destructor
then has nothing to free: it makes no native call, and the chain is never freed. -/
theorem List.append_loses_chain :
    (List.ctor_values Native.failing_append 1 ["a"] (World.empty : World Unit)).2.lists 1
      = some ⟨500⟩ ∧
    (List.ctor_values Native.failing_append 1 ["a", "b"] (World.empty : World Unit)).1
      = Outcome.ok () ∧
    (List.ctor_values Native.failing_append 1 ["a", "b"] (World.empty : World Unit)).2.trace
      = [NativeCall.curl_slist_append 0 "a", NativeCall.curl_slist_append 500 "b"] ∧
    Native.failing_append.curl_slist_append [NativeCall.curl_slist_append 0 "a"] 500 "b" = 0 ∧
    (List.ctor_values Native.failing_append 1 ["a", "b"] (World.empty : World Unit)).2.lists 1
      = some ⟨0⟩ ∧
    (Native.state Native.failing_append
      (List.ctor_values Native.failing_append 1 ["a", "b"]
        (World.empty : World Unit)).2.trace).chain 500 = some ["a"] ∧
    (List.dtor 1 (List.ctor_values Native.failing_append 1 ["a", "b"]
        (World.empty : World Unit)).2).2.trace
      = [NativeCall.curl_slist_append 0 "a", NativeCall.curl_slist_append 500 "b"] :=
  ⟨rfl, rfl, rfl, rfl, rfl, rfl, rfl⟩

/-- C24, the code at the failing input: the constructor `Easy::Easy()` where
`curl_easy_init` hands out the session `7` and the `curl_easy_setopt` of the user agent
fails with the status `27`.  Exception mode is on in a new private state, so `set`
raises; the exception leaves the constructor, the member `_impl` is destroyed, which
deletes the private state, and `~Easy` does not run.  The native calls made are
`curl_easy_init` and `curl_easy_setopt` and no `curl_easy_cleanup`: the session `7` is
released by nobody, and no object is left that holds it. -/
theorem Easy.ctor_leaks_session :
    (Native.always 27 7).curl_easy_init [] = 7 ∧
    (Easy.ctor ⟨false, 64⟩ (Native.always 27 7) 1 100 (World.empty : World Unit)).1
      = Outcome.raised ⟨(Native.always 27 7).curl_easy_strerror 27⟩ ∧
    (Easy.ctor ⟨false, 64⟩ (Native.always 27 7) 1 100 (World.empty : World Unit)).2.trace
      = [NativeCall.curl_easy_init,
         NativeCall.curl_easy_setopt 7 CURLOPT_USERAGENT
           ⟨CType.const_char_ptr, Payload.cstr "curlite::Easy"⟩] ∧
    cleanups (Easy.ctor ⟨false, 64⟩ (Native.always 27 7) 1 100
      (World.empty : World Unit)).2.trace = [] ∧
    (Easy.ctor ⟨false, 64⟩ (Native.always 27 7) 1 100 (World.empty : World Unit)).2.easies 1
      = none ∧
    (Easy.ctor ⟨false, 64⟩ (Native.always 27 7) 1 100 (World.empty : World Unit)).2.pimpls 100
      = none :=
  ⟨rfl, rfl, rfl, rfl, rfl, rfl⟩

/-- C25: the debug trampoline returns `0` for every input.  Handed a null pointer, or a
pointer to a private state whose debug slot holds no handler, it runs no user code.
Handed a pointer to a private state whose debug slot holds a handler, it calls that
handler once, with a null pointer for the handle (whatever handle the native library
passed), the type, the data and the size it was given, and the user data of the slot;
what the handler returns is dropped. -/
theorem Easy.Pimpl.debug_returns_zero {σ : Type} (w : World σ) (handle : Ptr) (type : Int)
    (data : Ptr) (size : Nat) (u : σ) :
    Easy.Pimpl.debug handle type data size 0 u w = (Outcome.ok (0, u), w) ∧
    (∀ userPtr impl, userPtr ≠ 0 → w.pimpls userPtr = some impl →
      (impl.onDebug.handler = none →
        Easy.Pimpl.debug handle type data size userPtr u w = (Outcome.ok (0, u), w)) ∧
      (∀ handler, impl.onDebug.handler = some handler →
        Easy.Pimpl.debug handle type data size userPtr u w
          = (Outcome.ok (0, (handler 0 type data size impl.onDebug.data u).2), w))) := by
  refine ⟨by simp [Easy.Pimpl.debug, Prog.pure], ?_⟩
  intro userPtr impl hz hp
  refine ⟨fun hn => ?_, fun handler hh => ?_⟩
  · simp [Easy.Pimpl.debug, hz, Prog.bind, Easy.Pimpl.load, hp, hn, Prog.pure]
  · simp [Easy.Pimpl.debug, hz, Prog.bind, Easy.Pimpl.load, hp, hh, Prog.pure]

/-- C25, at an input: a debug handler that returns `5` and adds the handle it gets and
`1` to the user state; the native library passes the handle `77`. -/
theorem Easy.Pimpl.debug_returns_zero_witness :
    Easy.Pimpl.debug 77 2 30 4 100 10
        (World.single (Easy.Pimpl.debugging (fun handle _ _ _ _ u => (5, u + handle + 1))))
      = (Outcome.ok (0, 11),
          World.single (Easy.Pimpl.debugging (fun handle _ _ _ _ u => (5, u + handle + 1)))) :=
  ((Easy.Pimpl.debug_returns_zero
    (World.single (Easy.Pimpl.debugging (fun handle _ _ _ _ (u : Nat) => (5, u + handle + 1))))
    77 2 30 4 10).2 100 _ (by decide) rfl).2 _ rfl

end curlite
